import Mathlib

/-!
# Route emitter: handler, syncer and routing table

A shallow embedding of `routehandlers/handler.go`, `syncer/syncer.go` and
`syncer/routing_api_syncer.go`, together with a model of the NATS routing table
exercised by `routingtable/nats_routing_table_test.go`.

The `Run` methods of the syncers are state machines: a step consumes what a `select`
receives, a clock advance or a receive of a consumer, and a script of such arrivals
gives the state reached. Durations are `int64` nanoseconds, with the wrap-around of
`int64` products and the rounding of `float64` made explicit.

Go objects that are shared by pointer (routing tables, emitters) are modelled as
references into an explicit store; every call on a collaborator is recorded in a
trace, so that "who was called with what, and in which order" can be stated.

The definitions come first, the lemmas and theorems after them.
-/

namespace RouteEmitter

/-! ## Definitions: routehandlers/handler.go -/

section HandlerModel

variable {T D A Dom M R : Type}

/-- Metric name `routesTotal`. -/
def routesTotal : String := "RoutesTotal"

/-- Metric name `routesSynced`. -/
def routesSynced : String := "RoutesSynced"

/-- Metric name `routesRegistered`. -/
def routesRegistered : String := "RoutesRegistered"

/-- Metric name `routesUnregistered`. -/
def routesUnregistered : String := "RoutesUnregistered"

/-- Metric name `httpRouteCount`. -/
def httpRouteCount : String := "HTTPRouteCount"

/-- Metric name `tcpRouteCount`. -/
def tcpRouteCount : String := "TCPRouteCount"

/-- A pointer to a routing table object. -/
abbrev TableRef := Nat

/-- A pointer to an emitter object. -/
abbrev EmitterRef := Nat

/-- The value of `models.ActualLRPStateRunning` (bbs library). -/
def ActualLRPStateRunning : String := "RUNNING"

/-- The events `HandleEvent` distinguishes in its type switch. A desired-LRP event
carries the scheduling info that `DesiredLRPSchedulingInfo()` projects out of it
(type `D`), an actual-LRP event the routing info built by
`NewActualLRPRoutingInfo` (type `A`); any other event kind only exposes its
`EventType()`. -/
inductive Event (D A : Type) where
  | DesiredLRPCreatedEvent (desiredLrp : D)
  | DesiredLRPChangedEvent (before after : D)
  | DesiredLRPRemovedEvent (desiredLrp : D)
  | ActualLRPCreatedEvent (actualLrpGroup : A)
  | ActualLRPChangedEvent (before after : A)
  | ActualLRPRemovedEvent (actualLrpGroup : A)
  | unrecognized (eventType : String)

/-- A method call on a `routingtable.RoutingTable`, with its arguments. -/
inductive TableCall (D A Dom : Type) where
  | SetRoutes (before : Option D) (after : D)
  | RemoveRoutes (desiredLrp : D)
  | AddEndpoint (actualLrp : A)
  | RemoveEndpoint (actualLrp : A)
  | Swap (newTable : TableRef) (domains : Dom)
  | GetRoutingEvents

/-- One observable action of the handler on a collaborator. -/
inductive Effect (D A Dom M R : Type) where
  | newRoutingTable (ref : TableRef)
  | table (ref : TableRef) (call : TableCall D A Dom)
  | natsEmit (emitter : EmitterRef) (messages : M)
  | routingAPIEmit (emitter : EmitterRef) (mappings : R)
  | incrementCounter (name : String) (delta : Nat)
  | sendMetric (name : String) (value : Nat)
  | sendDuration (name : String)
  | logError (message : String)

/-- The `routingtable.RoutingTable` interface and the other collaborators of the
handler, none of which is defined in `handler.go`: the table operations as
functions on a table state `T`, the zero values of `MessagesToEmit` (`M`) and
`TCPRouteMappings` (`R`), the message counters, the state of an actual LRP, and
whether a given emitter or metrics call reports an error. -/
structure Collaborators (T D A Dom M R : Type) where
  emptyTable : T
  SetRoutes : T → Option D → D → T × R × M
  RemoveRoutes : T → D → T × R × M
  AddEndpoint : T → A → T × R × M
  RemoveEndpoint : T → A → T × R × M
  Swap : T → T → Dom → T × R × M
  GetRoutingEvents : T → R × M
  HTTPAssociationsCount : T → Nat
  TCPAssociationsCount : T → Nat
  HasExternalRoutes : T → A → Bool
  zeroMessages : M
  zeroMappings : R
  RouteRegistrationCount : M → Nat
  RouteUnregistrationCount : M → Nat
  actualState : A → String
  natsEmitFails : M → Bool
  routingAPIEmitFails : R → Bool
  metronFails : String → Bool

/-- The fields of `type Handler struct`. -/
structure Handler where
  routingTable : TableRef
  natsEmitter : Option EmitterRef
  routingAPIEmitter : Option EmitterRef
  localMode : Bool
  metronClient : Nat
  deriving DecidableEq, Repr

/-- The handler together with the store of routing tables it can reach and the
trace of calls made so far. `nextRef` is the first unallocated table
reference. -/
structure State (T D A Dom M R : Type) where
  handler : Handler
  tables : TableRef → T
  nextRef : TableRef
  trace : List (Effect D A Dom M R)

/-- Append one call to the trace. -/
def State.record (s : State T D A Dom M R) (e : Effect D A Dom M R) : State T D A Dom M R :=
  { s with trace := s.trace ++ [e] }

/-- The `if err != nil { logger.Error(msg, err) }` idiom. -/
def State.logIf (s : State T D A Dom M R) (failed : Bool) (msg : String) : State T D A Dom M R :=
  if failed then s.record (.logError msg) else s

/-- A call of a mutating table method on the table behind `ref`: the table state is
replaced by the one the method leaves, the call is recorded, the method's results
are returned. -/
def State.callTable (s : State T D A Dom M R) (ref : TableRef) (call : TableCall D A Dom)
    (result : T × R × M) : State T D A Dom M R × R × M :=
  ({ s with tables := Function.update s.tables ref result.1,
            trace := s.trace ++ [.table ref call] }, result.2.1, result.2.2)

/-- The call `routingtable.NewRoutingTable(logger, false, handler.metronClient)`: a fresh
table object. -/
def NewRoutingTable (c : Collaborators T D A Dom M R) (s : State T D A Dom M R) :
    TableRef × State T D A Dom M R :=
  (s.nextRef,
   { s with tables := Function.update s.tables s.nextRef c.emptyTable,
            nextRef := s.nextRef + 1,
            trace := s.trace ++ [.newRoutingTable s.nextRef] })

/-- The method `Handler.emitMessages`. -/
def emitMessages (c : Collaborators T D A Dom M R) (s : State T D A Dom M R)
    (messagesToEmit : M) (routeMappings : R) : State T D A Dom M R :=
  let s :=
    match s.handler.natsEmitter with
    | some e =>
      let s := s.record (.natsEmit e messagesToEmit)
      let s := s.logIf (c.natsEmitFails messagesToEmit) "failed-to-emit-http-routes"
      let s := s.record (.incrementCounter routesRegistered (c.RouteRegistrationCount messagesToEmit))
      let s := s.logIf (c.metronFails routesRegistered) "failed-to-emit-registration-message-count"
      let s := s.record
        (.incrementCounter routesUnregistered (c.RouteUnregistrationCount messagesToEmit))
      s.logIf (c.metronFails routesUnregistered) "failed-to-emit-unregistration-message-count"
    | none => s
  match s.handler.routingAPIEmitter with
  | some e =>
    let s := s.record (.routingAPIEmit e routeMappings)
    s.logIf (c.routingAPIEmitFails routeMappings) "failed-to-emit-http-routes"
  | none => s

/-- The method `Handler.handleDesiredCreate`. -/
def handleDesiredCreate (c : Collaborators T D A Dom M R) (s : State T D A Dom M R)
    (desiredLRP : D) : State T D A Dom M R :=
  let r := s.callTable s.handler.routingTable (.SetRoutes none desiredLRP)
    (c.SetRoutes (s.tables s.handler.routingTable) none desiredLRP)
  emitMessages c r.1 r.2.2 r.2.1

/-- The method `Handler.handleDesiredUpdate`. -/
def handleDesiredUpdate (c : Collaborators T D A Dom M R) (s : State T D A Dom M R)
    (before after : D) : State T D A Dom M R :=
  let r := s.callTable s.handler.routingTable (.SetRoutes (some before) after)
    (c.SetRoutes (s.tables s.handler.routingTable) (some before) after)
  emitMessages c r.1 r.2.2 r.2.1

/-- The method `Handler.handleDesiredDelete`. -/
def handleDesiredDelete (c : Collaborators T D A Dom M R) (s : State T D A Dom M R)
    (schedulingInfo : D) : State T D A Dom M R :=
  let r := s.callTable s.handler.routingTable (.RemoveRoutes schedulingInfo)
    (c.RemoveRoutes (s.tables s.handler.routingTable) schedulingInfo)
  emitMessages c r.1 r.2.2 r.2.1

/-- The method `Handler.handleActualCreate`. -/
def handleActualCreate (c : Collaborators T D A Dom M R) (s : State T D A Dom M R)
    (actualLRPInfo : A) : State T D A Dom M R :=
  if c.actualState actualLRPInfo = ActualLRPStateRunning then
    let r := s.callTable s.handler.routingTable (.AddEndpoint actualLRPInfo)
      (c.AddEndpoint (s.tables s.handler.routingTable) actualLRPInfo)
    emitMessages c r.1 r.2.2 r.2.1
  else s

/-- The method `Handler.handleActualUpdate`: when neither switch case applies the
zero-valued `messagesToEmit` and `routeMappings` are passed to `emitMessages`. -/
def handleActualUpdate (c : Collaborators T D A Dom M R) (s : State T D A Dom M R)
    (before after : A) : State T D A Dom M R :=
  let r : State T D A Dom M R × R × M :=
    if c.actualState after = ActualLRPStateRunning then
      s.callTable s.handler.routingTable (.AddEndpoint after)
        (c.AddEndpoint (s.tables s.handler.routingTable) after)
    else if c.actualState before = ActualLRPStateRunning then
      s.callTable s.handler.routingTable (.RemoveEndpoint before)
        (c.RemoveEndpoint (s.tables s.handler.routingTable) before)
    else (s, c.zeroMappings, c.zeroMessages)
  emitMessages c r.1 r.2.2 r.2.1

/-- The method `Handler.handleActualDelete`. -/
def handleActualDelete (c : Collaborators T D A Dom M R) (s : State T D A Dom M R)
    (actualLRPInfo : A) : State T D A Dom M R :=
  if c.actualState actualLRPInfo = ActualLRPStateRunning then
    let r := s.callTable s.handler.routingTable (.RemoveEndpoint actualLRPInfo)
      (c.RemoveEndpoint (s.tables s.handler.routingTable) actualLRPInfo)
    emitMessages c r.1 r.2.2 r.2.1
  else s

/-- The method `Handler.HandleEvent`. -/
def HandleEvent (c : Collaborators T D A Dom M R) (s : State T D A Dom M R)
    (event : Event D A) : State T D A Dom M R :=
  match event with
  | .DesiredLRPCreatedEvent desiredInfo => handleDesiredCreate c s desiredInfo
  | .DesiredLRPChangedEvent before after => handleDesiredUpdate c s before after
  | .DesiredLRPRemovedEvent desiredInfo => handleDesiredDelete c s desiredInfo
  | .ActualLRPCreatedEvent routingInfo => handleActualCreate c s routingInfo
  | .ActualLRPChangedEvent before after => handleActualUpdate c s before after
  | .ActualLRPRemovedEvent routingInfo => handleActualDelete c s routingInfo
  | .unrecognized _ => s.record (.logError "did-not-handle-unrecognizable-event")

/-- Lines 111-119 of `Handler.Sync`: the new table is created and filled from the
desired and the actual LRPs. Returns the new table's reference. -/
def syncBuild (c : Collaborators T D A Dom M R) (s : State T D A Dom M R)
    (desired : List D) (actuals : List A) : TableRef × State T D A Dom M R :=
  let r := NewRoutingTable c s
  let newTable := r.1
  let s := desired.foldl
    (fun s lrp => (s.callTable newTable (.SetRoutes none lrp)
      (c.SetRoutes (s.tables newTable) none lrp)).1) r.2
  let s := actuals.foldl
    (fun s lrp => (s.callTable newTable (.AddEndpoint lrp)
      (c.AddEndpoint (s.tables newTable) lrp)).1) s
  (newTable, s)

/-- Lines 125-131 of `Handler.Sync`: the emitters are set to nil, the table field
points to the new table, and the cached events are handled. The Go map is
iterated in an unspecified order: `cachedEvents` lists its entries in the order of
that iteration. -/
def syncReplay (c : Collaborators T D A Dom M R) (s : State T D A Dom M R)
    (newTable : TableRef) (cachedEvents : List (String × Event D A)) : State T D A Dom M R :=
  let s := { s with handler := { s.handler with
    natsEmitter := none, routingAPIEmitter := none, routingTable := newTable } }
  cachedEvents.foldl (fun s event => HandleEvent c s event.2) s

/-- Lines 133-167 of `Handler.Sync`: the saved table and emitters are put back, the
live table is swapped with the new one and the result is emitted. -/
def syncSwap (c : Collaborators T D A Dom M R) (s : State T D A Dom M R)
    (table : TableRef) (natsEmitter routingAPIEmitter : Option EmitterRef)
    (newTable : TableRef) (domains : Dom) : State T D A Dom M R :=
  let s := { s with handler := { s.handler with
    routingTable := table, natsEmitter := natsEmitter, routingAPIEmitter := routingAPIEmitter } }
  let r := s.callTable s.handler.routingTable (.Swap newTable domains)
    (c.Swap (s.tables s.handler.routingTable) (s.tables newTable) domains)
  let s := r.1.record (.sendDuration "table.swap.time")
  let s := emitMessages c s r.2.2 r.2.1
  if s.handler.localMode then
    let s := s.record
      (.sendMetric httpRouteCount (c.HTTPAssociationsCount (s.tables s.handler.routingTable)))
    let s := s.logIf (c.metronFails httpRouteCount) "failed-to-send-http-routes-count-metric"
    let s := s.record
      (.sendMetric tcpRouteCount (c.TCPAssociationsCount (s.tables s.handler.routingTable)))
    s.logIf (c.metronFails tcpRouteCount) "failed-to-send-tcp-route-count-metric"
  else s

/-- The method `Handler.Sync`. -/
def Sync (c : Collaborators T D A Dom M R) (s : State T D A Dom M R)
    (desired : List D) (actuals : List A) (domains : Dom)
    (cachedEvents : List (String × Event D A)) : State T D A Dom M R :=
  let built := syncBuild c s desired actuals
  let newTable := built.1
  let s := built.2
  let natsEmitter := s.handler.natsEmitter
  let routingAPIEmitter := s.handler.routingAPIEmitter
  let table := s.handler.routingTable
  let s := syncReplay c s newTable cachedEvents
  syncSwap c s table natsEmitter routingAPIEmitter newTable domains

/-- Is the effect a call on the routing table behind `ref`? -/
def Effect.onTable (ref : TableRef) : Effect D A Dom M R → Bool
  | .table r _ => decide (r = ref)
  | _ => false

/-- Is the effect a call of the NATS emitter? -/
def Effect.isNatsEmit : Effect D A Dom M R → Bool
  | .natsEmit _ _ => true
  | _ => false

/-- Is the effect a call of the routing-API emitter? -/
def Effect.isRoutingAPIEmit : Effect D A Dom M R → Bool
  | .routingAPIEmit _ _ => true
  | _ => false

/-- Is the effect an increment of the counter `name`? -/
def Effect.isIncrement (name : String) : Effect D A Dom M R → Bool
  | .incrementCounter n _ => decide (n = name)
  | _ => false

/-- Is the effect one of the four per-event table operations on the table behind
`ref`, or an error-log entry? -/
def Effect.replayOnly (ref : TableRef) : Effect D A Dom M R → Bool
  | .table r (.SetRoutes _ _) => decide (r = ref)
  | .table r (.RemoveRoutes _) => decide (r = ref)
  | .table r (.AddEndpoint _) => decide (r = ref)
  | .table r (.RemoveEndpoint _) => decide (r = ref)
  | .logError _ => true
  | _ => false

/-- The calls made since the trace had length `n`. -/
def State.since (s : State T D A Dom M R) (n : Nat) : List (Effect D A Dom M R) :=
  s.trace.drop n

/-- The error-log entry written when `failed` holds. -/
def logs (failed : Bool) (msg : String) : List (Effect D A Dom M R) :=
  if failed then [.logError msg] else []

/-- The calls `emitMessages` makes for a handler `h`. -/
def emitEffects (c : Collaborators T D A Dom M R) (h : Handler) (messagesToEmit : M)
    (routeMappings : R) : List (Effect D A Dom M R) :=
  (match h.natsEmitter with
    | some e =>
      [.natsEmit e messagesToEmit]
        ++ logs (c.natsEmitFails messagesToEmit) "failed-to-emit-http-routes"
        ++ [.incrementCounter routesRegistered (c.RouteRegistrationCount messagesToEmit)]
        ++ logs (c.metronFails routesRegistered) "failed-to-emit-registration-message-count"
        ++ [.incrementCounter routesUnregistered (c.RouteUnregistrationCount messagesToEmit)]
        ++ logs (c.metronFails routesUnregistered) "failed-to-emit-unregistration-message-count"
    | none => [])
  ++ (match h.routingAPIEmitter with
    | some e =>
      [.routingAPIEmit e routeMappings]
        ++ logs (c.routingAPIEmitFails routeMappings) "failed-to-emit-http-routes"
    | none => [])

/-- The calls lines 133-167 of `Handler.Sync` make, for a handler `h` whose table
`h.routingTable` is in state `live` and is swapped with the table `newTable` in
state `new`. -/
def swapEffects (c : Collaborators T D A Dom M R) (h : Handler) (live new : T)
    (newTable : TableRef) (domains : Dom) : List (Effect D A Dom M R) :=
  [.table h.routingTable (.Swap newTable domains), .sendDuration "table.swap.time"]
  ++ emitEffects c h (c.Swap live new domains).2.2 (c.Swap live new domains).2.1
  ++ (if h.localMode then
        [.sendMetric httpRouteCount (c.HTTPAssociationsCount (c.Swap live new domains).1)]
        ++ logs (c.metronFails httpRouteCount) "failed-to-send-http-routes-count-metric"
        ++ [.sendMetric tcpRouteCount (c.TCPAssociationsCount (c.Swap live new domains).1)]
        ++ logs (c.metronFails tcpRouteCount) "failed-to-send-tcp-route-count-metric"
      else [])

/-- What a run of per-event handling with both emitters unset may change: `s2` comes
from `s1` by calls of the four per-event operations on the table behind `ref` and
error-log entries only. -/
structure Replayed (ref : TableRef) (s1 s2 : State T D A Dom M R) : Prop where
  handler : s2.handler = s1.handler
  nextRef : s2.nextRef = s1.nextRef
  tables : ∀ r, r ≠ ref → s2.tables r = s1.tables r
  trace : ∃ d, s2.trace = s1.trace ++ d ∧ ∀ e ∈ d, Effect.replayOnly ref e = true

/-- The state in which the two loops of `Handler.Sync` leave the new table. -/
def builtTable (c : Collaborators T D A Dom M R) (desired : List D) (actuals : List A) : T :=
  actuals.foldl (fun t lrp => (c.AddEndpoint t lrp).1)
    (desired.foldl (fun t lrp => (c.SetRoutes t none lrp).1) c.emptyTable)

/-- The calls with which `Handler.Sync` creates and fills the table `newTable`. -/
def buildEffects (newTable : TableRef) (desired : List D) (actuals : List A) :
    List (Effect D A Dom M R) :=
  Effect.newRoutingTable newTable
    :: (desired.map (fun lrp => Effect.table newTable (TableCall.SetRoutes none lrp))
        ++ actuals.map (fun lrp => Effect.table newTable (TableCall.AddEndpoint lrp)))

/-- The calls of interest for the swap: calls on the table behind `live` and calls of
either emitter. -/
def Effect.swapRelevant (live : TableRef) (e : Effect D A Dom M R) : Bool :=
  Effect.onTable live e || Effect.isNatsEmit e || Effect.isRoutingAPIEmit e

/-- The method `Handler.Emit`. `GetRoutingEvents` and `HTTPAssociationsCount` read the
table and leave it as it is. -/
def Emit (c : Collaborators T D A Dom M R) (s : State T D A Dom M R) : State T D A Dom M R :=
  let routingEvents := (c.GetRoutingEvents (s.tables s.handler.routingTable)).1
  let messagesToEmit := (c.GetRoutingEvents (s.tables s.handler.routingTable)).2
  let s := s.record (.table s.handler.routingTable .GetRoutingEvents)
  let s :=
    match s.handler.natsEmitter with
    | some e =>
      let s := s.record (.natsEmit e messagesToEmit)
      s.logIf (c.natsEmitFails messagesToEmit) "failed-to-emit-nats-routes"
    | none => s
  let s :=
    match s.handler.routingAPIEmitter with
    | some e =>
      let s := s.record (.routingAPIEmit e routingEvents)
      s.logIf (c.routingAPIEmitFails routingEvents) "failed-to-emit-tcp-routes"
    | none => s
  let s := s.record (.incrementCounter routesSynced (c.RouteRegistrationCount messagesToEmit))
  let s := s.logIf (c.metronFails routesSynced) "failed-send-routes-synced-count-metric"
  let s := s.record
    (.sendMetric routesTotal (c.HTTPAssociationsCount (s.tables s.handler.routingTable)))
  s.logIf (c.metronFails routesTotal) "failed-to-send-total-route-count-metric"

/-- The method `Handler.RefreshDesired`. -/
def RefreshDesired (c : Collaborators T D A Dom M R) (s : State T D A Dom M R)
    (desiredInfo : List D) : State T D A Dom M R :=
  desiredInfo.foldl (fun s desiredLRP => handleDesiredCreate c s desiredLRP) s

/-- The method `Handler.ShouldRefreshDesired`. -/
def ShouldRefreshDesired (c : Collaborators T D A Dom M R) (s : State T D A Dom M R)
    (actual : A) : Bool :=
  !c.HasExternalRoutes (s.tables s.handler.routingTable) actual

/-- The table call an effect is, if it is one: the table and the call. -/
def Effect.tableCall? : Effect D A Dom M R → Option (TableRef × TableCall D A Dom)
  | .table ref call => some (ref, call)
  | _ => none

/-- The NATS emitter call an effect is, if it is one: the emitter and its argument. -/
def Effect.natsEmit? : Effect D A Dom M R → Option (EmitterRef × M)
  | .natsEmit e m => some (e, m)
  | _ => none

/-- The routing-API emitter call an effect is, if it is one: the emitter and its
argument. -/
def Effect.routingAPIEmit? : Effect D A Dom M R → Option (EmitterRef × R)
  | .routingAPIEmit e r => some (e, r)
  | _ => none

/-- The counter increment an effect is, if it is one: the counter and the delta. -/
def Effect.increment? : Effect D A Dom M R → Option (String × Nat)
  | .incrementCounter name delta => some (name, delta)
  | _ => none

/-- The metric an effect sends, if it sends one: the metric and the value. -/
def Effect.metric? : Effect D A Dom M R → Option (String × Nat)
  | .sendMetric name value => some (name, value)
  | _ => none

/-- The table calls among the given effects, in order. -/
def tableCalls (es : List (Effect D A Dom M R)) : List (TableRef × TableCall D A Dom) :=
  es.filterMap Effect.tableCall?

/-- The calls of the NATS emitter among the given effects, in order. -/
def natsEmits (es : List (Effect D A Dom M R)) : List (EmitterRef × M) :=
  es.filterMap Effect.natsEmit?

/-- The calls of the routing-API emitter among the given effects, in order. -/
def routingAPIEmits (es : List (Effect D A Dom M R)) : List (EmitterRef × R) :=
  es.filterMap Effect.routingAPIEmit?

/-- The counter increments among the given effects, in order. -/
def increments (es : List (Effect D A Dom M R)) : List (String × Nat) :=
  es.filterMap Effect.increment?

/-- The metrics sent among the given effects, in order. -/
def metrics (es : List (Effect D A Dom M R)) : List (String × Nat) :=
  es.filterMap Effect.metric?

end HandlerModel

/-! ### A concrete instance of the collaborators -/

/-- A small routing table for evaluating the handler on concrete inputs: the table
state is the list of the operations applied to it, the messages and mappings an
operation returns name that operation. -/
def sampleCollaborators :
    Collaborators (List String) String String Unit (List String) (List String) where
  emptyTable := []
  SetRoutes := fun t _ d => (t ++ ["set " ++ d], ["map " ++ d], ["reg " ++ d])
  RemoveRoutes := fun t d => (t ++ ["unset " ++ d], ["unmap " ++ d], ["unreg " ++ d])
  AddEndpoint := fun t a => (t ++ ["add " ++ a], ["map " ++ a], ["reg " ++ a])
  RemoveEndpoint := fun t a => (t ++ ["remove " ++ a], ["unmap " ++ a], ["unreg " ++ a])
  Swap := fun _ new _ => (new, new.map (fun x => "map " ++ x), new.map (fun x => "reg " ++ x))
  GetRoutingEvents := fun t => (t, t)
  HTTPAssociationsCount := fun t => t.length
  TCPAssociationsCount := fun _ => 0
  HasExternalRoutes := fun t _ => !t.isEmpty
  zeroMessages := []
  zeroMappings := []
  RouteRegistrationCount := fun m => m.length
  RouteUnregistrationCount := fun _ => 0
  actualState := fun a => a
  natsEmitFails := fun _ => false
  routingAPIEmitFails := fun _ => false
  metronFails := fun _ => false

/-- A handler with both emitters configured whose live table is the only table
allocated so far. -/
def sampleState : State (List String) String String Unit (List String) (List String) where
  handler := { routingTable := 0, natsEmitter := some 7, routingAPIEmitter := some 8,
               localMode := true, metronClient := 0 }
  tables := fun _ => []
  nextRef := 1
  trace := []

/-- Two cached events: a removal of a running instance and an event of unknown
kind. -/
def sampleEvents : List (String × Event String String) :=
  [("a", Event.ActualLRPRemovedEvent "RUNNING"), ("b", Event.unrecognized "other")]

/-- The sample collaborators with a NATS emitter whose every `Emit` returns an
error. -/
def failingCollaborators :
    Collaborators (List String) String String Unit (List String) (List String) :=
  { sampleCollaborators with natsEmitFails := fun _ => true }

/-! ## Definitions: syncer/syncer.go -/

/-- A Go channel: its capacity and the values waiting in its buffer, oldest first. -/
structure Chan (α : Type) where
  cap : Nat
  buf : List α
  deriving DecidableEq, Repr

/-- The call `make(chan α, cap)`. -/
def Chan.make (α : Type) (cap : Nat) : Chan α :=
  { cap := cap, buf := [] }

/-- The statement `ch <- v` when no receiver is waiting on the channel: the value is
buffered if there is room; otherwise the sender blocks until a receiver arrives, and
the statement does not complete (`none`). -/
def Chan.send {α : Type} (ch : Chan α) (v : α) : Option (Chan α) :=
  if ch.buf.length < ch.cap then some { ch with buf := ch.buf ++ [v] } else none

/-- The statement `select { case ch <- v: ...; default: ... }`: the channel afterwards,
and whether the send case was taken. -/
def Chan.trySend {α : Type} (ch : Chan α) (v : α) : Chan α × Bool :=
  match ch.send v with
  | some ch2 => (ch2, true)
  | none => (ch, false)

/-- A consumer's `<-ch` on a channel that holds a value. -/
def Chan.receive {α : Type} (ch : Chan α) : Chan α :=
  { ch with buf := ch.buf.tail }

/-- The struct `Events`. -/
structure Events where
  Sync : Chan Unit
  Emit : Chan Unit
  InternalSync : Chan Unit
  InternalEmit : Chan Unit
  deriving DecidableEq, Repr

/-- The fields of `type NatsSyncer struct` that `NewSyncer` sets from values, with
durations in nanoseconds, and the debug lines written to the logger. -/
structure NatsSyncer where
  syncInterval : Int
  events : Events
  routerStart : Chan Int
  internalRouterStart : Chan Int
  waitForInternalRoutesGreeting : Bool
  logger : List String
  deriving DecidableEq, Repr

/-- The function `NewSyncer`. -/
def NewSyncer (syncInterval : Int) (internalRoutes : Bool) : NatsSyncer :=
  { syncInterval := syncInterval
    events :=
      { Sync := Chan.make Unit 1
        Emit := Chan.make Unit 1
        InternalSync := Chan.make Unit 1
        InternalEmit := Chan.make Unit 1 }
    routerStart := Chan.make Int 0
    internalRouterStart := Chan.make Int 0
    waitForInternalRoutesGreeting := internalRoutes
    logger := [] }

/-- The method `NatsSyncer.emit`: a send on `events.Emit` inside a `select` with a
`default` case. -/
def NatsSyncer.emit (s : NatsSyncer) : NatsSyncer :=
  let r := s.events.Emit.trySend ()
  if r.2 then { s with events := { s.events with Emit := r.1 } }
  else { s with logger := s.logger ++ ["emit-already-in-progress"] }

/-- The method `NatsSyncer.sync`: the plain statement `s.events.Sync <- struct{}{}`.
The result is `none` when the statement blocks. -/
def NatsSyncer.sync (s : NatsSyncer) : Option NatsSyncer :=
  (s.events.Sync.send ()).map (fun ch => { s with events := { s.events with Sync := ch } })

/-- The method `NatsSyncer.internalSync`: the plain statement
`s.events.InternalSync <- struct{}{}`. -/
def NatsSyncer.internalSync (s : NatsSyncer) : Option NatsSyncer :=
  (s.events.InternalSync.send ()).map
    (fun ch => { s with events := { s.events with InternalSync := ch } })

/-- What can happen to the `Emit` channel: the syncer calls `emit()`, or the consumer
receives the pending event. -/
inductive EmitStep where
  | emit
  | receive
  deriving DecidableEq, Repr

/-- One step on the `Emit` channel. -/
def NatsSyncer.emitStep (s : NatsSyncer) : EmitStep → NatsSyncer
  | .emit => s.emit
  | .receive => { s with events := { s.events with Emit := s.events.Emit.receive } }

/-- A run of steps on the `Emit` channel. -/
def NatsSyncer.emitSteps (s : NatsSyncer) (steps : List EmitStep) : NatsSyncer :=
  steps.foldl NatsSyncer.emitStep s

/-! ### Durations, the jitter bound and the random draw -/

/-- The constant `time.Second`, in nanoseconds. -/
def Second : Int := 1000000000

/-- The value an `int64` holds after an arithmetic result `x`: two's complement on 64
bits. -/
def wrapInt64 (x : Int) : Int :=
  (x + 9223372036854775808) % 18446744073709551616 - 9223372036854775808

/-- The first `s` at or after the given one with `n < 2 ^ (53 + s)`, looking at `fuel`
candidates. -/
def shiftFrom : Nat → Nat → Nat → Nat
  | 0, s, _ => s
  | fuel + 1, s, n => if n < 2 ^ (53 + s) then s else shiftFrom fuel (s + 1) n

/-- The number of low bits a `float64` cannot keep of the natural number `n`, for
`n < 2 ^ 117`: a `float64` has 53 significant bits. -/
def float64Shift (n : Nat) : Nat :=
  shiftFrom 64 0 n

/-- Rounding of a natural number to 53 significant bits, to nearest, ties to even: the
rounding of every `float64` conversion and operation. -/
def nearestEven53 (n : Nat) : Nat :=
  let s := float64Shift n
  let q := n / 2 ^ s
  let r := n % 2 ^ s
  if 2 * r < 2 ^ s ∨ (2 * r = 2 ^ s ∧ q % 2 = 0) then q * 2 ^ s else (q + 1) * 2 ^ s

/-- The `float64` constant `0.2` is `point2Mantissa / 2 ^ 54`. -/
def point2Mantissa : Nat := 3602879701896397

/-- The expression `int64(0.2 * float64(routerRegisterInterval))` of `Run`, for an
`int64` interval `d`: `d` is rounded to a `float64`, the product with the `float64`
constant 0.2 is rounded again, and the conversion to `int64` drops the fraction. -/
def jitterBound (d : Int) : Int :=
  let x := nearestEven53 d.natAbs
  let p := nearestEven53 (x * point2Mantissa)
  if d < 0 then -((p / 2 ^ 54 : Nat) : Int) else ((p / 2 ^ 54 : Nat) : Int)

/-- The library call `randSource.Int63n(n)`: it panics (`none`) when `n ≤ 0`, and
otherwise reduces the 63-bit value `draw` that the source settles on modulo `n`. -/
def Int63n (draw : Nat) (n : Int) : Option Int :=
  if n ≤ 0 then none else some ((draw : Int) % n)

/-! ### The handshake callbacks -/

/-- Modelled from the spec: the struct `routingtable.RouterGreetingMessage` is declared
in package `routingtable`, which is not among the sources; `handleRouterStart` reads
its field `MinimumRegisterInterval`, and the spec gives the JSON keys
`minimumRegisterIntervalInSeconds` and `pruneThresholdInSeconds`, both integers. -/
structure RouterGreetingMessage where
  MinimumRegisterInterval : Int
  PruneThresholdInSeconds : Int
  deriving DecidableEq, Repr

/-- What a callback of the bus client did: the lines it wrote to the logger and the
values it sent on its channel of the syncer. -/
structure Handled where
  logger : List String
  sent : List Int
  deriving DecidableEq, Repr

/-- The expression `time.Duration(greetInterval) * time.Second`: a conversion to
`int64` and an `int64` product. -/
def greetDuration (greetInterval : Int) : Int :=
  wrapInt64 (wrapInt64 greetInterval * Second)

/-- The method `NatsSyncer.handleRouterStart`. The parameter `unmarshal` is
`json.Unmarshal` into a `RouterGreetingMessage`: the error, or the decoded struct. The
value is sent on `s.routerStart`. -/
def handleRouterStart (unmarshal : String → Except String RouterGreetingMessage)
    (data : String) : Handled :=
  match unmarshal data with
  | .error _ => { logger := ["received-invalid-router-start"], sent := [] }
  | .ok response => { logger := [], sent := [greetDuration response.MinimumRegisterInterval] }

/-- The method `NatsSyncer.handleServiceDiscoveryStart`. The value is sent on
`s.internalRouterStart`. -/
def handleServiceDiscoveryStart (unmarshal : String → Except String RouterGreetingMessage)
    (data : String) : Handled :=
  match unmarshal data with
  | .error _ => { logger := ["received-invalid-service-discovery-start"], sent := [] }
  | .ok response => { logger := [], sent := [greetDuration response.MinimumRegisterInterval] }

/-! ### NatsSyncer.Run -/

/-- The four channels of `Events`, by name. -/
inductive EventName where
  | Sync
  | Emit
  | InternalSync
  | InternalEmit
  deriving DecidableEq, Repr

/-- The calls `Run` makes on its collaborators and the sends it completes, in the order
they happen. Tickers are named by their rank of creation. -/
inductive RunEffect where
  | log (msg : String)
  | subscribe (subject : String)
  | autoUnsubscribe (subject : String) (max : Nat)
  | closeReady
  | newTicker (ticker : Nat) (period : Int)
  | stopTicker (ticker : Nat)
  | publishRequest (subject reply : String)
  | int63n (bound : Int)
  | sleep (d : Int)
  | send (ch : EventName)
  deriving DecidableEq, Repr

/-- The answers of the libraries `Run` calls: `uuid.NewV4`, the error of the k-th
`Subscribe` and of the k-th `PublishRequest` of the NATS client (`none` is success),
and the value the random source settles on at its k-th draw. -/
structure Libraries where
  newV4 : Except String String
  subscribe : Nat → String → Option String
  publishRequest : Nat → String → String → Option String
  int63 : Nat → Nat

/-- What happens around `Run` while it waits: a `select` of `Run` receives an interval
from `s.routerStart`, a tick of a ticker or a signal; the clock advances; the consumer
of the `Events` receives from one of the channels. -/
inductive Arrival where
  | routerStart (interval : Int)
  | tick (ticker : Nat)
  | signal
  | advance (d : Nat)
  | received (ch : EventName)
  deriving DecidableEq, Repr

/-- Where `Run` stands: waiting in the `select` of the greet loop, blocked in the
`internalSync()` or in the `sync()` that follow the handshake, waiting in the `select`
of the main loop, blocked in the `sync()` of a sync tick, inside `clock.Sleep` with
some time left, returned with its error, or stopped by a panic. -/
inductive Phase where
  | greeting
  | internalSyncing
  | firstSyncing
  | running
  | syncing
  | sleeping (left : Int)
  | returned (err : Option String)
  | panicked (msg : String)
  deriving DecidableEq, Repr

/-- The state of one call of `Run`: the syncer, the local variables of `Run`, the number
of tickers created and of library calls made, and the effects so far. The variables
`syncTicker` and `routerTicker` have a meaning from the main loop on. -/
structure RunState where
  syncer : NatsSyncer
  phase : Phase
  trace : List RunEffect
  replyUuid : String
  routerRegisterInterval : Int
  retryGreetingTicker : Nat
  syncTicker : Nat
  routerTicker : Nat
  tickers : Nat
  subscribes : Nat
  publishes : Nat
  draws : Nat
  deriving DecidableEq, Repr

/-- Append effects to the trace. -/
def RunState.record (st : RunState) (es : List RunEffect) : RunState :=
  { st with trace := st.trace ++ es }

/-- The statement `return err` of `Run`. -/
def RunState.finish (st : RunState) (err : Option String) : RunState :=
  { st with phase := .returned err }

/-- A receive of the consumer on one channel of `Events`. -/
def Events.receive (ev : Events) : EventName → Events
  | .Sync => { ev with Sync := ev.Sync.receive }
  | .Emit => { ev with Emit := ev.Emit.receive }
  | .InternalSync => { ev with InternalSync := ev.InternalSync.receive }
  | .InternalEmit => { ev with InternalEmit := ev.InternalEmit.receive }

/-- A receive of the consumer, seen from `Run`: only the channel changes. -/
def RunState.consume (st : RunState) (ch : EventName) : RunState :=
  { st with syncer := { st.syncer with events := st.syncer.events.receive ch } }

/-- A call `s.emit()` from `Run`: the send is recorded if it was made, the debug line
if it was not. -/
def RunState.emit (st : RunState) : RunState :=
  { st with
    syncer := st.syncer.emit
    trace := st.trace ++
      [if (st.syncer.events.Emit.trySend ()).2 then RunEffect.send .Emit
       else RunEffect.log "emit-already-in-progress"] }

/-- The panic of `time.NewTicker`, which the clock of `clock.NewClock()` calls, on an
interval that is not positive. -/
def newTickerPanic : String :=
  "non-positive interval for NewTicker"

/-- Lines 116-119 of syncer.go: the sync ticker is created with `s.syncInterval`, the
router ticker with the interval received, and the main loop is entered. Each
`NewTicker` panics on an interval that is not positive, and `Run` ends there. -/
def RunState.startTickers (st : RunState) : RunState :=
  if st.syncer.syncInterval ≤ 0 then { st with phase := .panicked newTickerPanic }
  else
    let st1 := { st with syncTicker := st.tickers, tickers := st.tickers + 1 }.record
      [.newTicker st.tickers st.syncer.syncInterval]
    if st1.routerRegisterInterval ≤ 0 then { st1 with phase := .panicked newTickerPanic }
    else
      { st1 with routerTicker := st1.tickers, tickers := st1.tickers + 1, phase := .running }.record
        [.newTicker st1.tickers st1.routerRegisterInterval]

/-- Line 113: the `s.sync()` after the handshake, then the tickers. A `sync()` that
blocks leaves `Run` at that line. -/
def RunState.firstSync (st : RunState) : RunState :=
  match st.syncer.sync with
  | some s2 => ({ st with syncer := s2 }.record [.send .Sync]).startTickers
  | none => { st with phase := .firstSyncing }

/-- Line 110: the `s.internalSync()` of the service-discovery greeting, then line 113. -/
def RunState.firstInternalSync (st : RunState) : RunState :=
  match st.syncer.internalSync with
  | some s2 => ({ st with syncer := s2 }.record [.send .InternalSync]).firstSync
  | none => { st with phase := .internalSyncing }

/-- Lines 100-113: what follows the greet loop once an interval was received. -/
def afterGreetLoop (lib : Libraries) (st : RunState) : RunState :=
  let st1 := st.record [.stopTicker st.retryGreetingTicker]
  if st1.syncer.waitForInternalRoutesGreeting then
    let st2 := { st1 with publishes := st1.publishes + 1 }.record
      [.log "greeting-service-discovery",
       .publishRequest "service-discovery.greet" "TODO Figure out replyUUID"]
    match lib.publishRequest st1.publishes "service-discovery.greet"
        "TODO Figure out replyUUID" with
    | some err => (st2.record [.log "failed-to-greet-service-discovery"]).finish (some err)
    | none => st2.firstInternalSync
  else st1.firstSync

/-- Lines 83-88: one turn of the greet loop up to its `select`. -/
def greet (lib : Libraries) (st : RunState) : RunState :=
  let st1 := { st with publishes := st.publishes + 1 }.record
    [.log "greeting-router", .publishRequest "router.greet" st.replyUuid]
  match lib.publishRequest st.publishes "router.greet" st.replyUuid with
  | some err => (st1.record [.log "failed-to-greet-router"]).finish (some err)
  | none => { st1 with phase := .greeting }

/-- Lines 126-128: after the jitter sleep the router ticker is stopped, a new one is
created with the interval received, and `emit()` is called. The sleep is entered only
after `Int63n` accepted the bound of that interval, and a bound that is positive
belongs to an interval that is positive, so this `NewTicker` does not panic. -/
def afterSleep (st : RunState) : RunState :=
  ({ st with
      routerTicker := st.tickers
      tickers := st.tickers + 1
      phase := .running }.record
    [.stopTicker st.routerTicker, .newTicker st.tickers st.routerRegisterInterval]).emit

/-- Lines 122-125: a new interval in the main loop. The bound of the draw is computed,
`Int63n` panics on a bound that is not positive, and `clock.Sleep` is entered; a
sleep of no duration returns at once. -/
def newInterval (lib : Libraries) (st : RunState) (d : Int) : RunState :=
  let st1 := { st with routerRegisterInterval := d, draws := st.draws + 1 }.record
    [.log "received-new-router-prune-interval", .int63n (jitterBound d)]
  match Int63n (lib.int63 st.draws) (jitterBound d) with
  | none => { st1 with phase := .panicked "invalid argument to Int63n" }
  | some jitterInterval =>
    let st2 := st1.record [.sleep jitterInterval]
    if jitterInterval ≤ 0 then afterSleep st2 else { st2 with phase := .sleeping jitterInterval }

/-- Lines 133-134: the `sync()` of a sync tick; when it blocks `Run` stays there. -/
def RunState.loopSync (st : RunState) : RunState :=
  match st.syncer.sync with
  | some s2 => { st with syncer := s2, phase := .running }.record [.send .Sync]
  | none => { st with phase := .syncing }

/-- The `select` of the greet loop, lines 90-98. -/
def stepGreeting (lib : Libraries) (st : RunState) : Arrival → RunState
  | .routerStart d =>
    afterGreetLoop lib
      ({ st with routerRegisterInterval := d }.record [.log "received-router-prune-interval"])
  | .tick t => if t = st.retryGreetingTicker then greet lib st else st
  | .signal => (st.record [.log "stopping"]).finish none
  | .advance _ => st
  | .received ch => st.consume ch

/-- The `select` of the main loop, lines 121-140. -/
def stepRunning (lib : Libraries) (st : RunState) : Arrival → RunState
  | .routerStart d => newInterval lib st d
  | .tick t =>
    if t = st.routerTicker then (st.record [.log "emitting-routes"]).emit
    else if t = st.syncTicker then (st.record [.log "syncing"]).loopSync
    else st
  | .signal =>
    (st.record [.log "stopping", .stopTicker st.syncTicker, .stopTicker st.routerTicker]).finish
      none
  | .advance _ => st
  | .received ch => st.consume ch

/-- Inside `clock.Sleep`: the sleep returns when the clock has advanced by its
duration; `Run` is in no `select`, so nothing else reaches it. -/
def stepSleeping (st : RunState) (left : Int) : Arrival → RunState
  | .advance d => if left ≤ (d : Int) then afterSleep st else { st with phase := .sleeping (left - d) }
  | .received ch => st.consume ch
  | _ => st

/-- Blocked in a send on the channel `ch`: the send completes, and `Run` goes on with
`resume`, when the consumer receives from that channel. -/
def stepBlocked (st : RunState) (ch : EventName) (resume : RunState → RunState) :
    Arrival → RunState
  | .received c => if c = ch then resume (st.consume c) else st.consume c
  | _ => st

/-- One step of `Run` on what arrives. After a return or a panic nothing happens. -/
def step (lib : Libraries) (st : RunState) (a : Arrival) : RunState :=
  match st.phase with
  | .greeting => stepGreeting lib st a
  | .internalSyncing => stepBlocked st .InternalSync RunState.firstInternalSync a
  | .firstSyncing => stepBlocked st .Sync RunState.firstSync a
  | .running => stepRunning lib st a
  | .syncing => stepBlocked st .Sync RunState.loopSync a
  | .sleeping left => stepSleeping st left a
  | .returned _ => st
  | .panicked _ => st

/-- The state in which `Run` is entered. -/
def RunState.init (s : NatsSyncer) : RunState :=
  { syncer := s
    phase := .greeting
    trace := []
    replyUuid := ""
    routerRegisterInterval := 0
    retryGreetingTicker := 0
    syncTicker := 0
    routerTicker := 0
    tickers := 0
    subscribes := 0
    publishes := 0
    draws := 0 }

/-- One `s.natsClient.Subscribe(subject, ...)`: the state with the call recorded, and
the error. -/
def RunState.subscribe (lib : Libraries) (st : RunState) (subject : String) :
    RunState × Option String :=
  ({ st with subscribes := st.subscribes + 1 }.record [.subscribe subject],
    lib.subscribe st.subscribes subject)

/-- The method `listenForRouter`: the state, and the error it returns. -/
def listenForRouter (lib : Libraries) (st : RunState) (replyUUID : String) :
    RunState × Option String :=
  match st.subscribe lib "router.start" with
  | (st1, some err) => (st1, some err)
  | (st1, none) =>
    match st1.subscribe lib replyUUID with
    | (st2, some err) => (st2, some err)
    | (st2, none) => (st2.record [.autoUnsubscribe replyUUID 1], none)

/-- The method `listenForServiceDiscovery`. -/
def listenForServiceDiscovery (lib : Libraries) (st : RunState) (_replyUUID : String) :
    RunState × Option String :=
  st.subscribe lib "service-discovery.start"

/-- Lines 74-88 of `Run`: `ready` is closed, the retry ticker of one second is created
and the greet loop is entered. -/
def enterGreetLoop (lib : Libraries) (st : RunState) : RunState :=
  greet lib
    ({ st with retryGreetingTicker := st.tickers, tickers := st.tickers + 1 }.record
      [.closeReady, .log "started", .newTicker st.tickers Second])

/-- Lines 57-88 of `Run`: up to the first `select`, or to an early return. -/
def start (lib : Libraries) (s : NatsSyncer) : RunState :=
  let st0 := (RunState.init s).record [.log "starting"]
  match lib.newV4 with
  | .error err => st0.finish (some err)
  | .ok replyUuid =>
    let st1 := { st0 with replyUuid := replyUuid }
    match listenForRouter lib st1 replyUuid with
    | (st2, some err) => st2.finish (some err)
    | (st2, none) =>
      if s.waitForInternalRoutesGreeting then
        match listenForServiceDiscovery lib st2 replyUuid with
        | (st3, some err) => st3.finish (some err)
        | (st3, none) => enterGreetLoop lib st3
      else enterGreetLoop lib st2

/-- The method `NatsSyncer.Run` along a script of arrivals: the state it has reached
when the script is over. -/
def Run (lib : Libraries) (s : NatsSyncer) (script : List Arrival) : RunState :=
  script.foldl (step lib) (start lib s)

/-- The channels on which `Run` completed a send, in order. -/
def sends (trace : List RunEffect) : List EventName :=
  trace.filterMap (fun e => match e with
    | .send ch => some ch
    | _ => none)

/-- The reply subjects of the `router.greet` requests published, in order. -/
def greetReplies (trace : List RunEffect) : List String :=
  trace.filterMap (fun e => match e with
    | .publishRequest subject reply => if subject = "router.greet" then some reply else none
    | _ => none)

/-- The tickers stopped, in order. -/
def stoppedTickers (trace : List RunEffect) : List Nat :=
  trace.filterMap (fun e => match e with
    | .stopTicker t => some t
    | _ => none)

/-- The tickers created, in order. -/
def createdTickers (trace : List RunEffect) : List Nat :=
  trace.filterMap (fun e => match e with
    | .newTicker t _ => some t
    | _ => none)

/-- The clock time that passes along a script. -/
def advanced (script : List Arrival) : Nat :=
  (script.map (fun a => match a with
    | .advance d => d
    | _ => 0)).sum

/-- The outcome of a `Run` that aborted at start-up with `err`: it returned the error,
`ready` was not closed, nothing was published and no event was sent. -/
def AbortedWith (st : RunState) (err : String) : Prop :=
  st.phase = .returned (some err)
    ∧ RunEffect.closeReady ∉ st.trace
    ∧ (∀ subject reply, RunEffect.publishRequest subject reply ∉ st.trace)
    ∧ sends st.trace = []

/-- The outcome of lines 116-117 in the state `Run` has reached once the handshake is
over, the retry ticker being ticker 0. With a sync interval and a received interval
`d` that are positive `Run` is in its main loop, and has created the sync ticker with
the sync interval and the router ticker with `d`. Otherwise `Run` has panicked in
`NewTicker`: before both tickers when the sync interval is not positive, after the
sync ticker alone when only `d` is not positive. -/
def TickersStarted (st : RunState) (syncInterval d : Int) : Prop :=
  (0 < syncInterval → 0 < d →
      st.phase = .running
      ∧ st.syncTicker = 1 ∧ st.routerTicker = 2
      ∧ RunEffect.newTicker st.syncTicker syncInterval ∈ st.trace
      ∧ RunEffect.newTicker st.routerTicker d ∈ st.trace
      ∧ createdTickers st.trace = [0, 1, 2])
  ∧ (syncInterval ≤ 0 →
      st.phase = .panicked newTickerPanic ∧ createdTickers st.trace = [0])
  ∧ (0 < syncInterval → d ≤ 0 →
      st.phase = .panicked newTickerPanic ∧ createdTickers st.trace = [0, 1]
      ∧ RunEffect.newTicker 1 syncInterval ∈ st.trace)

/-- Libraries that never fail, with the reply subject and the random draws given. -/
def okLibraries (replyUuid : String) (int63 : Nat → Nat) : Libraries :=
  { newV4 := .ok replyUuid
    subscribe := fun _ _ => none
    publishRequest := fun _ _ _ => none
    int63 := int63 }

/-! ### Values of syncer_test.go -/

/-- Libraries of a sample run: the reply subject is "reply-uuid", no call fails, and
every draw of the random source is 123456789. -/
def sampleLibraries : Libraries :=
  okLibraries "reply-uuid" (fun _ => 123456789)

/-- Libraries whose NATS client refuses every subscription. -/
def refusingLibraries : Libraries :=
  { sampleLibraries with subscribe := fun _ _ => some "nats: connection closed" }

/-- The syncer of syncer_test.go: a sync interval of ten seconds, no internal routes. -/
def sampleSyncer : NatsSyncer :=
  NewSyncer 10000000000 false

/-- The syncer of the service-discovery tests of syncer_test.go. -/
def internalSyncer : NatsSyncer :=
  NewSyncer 10000000000 true

/-- Libraries of a run in which the random source draws 922337203800000127. -/
def lateLibraries : Libraries :=
  okLibraries "reply-uuid" (fun _ => 922337203800000127)

/-- A decoder for the payloads of the examples: the greeting of syncer_test.go with an
interval of one second, a greeting that announces 9223372037 seconds, an object with
no field, which leaves both fields at zero, and a refusal of anything else. -/
def sampleUnmarshal (data : String) : Except String RouterGreetingMessage :=
  if data = "\x7b\"minimumRegisterIntervalInSeconds\":1, \"pruneThresholdInSeconds\": 3\x7d" then
    .ok { MinimumRegisterInterval := 1, PruneThresholdInSeconds := 3 }
  else if data
      = "\x7b\"minimumRegisterIntervalInSeconds\":9223372037, \"pruneThresholdInSeconds\": 3\x7d" then
    .ok { MinimumRegisterInterval := 9223372037, PruneThresholdInSeconds := 3 }
  else if data = "\x7b\x7d" then
    .ok { MinimumRegisterInterval := 0, PruneThresholdInSeconds := 0 }
  else .error "invalid character"

/-- The greeting of syncer_test.go that announces one second. -/
def greetingPayload : String :=
  "\x7b\"minimumRegisterIntervalInSeconds\":1, \"pruneThresholdInSeconds\": 3\x7d"

/-- A greeting that announces 9223372037 seconds. -/
def distantPayload : String :=
  "\x7b\"minimumRegisterIntervalInSeconds\":9223372037, \"pruneThresholdInSeconds\": 3\x7d"

/-- A greeting with no field. -/
def emptyPayload : String :=
  "\x7b\x7d"

/-! ## Definitions: syncer/routing_api_syncer.go -/

/-- The struct `RoutingAPISyncer`: the interval in nanoseconds, the channel handed to
`NewRoutingApiSyncer`, and the debug lines written to the logger. -/
structure RoutingAPISyncer where
  syncInterval : Int
  syncChannel : Chan Unit
  logger : List String
  deriving DecidableEq, Repr

/-- The function `NewRoutingApiSyncer`. -/
def NewRoutingApiSyncer (syncInterval : Int) (syncChannel : Chan Unit) : RoutingAPISyncer :=
  { syncInterval := syncInterval, syncChannel := syncChannel, logger := [] }

/-- The method `RoutingAPISyncer.sync`: a send on `syncChannel` inside a `select` with a
`default` case. -/
def RoutingAPISyncer.sync (s : RoutingAPISyncer) : RoutingAPISyncer :=
  let r := s.syncChannel.trySend ()
  if r.2 then { s with syncChannel := r.1 }
  else { s with logger := s.logger ++ ["sync-already-in-progress"] }

/-- The state of one call of `RoutingAPISyncer.Run`: the syncer, where `Run` stands, the
effects so far and the ticker of `Run`. -/
structure APIRunState where
  syncer : RoutingAPISyncer
  phase : Phase
  trace : List RunEffect
  syncTicker : Nat
  deriving DecidableEq, Repr

/-- A call `s.sync()` from `Run`: the send is recorded if it was made, the debug line if
it was not. -/
def APIRunState.sync (st : APIRunState) : APIRunState :=
  { st with
    syncer := st.syncer.sync
    trace := st.trace ++
      [if (st.syncer.syncChannel.trySend ()).2 then RunEffect.send .Sync
       else RunEffect.log "sync-already-in-progress"] }

/-- Lines 34-41 of `RoutingAPISyncer.Run`: `ready` is closed, the first `sync()` is made
and the sync ticker is created with `s.syncInterval`. `NewTicker` panics on an
interval that is not positive, and `Run` ends there. -/
def RoutingAPISyncer.start (s : RoutingAPISyncer) : APIRunState :=
  let st : APIRunState :=
    { syncer := s
      phase := .running
      trace := [.closeReady, .log "started", .log "starting-initial-sync"]
      syncTicker := 0 }
  if s.syncInterval ≤ 0 then { st.sync with phase := .panicked newTickerPanic }
  else { st.sync with trace := st.sync.trace ++ [RunEffect.newTicker 0 s.syncInterval] }

/-- The `select` of `RoutingAPISyncer.Run`, lines 44-52; the consumer of the channel
receives on its side. After the return or the panic nothing happens. -/
def RoutingAPISyncer.step (st : APIRunState) (a : Arrival) : APIRunState :=
  match st.phase with
  | .running =>
    match a with
    | .tick t =>
      if t = st.syncTicker then
        APIRunState.sync { st with trace := st.trace ++ [RunEffect.log "syncing"] }
      else st
    | .signal =>
      { st with
        phase := .returned none
        trace := st.trace ++ [RunEffect.log "stopping", RunEffect.stopTicker st.syncTicker] }
    | .received .Sync =>
      { st with syncer := { st.syncer with syncChannel := st.syncer.syncChannel.receive } }
    | _ => st
  | _ => st

/-- The method `RoutingAPISyncer.Run` along a script of arrivals. -/
def RoutingAPISyncer.Run (s : RoutingAPISyncer) (script : List Arrival) : APIRunState :=
  script.foldl RoutingAPISyncer.step (RoutingAPISyncer.start s)

/-- The number of calls of `sync()` a trace of `RoutingAPISyncer.Run` shows: each one
left either a send or the line "sync-already-in-progress". -/
def syncAttempts (trace : List RunEffect) : Nat :=
  (trace.filter (fun e =>
    e == RunEffect.send .Sync || e == RunEffect.log "sync-already-in-progress")).length

/-! ## Definitions: the NATS routing table of routingtable/nats_routing_table_test.go -/

/-- The struct `endpoint.RoutingKey`: process identifier and container port. -/
structure RoutingKey where
  ProcessGUID : String
  ContainerPort : Nat
  deriving DecidableEq, Repr

/-- The struct `models.ModificationTag`: an epoch and an index. -/
structure ModificationTag where
  Epoch : String
  Index : Nat
  deriving DecidableEq, Repr

/-- The struct `routingtable.Route`: a hostname registration, with the fields the tests
set and the isolation segment of section 3. An absent route-service URL or
isolation segment is the empty string. -/
structure Route where
  Hostname : String
  LogGuid : String
  RouteServiceUrl : String
  IsolationSegment : String
  deriving DecidableEq, Repr

/-- The struct `routingtable.Endpoint`, with the fields the tests set. A nil
modification tag is `none`. -/
structure Endpoint where
  InstanceGuid : String
  Host : String
  Index : Nat
  Domain : String
  Port : Nat
  ContainerPort : Nat
  Evacuating : Bool
  ModificationTag : Option ModificationTag
  deriving DecidableEq, Repr

/-- Modelled from the spec: the struct `routingtable.RegistryMessage`, not among the
sources. Section 6 gives its content: host, port, hostname(s), log identifier and
route-service URL; a registration and an unregistration share the schema. -/
structure RegistryMessage where
  Host : String
  Port : Nat
  URIs : List String
  App : String
  RouteServiceUrl : String
  deriving DecidableEq, Repr

/-- Modelled from the spec: the function `routingtable.RegistryMessageFor`, not among
the sources: the message of section 6 for one (endpoint, route) pair. -/
def RegistryMessageFor (endpoint : Endpoint) (route : Route) : RegistryMessage :=
  { Host := endpoint.Host
    Port := endpoint.Port
    URIs := [route.Hostname]
    App := route.LogGuid
    RouteServiceUrl := route.RouteServiceUrl }

/-- The struct `routingtable.MessagesToEmit`, with the four fields `handler.go`
reads. -/
structure MessagesToEmit where
  RegistrationMessages : List RegistryMessage
  UnregistrationMessages : List RegistryMessage
  InternalRegistrationMessages : List RegistryMessage
  InternalUnregistrationMessages : List RegistryMessage
  deriving DecidableEq, Repr

/-- The zero value `MessagesToEmit{}`. -/
def MessagesToEmit.zero : MessagesToEmit :=
  { RegistrationMessages := []
    UnregistrationMessages := []
    InternalRegistrationMessages := []
    InternalUnregistrationMessages := [] }

/-- Modelled from the spec: the comparison of modification tags, defined in the bbs
library and not among the sources. Section 3: equal epochs compare by index;
different epochs are incomparable and the incoming value wins. `incoming` is
strictly older than `stored` when both have the same epoch and the index of
`incoming` is smaller. -/
def ModificationTag.olderThan (incoming stored : ModificationTag) : Bool :=
  incoming.Epoch == stored.Epoch && decide (incoming.Index < stored.Index)

/-- Modelled from the spec: the staleness test of section 3 on the optional tags the
table operations receive. A mutation is dropped when its tag is strictly older than
the stored one; an absent tag on either side is never older. -/
def strictlyOlder (incoming stored : Option ModificationTag) : Bool :=
  match incoming, stored with
  | some i, some s => i.olderThan s
  | _, _ => false

/-- Modelled from the spec: the per-key entry of section 3 (`RoutingTableEntry`), not
among the sources: the routes of the key, its endpoints, and the tag of the last
route update. The route set is kept as the list it was given, the endpoint mapping
as a list holding at most one endpoint per (instance identifier, evacuating flag)
in order of insertion. -/
structure RoutableEndpoints where
  Routes : List Route
  Endpoints : List Endpoint
  ModificationTag : Option ModificationTag
  deriving DecidableEq, Repr

/-- Modelled from the spec: the entry of a key the table does not hold (section 3:
entries are created on first insertion). -/
def RoutableEndpoints.empty : RoutableEndpoints :=
  { Routes := [], Endpoints := [], ModificationTag := none }

/-- Modelled from the spec: the table `routingtable.NATSRoutingTable` built by
`NewNATSTable`, not among the sources: a mapping from routing keys to entries,
kept as a list with one pair per key. -/
structure NATSRoutingTable where
  entries : List (RoutingKey × RoutableEndpoints)
  deriving DecidableEq, Repr

/-- Modelled from the spec: `routingtable.NewNATSTable`, the empty table. -/
def NewNATSTable : NATSRoutingTable :=
  { entries := [] }

/-- Modelled from the spec: the lookup in the mapping of section 3, not among the
sources. The entry of `key`, the empty entry if the table has none. -/
def NATSRoutingTable.entry (t : NATSRoutingTable) (key : RoutingKey) : RoutableEndpoints :=
  match t.entries.find? (fun p => decide (p.1 = key)) with
  | some p => p.2
  | none => RoutableEndpoints.empty

/-- Modelled from the spec: the lifecycle rule of section 3. The entry of `key` is
replaced by `e`; an entry whose two sides are both empty is destroyed. -/
def NATSRoutingTable.setEntry (t : NATSRoutingTable) (key : RoutingKey)
    (e : RoutableEndpoints) : NATSRoutingTable :=
  let others := t.entries.filter (fun p => decide (p.1 ≠ key))
  if e.Routes.isEmpty && e.Endpoints.isEmpty then { entries := others }
  else { entries := others ++ [(key, e)] }

/-- Modelled from the spec: the fan-out of section 3, not among the sources: one
message per (route, endpoint) pair, grouped by endpoint. -/
def messagesFor (routes : List Route) (endpoints : List Endpoint) : List RegistryMessage :=
  endpoints.flatMap (fun e => routes.map (fun r => RegistryMessageFor e r))

/-- Modelled from the spec: the key of the endpoint mapping of section 3. Do the two
endpoints have the same (instance identifier, evacuating flag)? -/
def Endpoint.sameKey (a b : Endpoint) : Bool :=
  a.InstanceGuid == b.InstanceGuid && a.Evacuating == b.Evacuating

/-- Modelled from the spec: an endpoint and its twin of section 3. Do the two
endpoints belong to the same instance? -/
def Endpoint.sameInstance (a b : Endpoint) : Bool :=
  a.InstanceGuid == b.InstanceGuid

/-- Modelled from the spec: the identity of a route for the router, hostname and
route-service URL (section 4.1). Does the list hold a route with those of `r`? -/
def hasRoute (routes : List Route) (r : Route) : Bool :=
  routes.any (fun x => x.Hostname == r.Hostname && x.RouteServiceUrl == r.RouteServiceUrl)

/-- Modelled from the spec: membership of a hostname in a route set (section 3). -/
def hasHostname (routes : List Route) (hostname : String) : Bool :=
  routes.any (fun x => x.Hostname == hostname)

/-- Modelled from the spec: the no-op test of `SetRoutes` (section 4.1 and the test
"emits nothing when the route's hostnames do not change"). Are the two lists the
same set of (hostname, route-service URL) pairs? -/
def sameRoutes (old new : List Route) : Bool :=
  old.all (hasRoute new) && new.all (hasRoute old)

/-- Modelled from the spec: the upsert by (instance identifier, evacuating flag) of the
`AddEndpoint` contract (section 4.1). The endpoint mapping with `e` stored under its
key. -/
def upsertEndpoint (endpoints : List Endpoint) (e : Endpoint) : List Endpoint :=
  if endpoints.any (Endpoint.sameKey e) then
    endpoints.map (fun x => if Endpoint.sameKey e x then e else x)
  else endpoints ++ [e]

/-- Modelled from the spec: `SetRoutes(key, newRoutes, tag)` of section 4.1, not among
the sources. A tag strictly older than the stored one changes and emits nothing.
Otherwise the route set and the tag are replaced. Unregistrations: (stored route
whose hostname is gone × every endpoint). Registrations: none when the set of
(hostname, route-service URL) pairs is unchanged; otherwise (every route of the new
set × every endpoint), as the tests of `SetRoutes` with a newer tag show (an added
hostname re-registers the hostnames that stay). Section 4.1 words the endpoint side
as "every non-evacuating endpoint or, if none, every evacuating endpoint"; the model
takes every stored endpoint, the fan-out of section 3, which is also what the Swap
tests register for an instance stored with its evacuating twin. -/
def NATSRoutingTable.SetRoutes (t : NATSRoutingTable) (key : RoutingKey)
    (routes : List Route) (tag : Option ModificationTag) : NATSRoutingTable × MessagesToEmit :=
  let current := t.entry key
  if strictlyOlder tag current.ModificationTag then (t, MessagesToEmit.zero)
  else
    (t.setEntry key { current with Routes := routes, ModificationTag := tag },
     { MessagesToEmit.zero with
       RegistrationMessages :=
         if sameRoutes current.Routes routes then [] else messagesFor routes current.Endpoints
       UnregistrationMessages :=
         messagesFor (current.Routes.filter (fun r => !hasHostname routes r.Hostname))
           current.Endpoints })

/-- Modelled from the spec: `RemoveRoutes(key, tag)` of section 4.1, not among the
sources: the same staleness rule; on success the route set is cleared and the full
product (route × endpoint) is unregistered. -/
def NATSRoutingTable.RemoveRoutes (t : NATSRoutingTable) (key : RoutingKey)
    (tag : Option ModificationTag) : NATSRoutingTable × MessagesToEmit :=
  let current := t.entry key
  if strictlyOlder tag current.ModificationTag then (t, MessagesToEmit.zero)
  else
    (t.setEntry key { current with Routes := [], ModificationTag := tag },
     { MessagesToEmit.zero with
       UnregistrationMessages := messagesFor current.Routes current.Endpoints })

/-- Modelled from the spec: `AddEndpoint(key, endpoint)` of section 4.1, not among the
sources: an upsert by (instance identifier, evacuating flag), dropped when the
endpoint stored under that key has a strictly newer tag (section 3). Registrations
(every route × this endpoint) are emitted only if the endpoint is newly visible,
that is when no endpoint of its instance, itself or its twin, was stored. The
collision record is a log line only and is left out. -/
def NATSRoutingTable.AddEndpoint (t : NATSRoutingTable) (key : RoutingKey)
    (endpoint : Endpoint) : NATSRoutingTable × MessagesToEmit :=
  let current := t.entry key
  match current.Endpoints.find? (Endpoint.sameKey endpoint) with
  | some stored =>
    if strictlyOlder endpoint.ModificationTag stored.ModificationTag then
      (t, MessagesToEmit.zero)
    else
      (t.setEntry key { current with Endpoints := upsertEndpoint current.Endpoints endpoint },
       MessagesToEmit.zero)
  | none =>
    (t.setEntry key { current with Endpoints := upsertEndpoint current.Endpoints endpoint },
     if current.Endpoints.any (Endpoint.sameInstance endpoint) then MessagesToEmit.zero
     else { MessagesToEmit.zero with
            RegistrationMessages := current.Routes.map (RegistryMessageFor endpoint) })

/-- Modelled from the spec: `RemoveEndpoint(key, endpoint)` of section 4.1, not among
the sources: a removal by (instance identifier, evacuating flag), dropped when the
endpoint is not stored or is stored with a strictly newer tag. Nothing is emitted
while the twin remains; otherwise (every route × removed endpoint) is
unregistered. -/
def NATSRoutingTable.RemoveEndpoint (t : NATSRoutingTable) (key : RoutingKey)
    (endpoint : Endpoint) : NATSRoutingTable × MessagesToEmit :=
  let current := t.entry key
  match current.Endpoints.find? (Endpoint.sameKey endpoint) with
  | none => (t, MessagesToEmit.zero)
  | some stored =>
    if strictlyOlder endpoint.ModificationTag stored.ModificationTag then
      (t, MessagesToEmit.zero)
    else
      let remaining := current.Endpoints.filter (fun x => !Endpoint.sameKey endpoint x)
      (t.setEntry key { current with Endpoints := remaining },
       if remaining.any (Endpoint.sameInstance endpoint) then MessagesToEmit.zero
       else { MessagesToEmit.zero with
              UnregistrationMessages := current.Routes.map (RegistryMessageFor stored) })

/-- Modelled from the spec: the non-evacuating instances of an entry (section 3): the
instance identifiers of its endpoints that are not evacuating, each once. -/
def RoutableEndpoints.nonEvacuatingInstances (e : RoutableEndpoints) : List String :=
  ((e.Endpoints.filter (fun x => !x.Evacuating)).map (fun x => x.InstanceGuid)).dedup

/-- Modelled from the spec: the contribution of one entry to `RouteCount`, not among
the sources. Section 3 gives |routes| × min(1, |non-evacuating instances|). The tests
of `RouteCount` expect 8 for two routes and two non-evacuating instances on each of
two keys, where that formula gives 4: the instances are not capped at one. The tests
are followed there and the formula everywhere else: the count is
|routes| × |non-evacuating instances|. -/
def RoutableEndpoints.routeCount (e : RoutableEndpoints) : Nat :=
  e.Routes.length * e.nonEvacuatingInstances.length

/-- Modelled from the spec: `RouteCount()`, not among the sources: the sum of the
contributions of the entries. -/
def NATSRoutingTable.RouteCount (t : NATSRoutingTable) : Nat :=
  (t.entries.map (fun p => p.2.routeCount)).sum

/-- Modelled from the spec: `models.DomainSet` of the bbs library, the set of the
domains that are fresh in this cycle (section 3), as the list of its members. -/
abbrev DomainSet := List String

/-- Modelled from the spec: `MessagesToEmit.merge`, not among the sources: the messages
of both, field by field. -/
def MessagesToEmit.merge (a b : MessagesToEmit) : MessagesToEmit :=
  { RegistrationMessages := a.RegistrationMessages ++ b.RegistrationMessages
    UnregistrationMessages := a.UnregistrationMessages ++ b.UnregistrationMessages
    InternalRegistrationMessages :=
      a.InternalRegistrationMessages ++ b.InternalRegistrationMessages
    InternalUnregistrationMessages :=
      a.InternalUnregistrationMessages ++ b.InternalUnregistrationMessages }

/-- The routing keys the table has an entry for. -/
def NATSRoutingTable.keys (t : NATSRoutingTable) : List RoutingKey :=
  t.entries.map Prod.fst

/-- Modelled from the spec: `routingtable.NewTempTable(routes, endpoints)`, not among
the sources: the snapshot table holding the given routes and endpoints per routing
key (section 2, TempTable), the endpoints stored under their keys. -/
def NewTempTable (routes : List (RoutingKey × List Route))
    (endpoints : List (RoutingKey × List Endpoint)) : NATSRoutingTable :=
  let t := routes.foldl
    (fun t p => t.setEntry p.1 { t.entry p.1 with Routes := p.2 }) NewNATSTable
  endpoints.foldl
    (fun t p => t.setEntry p.1 { t.entry p.1 with Endpoints := p.2.foldl upsertEndpoint [] }) t

/-- Modelled from the spec: is the domain of the entry stale (section 4.1, Swap)? The
domain of a routing key is the domain of its stored endpoints; it is stale when
the key has stored endpoints and none of them is of a fresh domain. -/
def staleEntry (fresh : DomainSet) (old : RoutableEndpoints) : Bool :=
  !old.Endpoints.isEmpty && old.Endpoints.all (fun e => !fresh.contains e.Domain)

/-- Modelled from the spec: the entry kept for a key of a stale domain (section 4.1,
Swap, and the tests "when we have existing stuff in the table"): the entry of the
new table, together with the routes of the old entry whose hostname the new entry
lacks and the endpoints of the old entry whose key the new entry lacks. -/
def mergeStale (old new : RoutableEndpoints) : RoutableEndpoints :=
  { Routes := new.Routes ++ old.Routes.filter (fun r => !hasHostname new.Routes r.Hostname)
    Endpoints :=
      new.Endpoints ++ old.Endpoints.filter (fun e => !new.Endpoints.any (Endpoint.sameKey e))
    ModificationTag :=
      match new.ModificationTag with
      | some tag => some tag
      | none => old.ModificationTag }

/-- Modelled from the spec: the unregistrations of a Swap for a key of a fresh domain
(section 4.1, "removes → unregistrations", and the Swap tests): for an old endpoint
whose instance has no endpoint in the new entry, every old route; for an old
endpoint whose instance remains, the old routes whose hostname is gone. -/
def swapUnregistrations (old new : RoutableEndpoints) : List RegistryMessage :=
  old.Endpoints.flatMap (fun e =>
    if new.Endpoints.any (Endpoint.sameInstance e) then
      (old.Routes.filter (fun r => !hasHostname new.Routes r.Hostname)).map
        (fun r => RegistryMessageFor e r)
    else old.Routes.map (fun r => RegistryMessageFor e r))

/-- Modelled from the spec: what `Swap` does for one routing key (section 4.1), given
the old entry of the key and its entry in the new table: the entry the live table
holds afterwards and the messages emitted for the key. For a stale domain the old
entry is merged into the new one and nothing is unregistered; otherwise the new
entry replaces the old one and the diff is unregistered. In both cases every
(route, endpoint) pair of the resulting entry is registered. -/
def swapEntry (fresh : DomainSet) (old new : RoutableEndpoints) :
    RoutableEndpoints × MessagesToEmit :=
  if staleEntry fresh old then
    (mergeStale old new,
     { MessagesToEmit.zero with
       RegistrationMessages :=
         messagesFor (mergeStale old new).Routes (mergeStale old new).Endpoints })
  else
    (new,
     { MessagesToEmit.zero with
       RegistrationMessages := messagesFor new.Routes new.Endpoints
       UnregistrationMessages := swapUnregistrations old new })

/-- The routing keys present in either table, each once: those of the new table
first. -/
def swapKeys (t new : NATSRoutingTable) : List RoutingKey :=
  (new.keys ++ t.keys).dedup

/-- Modelled from the spec: `Swap(newTable, freshDomains)` of section 4.1, not among
the sources: for every routing key present in either table the entry is replaced
as `swapEntry` says, an entry left without route and endpoint is destroyed, and the
messages of all keys are merged. -/
def NATSRoutingTable.Swap (t new : NATSRoutingTable) (fresh : DomainSet) :
    NATSRoutingTable × MessagesToEmit :=
  let keys := swapKeys t new
  ({ entries := keys.filterMap (fun k =>
        let e := (swapEntry fresh (t.entry k) (new.entry k)).1
        if e.Routes.isEmpty && e.Endpoints.isEmpty then none else some (k, e)) },
   (keys.map (fun k => (swapEntry fresh (t.entry k) (new.entry k)).2)).foldl
      MessagesToEmit.merge MessagesToEmit.zero)

/-- Modelled from the spec: `MessagesToEmit()` of section 4.1, not among the sources:
the current full registration set, one registration per (route, endpoint) pair of
every entry, and no unregistration. -/
def NATSRoutingTable.MessagesToEmit (t : NATSRoutingTable) : MessagesToEmit :=
  { MessagesToEmit.zero with
    RegistrationMessages := t.entries.flatMap (fun p => messagesFor p.2.Routes p.2.Endpoints) }

/-- An entry with no route or with no endpoint. -/
def RoutableEndpoints.OneSided (e : RoutableEndpoints) : Prop :=
  e.Routes = [] ∨ e.Endpoints = []

/-- The formula of section 3 for the contribution of one entry to `RouteCount`:
|routes| × min(1, |non-evacuating instances|). -/
def RoutableEndpoints.claimedRouteCount (e : RoutableEndpoints) : Nat :=
  e.Routes.length * min 1 e.nonEvacuatingInstances.length

/-- The formula of section 3 for `RouteCount`: the sum over the routing keys of
|routes| × min(1, |non-evacuating instances|). -/
def NATSRoutingTable.claimedRouteCount (t : NATSRoutingTable) : Nat :=
  (t.entries.map (fun p => p.2.claimedRouteCount)).sum

/-- The tables reached from a new table by a sequence of table operations. -/
inductive Reachable : NATSRoutingTable → Prop where
  | new : Reachable NewNATSTable
  | temp (routes : List (RoutingKey × List Route))
      (endpoints : List (RoutingKey × List Endpoint)) : Reachable (NewTempTable routes endpoints)
  | setRoutes {t : NATSRoutingTable} (h : Reachable t) (key : RoutingKey)
      (routes : List Route) (tag : Option ModificationTag) :
      Reachable (t.SetRoutes key routes tag).1
  | removeRoutes {t : NATSRoutingTable} (h : Reachable t) (key : RoutingKey)
      (tag : Option ModificationTag) : Reachable (t.RemoveRoutes key tag).1
  | addEndpoint {t : NATSRoutingTable} (h : Reachable t) (key : RoutingKey)
      (endpoint : Endpoint) : Reachable (t.AddEndpoint key endpoint).1
  | removeEndpoint {t : NATSRoutingTable} (h : Reachable t) (key : RoutingKey)
      (endpoint : Endpoint) : Reachable (t.RemoveEndpoint key endpoint).1
  | swap {t : NATSRoutingTable} (h : Reachable t) (newTable : NATSRoutingTable)
      (fresh : DomainSet) : Reachable (t.Swap newTable fresh).1

/-! ### Values of nats_routing_table_test.go -/

namespace TableTest

/-- The routing key of the tests. -/
def key : RoutingKey := { ProcessGUID := "some-process-guid", ContainerPort := 8080 }

/-- Test hostname 1. -/
def hostname1 : String := "foo.example.com"

/-- Test hostname 2. -/
def hostname2 : String := "bar.example.com"

/-- Test hostname 3. -/
def hostname3 : String := "baz.example.com"

/-- The tag `olderTag`. -/
def olderTag : ModificationTag := { Epoch := "abc", Index := 0 }

/-- The tag `currentTag`. -/
def currentTag : ModificationTag := { Epoch := "abc", Index := 1 }

/-- The tag `newerTag`: another epoch. -/
def newerTag : ModificationTag := { Epoch := "def", Index := 0 }

/-- The endpoint `endpoint1`. -/
def endpoint1 : Endpoint :=
  { InstanceGuid := "ig-1", Host := "1.1.1.1", Index := 0, Domain := "domain", Port := 11,
    ContainerPort := 8080, Evacuating := false, ModificationTag := some currentTag }

/-- The endpoint `endpoint2`. -/
def endpoint2 : Endpoint :=
  { InstanceGuid := "ig-2", Host := "2.2.2.2", Index := 1, Domain := "domain", Port := 22,
    ContainerPort := 8080, Evacuating := false, ModificationTag := some currentTag }

/-- The endpoint `endpoint3`. -/
def endpoint3 : Endpoint :=
  { InstanceGuid := "ig-3", Host := "3.3.3.3", Index := 2, Domain := "domain", Port := 33,
    ContainerPort := 8080, Evacuating := false, ModificationTag := some currentTag }

/-- The endpoint `evacuating1`: the evacuating twin of `endpoint1`. -/
def evacuating1 : Endpoint :=
  { InstanceGuid := "ig-1", Host := "1.1.1.1", Index := 0, Domain := "domain", Port := 11,
    ContainerPort := 8080, Evacuating := true, ModificationTag := some currentTag }

/-- The endpoint `newInstanceEndpointAfterEvacuation`. -/
def newInstanceEndpointAfterEvacuation : Endpoint :=
  { InstanceGuid := "ig-5", Host := "5.5.5.5", Index := 0, Domain := "domain", Port := 55,
    ContainerPort := 8080, Evacuating := false, ModificationTag := some currentTag }

/-- The route `routingtable.Route{Hostname: hostname, LogGuid: logGuid}`. -/
def route (hostname : String) : Route :=
  { Hostname := hostname, LogGuid := "some-log-guid", RouteServiceUrl := "",
    IsolationSegment := "" }

/-- The route with the route-service URL of the tests. -/
def routeWithService (hostname : String) : Route :=
  { Hostname := hostname, LogGuid := "some-log-guid",
    RouteServiceUrl := "https://rs.example.com", IsolationSegment := "" }

/-- The table of "when there are both endpoints and routes in the table": hostnames 1
and 2 under `currentTag`, endpoints 1 and 2. -/
def bothTable : NATSRoutingTable :=
  (((NewNATSTable.SetRoutes key [route hostname1, route hostname2] (some currentTag)).1.AddEndpoint
    key endpoint1).1.AddEndpoint key endpoint2).1

/-- The table of "when there are only routes in the table". -/
def routesOnlyTable : NATSRoutingTable :=
  (NewNATSTable.SetRoutes key [routeWithService hostname1, routeWithService hostname2] none).1

/-- The table of "when there are only endpoints in the table". -/
def endpointsOnlyTable : NATSRoutingTable :=
  ((NewNATSTable.AddEndpoint key endpoint1).1.AddEndpoint key endpoint2).1

/-- The key `endpoint.RoutingKey{ProcessGUID: guid}` of the `RouteCount` tests. -/
def fakeKey (guid : String) : RoutingKey :=
  { ProcessGUID := guid, ContainerPort := 0 }

/-- The endpoint `routingtable.Endpoint{InstanceGuid: guid}` of the `RouteCount`
tests. -/
def fakeEndpoint (guid : String) : Endpoint :=
  { InstanceGuid := guid, Host := "", Index := 0, Domain := "", Port := 0, ContainerPort := 0,
    Evacuating := false, ModificationTag := none }

/-- The domain set `domains` of the tests: the domain of the endpoints is fresh. -/
def domains : DomainSet := ["domain"]

/-- The domain set `noFreshDomains` of the tests. -/
def noFreshDomains : DomainSet := []

/-- The endpoint `collisionEndpoint`: another instance at the address of
`endpoint1`. -/
def collisionEndpoint : Endpoint :=
  { InstanceGuid := "ig-4", Host := "1.1.1.1", Index := 3, Domain := "domain", Port := 11,
    ContainerPort := 8080, Evacuating := false, ModificationTag := some currentTag }

/-- The temp table with the given routes and endpoints for `key`. -/
def temp (routes : List Route) (endpoints : List Endpoint) : NATSRoutingTable :=
  NewTempTable [(key, routes)] [(key, endpoints)]

/-- The empty temp table `NewTempTable(RoutesByRoutingKey{}, EndpointsByRoutingKey{})`. -/
def emptyTemp : NATSRoutingTable :=
  NewTempTable [] []

/-- The live table of "when there is an existing routing key": hostnames 1 and 2,
endpoints 1 and 2, swapped in with a fresh domain. -/
def swappedTable : NATSRoutingTable :=
  (NewNATSTable.Swap (temp [route hostname1, route hostname2] [endpoint1, endpoint2]) domains).1

/-- The table of the last `RouteCount` test: two processes, each with two hostnames and
two instances. -/
def routeCountTable : NATSRoutingTable :=
  ((((((NewNATSTable.SetRoutes (fakeKey "fake-process-guid-a")
      [route "fake-route-url-a-1", route "fake-route-url-a-2"] none).1.AddEndpoint
      (fakeKey "fake-process-guid-a") (fakeEndpoint "fake-instance-guid-a-1")).1.AddEndpoint
      (fakeKey "fake-process-guid-a") (fakeEndpoint "fake-instance-guid-a-2")).1.SetRoutes
      (fakeKey "fake-process-guid-b")
      [route "fake-route-url-b-1", route "fake-route-url-b-2"] none).1.AddEndpoint
      (fakeKey "fake-process-guid-b") (fakeEndpoint "fake-instance-guid-b-1")).1.AddEndpoint
      (fakeKey "fake-process-guid-b") (fakeEndpoint "fake-instance-guid-b-2")).1

end TableTest

/-- The two route lists hold the same hostnames with the same route-service URLs: the
meaning of `sameRoutes`. -/
def SameRouteSet (old new : List Route) : Prop :=
  (∀ r ∈ old, ∃ r2 ∈ new, r2.Hostname = r.Hostname ∧ r2.RouteServiceUrl = r.RouteServiceUrl)
    ∧ (∀ r ∈ new, ∃ r2 ∈ old, r2.Hostname = r.Hostname ∧ r2.RouteServiceUrl = r.RouteServiceUrl)

/-! ## Theorems: Handler.Sync -/

section HandlerTheorems

variable {T D A Dom M R : Type}

@[simp]
theorem State.record_handler (s : State T D A Dom M R) (e : Effect D A Dom M R) :
    (s.record e).handler = s.handler := rfl

@[simp]
theorem State.record_tables (s : State T D A Dom M R) (e : Effect D A Dom M R) :
    (s.record e).tables = s.tables := rfl

@[simp]
theorem State.record_nextRef (s : State T D A Dom M R) (e : Effect D A Dom M R) :
    (s.record e).nextRef = s.nextRef := rfl

@[simp]
theorem State.record_trace (s : State T D A Dom M R) (e : Effect D A Dom M R) :
    (s.record e).trace = s.trace ++ [e] := rfl

@[simp]
theorem State.logIf_handler (s : State T D A Dom M R) (b : Bool) (msg : String) :
    (s.logIf b msg).handler = s.handler := by
  cases b <;> rfl

@[simp]
theorem State.logIf_tables (s : State T D A Dom M R) (b : Bool) (msg : String) :
    (s.logIf b msg).tables = s.tables := by
  cases b <;> rfl

@[simp]
theorem State.logIf_nextRef (s : State T D A Dom M R) (b : Bool) (msg : String) :
    (s.logIf b msg).nextRef = s.nextRef := by
  cases b <;> rfl

@[simp]
theorem State.logIf_trace (s : State T D A Dom M R) (b : Bool) (msg : String) :
    (s.logIf b msg).trace = s.trace ++ logs b msg := by
  cases b <;> simp [State.logIf, logs]

@[simp]
theorem State.callTable_handler (s : State T D A Dom M R) (ref : TableRef)
    (call : TableCall D A Dom) (res : T × R × M) :
    (s.callTable ref call res).1.handler = s.handler := rfl

@[simp]
theorem State.callTable_nextRef (s : State T D A Dom M R) (ref : TableRef)
    (call : TableCall D A Dom) (res : T × R × M) :
    (s.callTable ref call res).1.nextRef = s.nextRef := rfl

@[simp]
theorem State.callTable_trace (s : State T D A Dom M R) (ref : TableRef)
    (call : TableCall D A Dom) (res : T × R × M) :
    (s.callTable ref call res).1.trace = s.trace ++ [.table ref call] := rfl

@[simp]
theorem State.callTable_tables (s : State T D A Dom M R) (ref : TableRef)
    (call : TableCall D A Dom) (res : T × R × M) :
    (s.callTable ref call res).1.tables = Function.update s.tables ref res.1 := rfl

@[simp]
theorem State.callTable_mappings (s : State T D A Dom M R) (ref : TableRef)
    (call : TableCall D A Dom) (res : T × R × M) :
    (s.callTable ref call res).2.1 = res.2.1 := rfl

@[simp]
theorem State.callTable_messages (s : State T D A Dom M R) (ref : TableRef)
    (call : TableCall D A Dom) (res : T × R × M) :
    (s.callTable ref call res).2.2 = res.2.2 := rfl

theorem emitMessages_handler (c : Collaborators T D A Dom M R) (s : State T D A Dom M R)
    (m : M) (r : R) : (emitMessages c s m r).handler = s.handler := by
  unfold emitMessages
  cases hn : s.handler.natsEmitter <;> cases hr : s.handler.routingAPIEmitter <;> simp [hn, hr]

theorem emitMessages_tables (c : Collaborators T D A Dom M R) (s : State T D A Dom M R)
    (m : M) (r : R) : (emitMessages c s m r).tables = s.tables := by
  unfold emitMessages
  cases hn : s.handler.natsEmitter <;> cases hr : s.handler.routingAPIEmitter <;> simp [hn, hr]

theorem emitMessages_nextRef (c : Collaborators T D A Dom M R) (s : State T D A Dom M R)
    (m : M) (r : R) : (emitMessages c s m r).nextRef = s.nextRef := by
  unfold emitMessages
  cases hn : s.handler.natsEmitter <;> cases hr : s.handler.routingAPIEmitter <;> simp [hn, hr]

theorem emitMessages_trace (c : Collaborators T D A Dom M R) (s : State T D A Dom M R)
    (m : M) (r : R) :
    (emitMessages c s m r).trace = s.trace ++ emitEffects c s.handler m r := by
  unfold emitMessages emitEffects
  cases hn : s.handler.natsEmitter <;> cases hr : s.handler.routingAPIEmitter <;> simp [hn, hr]

theorem emitEffects_nil (c : Collaborators T D A Dom M R) (h : Handler) (m : M) (r : R)
    (hn : h.natsEmitter = none) (hr : h.routingAPIEmitter = none) :
    emitEffects c h m r = [] := by
  simp [emitEffects, hn, hr]

theorem Replayed.refl (ref : TableRef) (s : State T D A Dom M R) : Replayed ref s s :=
  ⟨rfl, rfl, fun _ _ => rfl, [], by simp, by simp⟩

theorem Replayed.trans {ref : TableRef} {s1 s2 s3 : State T D A Dom M R}
    (h12 : Replayed ref s1 s2) (h23 : Replayed ref s2 s3) : Replayed ref s1 s3 := by
  obtain ⟨d1, ht1, hd1⟩ := h12.trace
  obtain ⟨d2, ht2, hd2⟩ := h23.trace
  refine ⟨h23.handler.trans h12.handler, h23.nextRef.trans h12.nextRef,
    fun r hr => (h23.tables r hr).trans (h12.tables r hr), d1 ++ d2, ?_, ?_⟩
  · rw [ht2, ht1, List.append_assoc]
  · intro e he
    rcases List.mem_append.mp he with h | h
    · exact hd1 e h
    · exact hd2 e h

/-- One table call followed by `emitMessages` with both emitters unset. -/
theorem Replayed.callThenEmit (c : Collaborators T D A Dom M R) (s : State T D A Dom M R)
    (call : TableCall D A Dom) (res : T × R × M)
    (hn : s.handler.natsEmitter = none) (hr : s.handler.routingAPIEmitter = none)
    (hcall : Effect.replayOnly s.handler.routingTable
      (Effect.table s.handler.routingTable call : Effect D A Dom M R) = true) :
    Replayed s.handler.routingTable s
      (emitMessages c (s.callTable s.handler.routingTable call res).1
        (s.callTable s.handler.routingTable call res).2.2
        (s.callTable s.handler.routingTable call res).2.1) := by
  refine ⟨?_, ?_, ?_, [.table s.handler.routingTable call], ?_, ?_⟩
  · simp [emitMessages_handler]
  · simp [emitMessages_nextRef]
  · intro r hne
    simp [emitMessages_tables, Function.update_noteq hne]
  · rw [emitMessages_trace, emitEffects_nil c _ _ _ (by simpa using hn) (by simpa using hr)]
    simp
  · intro e he
    simp only [List.mem_singleton] at he
    subst he
    exact hcall

/-- Handling one event while both emitters are unset. -/
theorem HandleEvent_replayed (c : Collaborators T D A Dom M R) (s : State T D A Dom M R)
    (event : Event D A)
    (hn : s.handler.natsEmitter = none) (hr : s.handler.routingAPIEmitter = none) :
    Replayed s.handler.routingTable s (HandleEvent c s event) := by
  cases event with
  | DesiredLRPCreatedEvent d =>
    exact Replayed.callThenEmit c s _ _ hn hr (by simp [Effect.replayOnly])
  | DesiredLRPChangedEvent b a =>
    exact Replayed.callThenEmit c s _ _ hn hr (by simp [Effect.replayOnly])
  | DesiredLRPRemovedEvent d =>
    exact Replayed.callThenEmit c s _ _ hn hr (by simp [Effect.replayOnly])
  | ActualLRPCreatedEvent a =>
    simp only [HandleEvent, handleActualCreate]
    split
    · exact Replayed.callThenEmit c s _ _ hn hr (by simp [Effect.replayOnly])
    · exact Replayed.refl _ s
  | ActualLRPChangedEvent b a =>
    simp only [HandleEvent, handleActualUpdate]
    split
    · exact Replayed.callThenEmit c s _ _ hn hr (by simp [Effect.replayOnly])
    · split
      · exact Replayed.callThenEmit c s _ _ hn hr (by simp [Effect.replayOnly])
      · refine ⟨?_, ?_, ?_, [], ?_, ?_⟩
        · simp [emitMessages_handler]
        · simp [emitMessages_nextRef]
        · intro r _
          simp [emitMessages_tables]
        · rw [emitMessages_trace, emitEffects_nil c _ _ _ hn hr]
        · simp
  | ActualLRPRemovedEvent a =>
    simp only [HandleEvent, handleActualDelete]
    split
    · exact Replayed.callThenEmit c s _ _ hn hr (by simp [Effect.replayOnly])
    · exact Replayed.refl _ s
  | unrecognized t =>
    refine ⟨rfl, rfl, fun _ _ => rfl, [.logError "did-not-handle-unrecognizable-event"], ?_, ?_⟩
    · simp [HandleEvent]
    · simp [Effect.replayOnly]

/-- Handling a list of events while both emitters are unset. -/
theorem foldl_HandleEvent_replayed (c : Collaborators T D A Dom M R)
    (events : List (String × Event D A)) (s : State T D A Dom M R)
    (hn : s.handler.natsEmitter = none) (hr : s.handler.routingAPIEmitter = none) :
    Replayed s.handler.routingTable s
      (events.foldl (fun s event => HandleEvent c s event.2) s) := by
  induction events generalizing s with
  | nil => exact Replayed.refl _ s
  | cons ev rest ih =>
    have h1 := HandleEvent_replayed c s ev.2 hn hr
    have h2 := ih (HandleEvent c s ev.2) (by rw [h1.handler]; exact hn)
      (by rw [h1.handler]; exact hr)
    rw [h1.handler] at h2
    exact h1.trans h2

/-- A run of calls of one table method on the table behind `ref`, one per element of
`xs`, as in the two loops that fill the new table. -/
theorem foldl_callTable (ref : TableRef) (call : X → TableCall D A Dom) (op : T → X → T × R × M)
    (xs : List X) (s : State T D A Dom M R) :
    let s2 := xs.foldl (fun s x => (s.callTable ref (call x) (op (s.tables ref) x)).1) s
    s2.handler = s.handler ∧ s2.nextRef = s.nextRef
      ∧ s2.tables = Function.update s.tables ref (xs.foldl (fun t x => (op t x).1) (s.tables ref))
      ∧ s2.trace = s.trace ++ xs.map (fun x => Effect.table ref (call x)) := by
  induction xs generalizing s with
  | nil => simp
  | cons x rest ih =>
    obtain ⟨h1, h2, h3, h4⟩ := ih (s.callTable ref (call x) (op (s.tables ref) x)).1
    simp only [List.foldl_cons, List.map_cons]
    refine ⟨h1, h2, ?_, ?_⟩
    · rw [h3]
      simp
    · rw [h4]
      simp

theorem syncBuild_spec (c : Collaborators T D A Dom M R) (s : State T D A Dom M R)
    (desired : List D) (actuals : List A) :
    (syncBuild c s desired actuals).1 = s.nextRef
      ∧ (syncBuild c s desired actuals).2.handler = s.handler
      ∧ (syncBuild c s desired actuals).2.nextRef = s.nextRef + 1
      ∧ (syncBuild c s desired actuals).2.tables
          = Function.update s.tables s.nextRef (builtTable c desired actuals)
      ∧ (syncBuild c s desired actuals).2.trace
          = s.trace ++ buildEffects s.nextRef desired actuals := by
  have hd := foldl_callTable s.nextRef (fun lrp => TableCall.SetRoutes none lrp)
    (fun t lrp => c.SetRoutes t none lrp) desired (NewRoutingTable c s).2
  have ha := foldl_callTable s.nextRef (fun lrp => TableCall.AddEndpoint lrp)
    (fun t lrp => c.AddEndpoint t lrp) actuals
    (desired.foldl (fun st lrp => (st.callTable s.nextRef (.SetRoutes none lrp)
      (c.SetRoutes (st.tables s.nextRef) none lrp)).1) (NewRoutingTable c s).2)
  obtain ⟨hd1, hd2, hd3, hd4⟩ := hd
  obtain ⟨ha1, ha2, ha3, ha4⟩ := ha
  refine ⟨rfl, ha1.trans hd1, ha2.trans hd2, ?_, ?_⟩
  · refine ha3.trans ?_
    rw [hd3]
    simp [NewRoutingTable, builtTable]
  · refine ha4.trans ?_
    rw [hd4]
    simp [NewRoutingTable, buildEffects]

theorem syncReplay_spec (c : Collaborators T D A Dom M R) (s : State T D A Dom M R)
    (newTable : TableRef) (cachedEvents : List (String × Event D A)) :
    (syncReplay c s newTable cachedEvents).handler
        = { s.handler with natsEmitter := none, routingAPIEmitter := none,
                           routingTable := newTable }
      ∧ (syncReplay c s newTable cachedEvents).nextRef = s.nextRef
      ∧ (∀ r, r ≠ newTable → (syncReplay c s newTable cachedEvents).tables r = s.tables r)
      ∧ ∃ d, (syncReplay c s newTable cachedEvents).trace = s.trace ++ d
          ∧ ∀ e ∈ d, Effect.replayOnly newTable e = true := by
  have h := foldl_HandleEvent_replayed c cachedEvents
    ({ s with handler := { s.handler with
        natsEmitter := none, routingAPIEmitter := none, routingTable := newTable } })
    rfl rfl
  exact ⟨h.handler, h.nextRef, h.tables, h.trace⟩

theorem syncSwap_handler (c : Collaborators T D A Dom M R) (s : State T D A Dom M R)
    (table : TableRef) (n r : Option EmitterRef) (newTable : TableRef) (domains : Dom) :
    (syncSwap c s table n r newTable domains).handler
      = { s.handler with routingTable := table, natsEmitter := n, routingAPIEmitter := r } := by
  unfold syncSwap
  simp only []
  split <;> simp [emitMessages_handler]

theorem syncSwap_trace (c : Collaborators T D A Dom M R) (s : State T D A Dom M R)
    (table : TableRef) (n r : Option EmitterRef) (newTable : TableRef) (domains : Dom) :
    (syncSwap c s table n r newTable domains).trace
      = s.trace ++ swapEffects c
          { s.handler with routingTable := table, natsEmitter := n, routingAPIEmitter := r }
          (s.tables table) (s.tables newTable) newTable domains := by
  unfold syncSwap swapEffects
  simp only []
  split
  · rename_i hl
    simp only [emitMessages_handler, State.record_handler, State.callTable_handler] at hl
    simp [emitMessages_trace, emitMessages_tables, emitMessages_handler, hl]
  · rename_i hl
    simp only [emitMessages_handler, State.record_handler, State.callTable_handler] at hl
    simp [emitMessages_trace, emitMessages_tables, emitMessages_handler, hl]

/-- The trace of a whole `Handler.Sync`: the calls that build the new table, then the
calls `d` of the replay, then the swap and its emission. -/
theorem Sync_trace (c : Collaborators T D A Dom M R) (s : State T D A Dom M R)
    (desired : List D) (actuals : List A) (domains : Dom)
    (cachedEvents : List (String × Event D A))
    (hlive : s.handler.routingTable < s.nextRef) :
    (syncReplay c (syncBuild c s desired actuals).2 s.nextRef cachedEvents).tables
        s.handler.routingTable = s.tables s.handler.routingTable
    ∧ ∃ d, (syncReplay c (syncBuild c s desired actuals).2 s.nextRef cachedEvents).trace
          = (syncBuild c s desired actuals).2.trace ++ d
      ∧ (∀ e ∈ d, Effect.replayOnly s.nextRef e = true)
      ∧ (Sync c s desired actuals domains cachedEvents).trace
          = s.trace ++ buildEffects s.nextRef desired actuals ++ d
            ++ swapEffects c s.handler (s.tables s.handler.routingTable)
                ((syncReplay c (syncBuild c s desired actuals).2 s.nextRef cachedEvents).tables
                  s.nextRef) s.nextRef domains := by
  obtain ⟨hb1, hb2, _, hb4, hb5⟩ := syncBuild_spec c s desired actuals
  obtain ⟨_, _, hr3, d, hr4, hr5⟩ :=
    syncReplay_spec c (syncBuild c s desired actuals).2 s.nextRef cachedEvents
  have hne : s.handler.routingTable ≠ s.nextRef := Nat.ne_of_lt hlive
  have hlive_tbl :
      (syncReplay c (syncBuild c s desired actuals).2 s.nextRef cachedEvents).tables
        s.handler.routingTable = s.tables s.handler.routingTable := by
    rw [hr3 _ hne, hb4, Function.update_noteq hne]
  refine ⟨hlive_tbl, d, hr4, hr5, ?_⟩
  unfold Sync
  simp only [hb1, hb2]
  rw [syncSwap_trace, hr4, hb5, hlive_tbl]
  have hh := (syncReplay_spec c (syncBuild c s desired actuals).2 s.nextRef cachedEvents).1
  rw [hh, hb2]

/-- C1: when `Handler.Sync` returns, the handler's fields are those it held before the
call, whatever the cached events: `routingTable` is the live table (and not the
freshly built one), `natsEmitter` and `routingAPIEmitter` are the saved emitters,
`localMode` and `metronClient` are unchanged. -/
theorem Sync_restores_handler (c : Collaborators T D A Dom M R) (s : State T D A Dom M R)
    (desired : List D) (actuals : List A) (domains : Dom)
    (cachedEvents : List (String × Event D A))
    (hlive : s.handler.routingTable < s.nextRef) :
    (Sync c s desired actuals domains cachedEvents).handler = s.handler
      ∧ (Sync c s desired actuals domains cachedEvents).handler.routingTable
          ≠ (syncBuild c s desired actuals).1
      ∧ (syncReplay c (syncBuild c s desired actuals).2 (syncBuild c s desired actuals).1
            cachedEvents).handler.routingTable = (syncBuild c s desired actuals).1 := by
  obtain ⟨hb1, hb2, _, _, _⟩ := syncBuild_spec c s desired actuals
  have hh := (syncReplay_spec c (syncBuild c s desired actuals).2
    (syncBuild c s desired actuals).1 cachedEvents).1
  have hfin : (Sync c s desired actuals domains cachedEvents).handler = s.handler := by
    unfold Sync
    simp only []
    rw [syncSwap_handler, hh, hb2]
  refine ⟨hfin, ?_, ?_⟩
  · rw [hfin, hb1]
    exact Nat.ne_of_lt hlive
  · rw [hh]

/-- C1, on a concrete handler with two cached events. -/
theorem Sync_restores_handler_witness :
    (Sync sampleCollaborators sampleState ["d1"] ["RUNNING"] () sampleEvents).handler
        = sampleState.handler
      ∧ (Sync sampleCollaborators sampleState ["d1"] ["RUNNING"] () sampleEvents).handler.routingTable
          ≠ (syncBuild sampleCollaborators sampleState ["d1"] ["RUNNING"]).1
      ∧ (syncReplay sampleCollaborators (syncBuild sampleCollaborators sampleState ["d1"] ["RUNNING"]).2
            (syncBuild sampleCollaborators sampleState ["d1"] ["RUNNING"]).1
            sampleEvents).handler.routingTable
          = (syncBuild sampleCollaborators sampleState ["d1"] ["RUNNING"]).1 :=
  Sync_restores_handler sampleCollaborators sampleState ["d1"] ["RUNNING"] () sampleEvents
    (by decide)

/-- C2: in `Handler.Sync` the replay of the cached events only calls SetRoutes,
RemoveRoutes, AddEndpoint and RemoveEndpoint on the freshly built table (and the
error log): it makes no call on the live table, whose state it leaves as it was, no
call of either emitter and no increment of RoutesRegistered or RoutesUnregistered,
for every list of cached events. -/
theorem Sync_replay_on_new_table (c : Collaborators T D A Dom M R) (s : State T D A Dom M R)
    (desired : List D) (actuals : List A) (domains : Dom)
    (cachedEvents : List (String × Event D A))
    (hlive : s.handler.routingTable < s.nextRef) :
    (syncReplay c (syncBuild c s desired actuals).2 (syncBuild c s desired actuals).1
        cachedEvents).tables s.handler.routingTable = s.tables s.handler.routingTable
    ∧ ∃ d, (syncReplay c (syncBuild c s desired actuals).2 (syncBuild c s desired actuals).1
          cachedEvents).trace = (syncBuild c s desired actuals).2.trace ++ d
      ∧ (∃ rest, (Sync c s desired actuals domains cachedEvents).trace
          = (syncBuild c s desired actuals).2.trace ++ d ++ rest)
      ∧ ∀ e ∈ d, Effect.replayOnly (syncBuild c s desired actuals).1 e = true
          ∧ Effect.onTable s.handler.routingTable e = false
          ∧ Effect.isNatsEmit e = false ∧ Effect.isRoutingAPIEmit e = false
          ∧ Effect.isIncrement routesRegistered e = false
          ∧ Effect.isIncrement routesUnregistered e = false := by
  obtain ⟨hb1, _, _, _, hb5⟩ := syncBuild_spec c s desired actuals
  obtain ⟨htbl, d, hd1, hd2, hd3⟩ := Sync_trace c s desired actuals domains cachedEvents hlive
  rw [hb1]
  refine ⟨htbl, d, hd1, ⟨_, by rw [hd3, hb5]⟩, ?_⟩
  intro e he
  have hne : s.nextRef ≠ s.handler.routingTable := (Nat.ne_of_lt hlive).symm
  have h := hd2 e he
  refine ⟨h, ?_⟩
  cases e with
  | table r call =>
    cases call <;>
      simp_all [Effect.replayOnly, Effect.onTable, Effect.isNatsEmit, Effect.isRoutingAPIEmit,
        Effect.isIncrement]
  | logError m =>
    simp [Effect.onTable, Effect.isNatsEmit, Effect.isRoutingAPIEmit, Effect.isIncrement]
  | newRoutingTable r => simp [Effect.replayOnly] at h
  | natsEmit em m => simp [Effect.replayOnly] at h
  | routingAPIEmit em m => simp [Effect.replayOnly] at h
  | incrementCounter n k => simp [Effect.replayOnly] at h
  | sendMetric n k => simp [Effect.replayOnly] at h
  | sendDuration n => simp [Effect.replayOnly] at h

/-- C2, on a concrete handler with two cached events. -/
theorem Sync_replay_on_new_table_witness :
    sampleState.handler.routingTable < sampleState.nextRef
    ∧ (syncReplay sampleCollaborators (syncBuild sampleCollaborators sampleState ["d1"] ["RUNNING"]).2
        (syncBuild sampleCollaborators sampleState ["d1"] ["RUNNING"]).1
        sampleEvents).tables sampleState.handler.routingTable
      = sampleState.tables sampleState.handler.routingTable :=
  ⟨by decide,
   (Sync_replay_on_new_table sampleCollaborators sampleState ["d1"] ["RUNNING"] () sampleEvents
      (by decide)).1⟩

theorem filter_logs (p : Effect D A Dom M R → Bool) (b : Bool) (msg : String)
    (hp : p (.logError msg) = false) : (logs b msg).filter p = [] := by
  cases b <;> simp [logs, hp]

/-- C3: for a handler with both emitters configured, the calls that `Handler.Sync`
makes on the live table and on the two emitters are, in this order and whatever the
cached events: one `Swap(newTable, domains)` on the live table, one `Emit` of the NATS
emitter with the messages returned by that Swap, one `Emit` of the routing-API
emitter with the route mappings returned by that Swap. The Swap is applied to the
live table in the state it had when Sync was called. -/
theorem Sync_swaps_and_emits_once (c : Collaborators T D A Dom M R) (s : State T D A Dom M R)
    (desired : List D) (actuals : List A) (domains : Dom)
    (cachedEvents : List (String × Event D A)) (n r : EmitterRef)
    (hn : s.handler.natsEmitter = some n) (hr : s.handler.routingAPIEmitter = some r)
    (hlive : s.handler.routingTable < s.nextRef) :
    ((Sync c s desired actuals domains cachedEvents).since s.trace.length).filter
        (Effect.swapRelevant s.handler.routingTable)
      = [ .table s.handler.routingTable (.Swap (syncBuild c s desired actuals).1 domains),
          .natsEmit n (c.Swap (s.tables s.handler.routingTable)
            ((syncReplay c (syncBuild c s desired actuals).2 (syncBuild c s desired actuals).1
              cachedEvents).tables (syncBuild c s desired actuals).1) domains).2.2,
          .routingAPIEmit r (c.Swap (s.tables s.handler.routingTable)
            ((syncReplay c (syncBuild c s desired actuals).2 (syncBuild c s desired actuals).1
              cachedEvents).tables (syncBuild c s desired actuals).1) domains).2.1 ] := by
  obtain ⟨hb1, _, _, _, _⟩ := syncBuild_spec c s desired actuals
  obtain ⟨_, d, _, hd2, hd3⟩ := Sync_trace c s desired actuals domains cachedEvents hlive
  have hne : s.nextRef ≠ s.handler.routingTable := (Nat.ne_of_lt hlive).symm
  rw [hb1]
  have hbuild : (buildEffects s.nextRef desired actuals : List (Effect D A Dom M R)).filter
      (Effect.swapRelevant s.handler.routingTable) = [] := by
    rw [List.filter_eq_nil_iff]
    intro e he
    simp only [buildEffects, List.mem_cons, List.mem_append, List.mem_map] at he
    rcases he with rfl | ⟨x, _, rfl⟩ | ⟨x, _, rfl⟩ <;>
      simp [Effect.swapRelevant, Effect.onTable, Effect.isNatsEmit, Effect.isRoutingAPIEmit, hne]
  have hreplay : d.filter (Effect.swapRelevant s.handler.routingTable) = [] := by
    rw [List.filter_eq_nil_iff]
    intro e he
    have h := hd2 e he
    cases e with
    | table r call =>
      cases call <;>
        simp_all [Effect.replayOnly, Effect.swapRelevant, Effect.onTable, Effect.isNatsEmit,
          Effect.isRoutingAPIEmit]
    | logError m =>
      simp [Effect.swapRelevant, Effect.onTable, Effect.isNatsEmit, Effect.isRoutingAPIEmit]
    | newRoutingTable r => simp [Effect.replayOnly] at h
    | natsEmit em m => simp [Effect.replayOnly] at h
    | routingAPIEmit em m => simp [Effect.replayOnly] at h
    | incrementCounter n k => simp [Effect.replayOnly] at h
    | sendMetric n k => simp [Effect.replayOnly] at h
    | sendDuration n => simp [Effect.replayOnly] at h
  have hlog : ∀ (b : Bool) (msg : String), (logs b msg : List (Effect D A Dom M R)).filter
      (Effect.swapRelevant s.handler.routingTable) = [] := fun b msg =>
    filter_logs _ b msg (by simp [Effect.swapRelevant, Effect.onTable, Effect.isNatsEmit,
      Effect.isRoutingAPIEmit])
  unfold State.since
  rw [hd3]
  simp only [List.append_assoc, List.drop_left, List.filter_append, hbuild, hreplay,
    List.nil_append]
  unfold swapEffects emitEffects
  simp only [hn, hr]
  cases s.handler.localMode <;>
    simp [List.filter_append, hlog, List.filter_cons, Effect.swapRelevant, Effect.onTable,
      Effect.isNatsEmit, Effect.isRoutingAPIEmit]

/-- C3, on a concrete handler with two cached events. -/
theorem Sync_swaps_and_emits_once_witness :
    ((Sync sampleCollaborators sampleState ["d1"] ["RUNNING"] () sampleEvents).since
        sampleState.trace.length).filter (Effect.swapRelevant sampleState.handler.routingTable)
      = [ .table 0 (.Swap 1 ()),
          .natsEmit 7 ["reg set d1", "reg add RUNNING", "reg remove RUNNING"],
          .routingAPIEmit 8 ["map set d1", "map add RUNNING", "map remove RUNNING"] ] :=
  Sync_swaps_and_emits_once sampleCollaborators sampleState ["d1"] ["RUNNING"] () sampleEvents
    7 8 rfl rfl (by decide)

/-- C4: `Handler.Sync` first creates the new table and then calls, on that table and in
this order, `SetRoutes(nil, d)` once for every element of `desired` in list order and
`AddEndpoint(a)` once for every element of `actuals` in list order, whatever the
state of `a`; every other call of the Sync, the replay of the cached events
included, comes after these. -/
theorem Sync_builds_new_table (c : Collaborators T D A Dom M R) (s : State T D A Dom M R)
    (desired : List D) (actuals : List A) (domains : Dom)
    (cachedEvents : List (String × Event D A)) :
    (syncBuild c s desired actuals).2.trace
        = s.trace ++ Effect.newRoutingTable (syncBuild c s desired actuals).1
            :: (desired.map (fun lrp =>
                  Effect.table (syncBuild c s desired actuals).1 (TableCall.SetRoutes none lrp))
                ++ actuals.map (fun lrp =>
                  Effect.table (syncBuild c s desired actuals).1 (TableCall.AddEndpoint lrp)))
      ∧ (syncBuild c s desired actuals).2.tables (syncBuild c s desired actuals).1
        = actuals.foldl (fun t lrp => (c.AddEndpoint t lrp).1)
            (desired.foldl (fun t lrp => (c.SetRoutes t none lrp).1) c.emptyTable)
      ∧ ∃ replay rest,
          (syncReplay c (syncBuild c s desired actuals).2 (syncBuild c s desired actuals).1
              cachedEvents).trace = (syncBuild c s desired actuals).2.trace ++ replay
          ∧ (Sync c s desired actuals domains cachedEvents).trace
              = (syncBuild c s desired actuals).2.trace ++ replay ++ rest := by
  obtain ⟨hb1, _, _, hb4, hb5⟩ := syncBuild_spec c s desired actuals
  obtain ⟨_, _, _, d, hr4, _⟩ :=
    syncReplay_spec c (syncBuild c s desired actuals).2 (syncBuild c s desired actuals).1
      cachedEvents
  refine ⟨?_, ?_, d, ?_⟩
  · rw [hb5, hb1]
    rfl
  · rw [hb4, hb1]
    simp [builtTable]
  · have hs : ∃ rest, (Sync c s desired actuals domains cachedEvents).trace
        = (syncReplay c (syncBuild c s desired actuals).2 (syncBuild c s desired actuals).1
            cachedEvents).trace ++ rest := by
      unfold Sync
      simp only []
      rw [syncSwap_trace]
      exact ⟨_, rfl⟩
    obtain ⟨rest, hrest⟩ := hs
    exact ⟨rest, hr4, by rw [hrest, hr4]⟩

/-! ### Handler.HandleEvent and Handler.Emit -/

theorem since_of_trace_eq (s s2 : State T D A Dom M R) (d : List (Effect D A Dom M R))
    (h : s2.trace = s.trace ++ d) : s2.since s.trace.length = d := by
  simp [State.since, h]

@[simp]
theorem tableCalls_logs (b : Bool) (msg : String) :
    tableCalls (logs b msg : List (Effect D A Dom M R)) = [] := by
  cases b <;> simp [logs, tableCalls, Effect.tableCall?]

@[simp]
theorem natsEmits_logs (b : Bool) (msg : String) :
    natsEmits (logs b msg : List (Effect D A Dom M R)) = [] := by
  cases b <;> simp [logs, natsEmits, Effect.natsEmit?]

@[simp]
theorem routingAPIEmits_logs (b : Bool) (msg : String) :
    routingAPIEmits (logs b msg : List (Effect D A Dom M R)) = [] := by
  cases b <;> simp [logs, routingAPIEmits, Effect.routingAPIEmit?]

@[simp]
theorem increments_logs (b : Bool) (msg : String) :
    increments (logs b msg : List (Effect D A Dom M R)) = [] := by
  cases b <;> simp [logs, increments, Effect.increment?]

@[simp]
theorem metrics_logs (b : Bool) (msg : String) :
    metrics (logs b msg : List (Effect D A Dom M R)) = [] := by
  cases b <;> simp [logs, metrics, Effect.metric?]

theorem tableCalls_append (xs ys : List (Effect D A Dom M R)) :
    tableCalls (xs ++ ys) = tableCalls xs ++ tableCalls ys := by
  simp [tableCalls]

theorem natsEmits_append (xs ys : List (Effect D A Dom M R)) :
    natsEmits (xs ++ ys) = natsEmits xs ++ natsEmits ys := by
  simp [natsEmits]

theorem routingAPIEmits_append (xs ys : List (Effect D A Dom M R)) :
    routingAPIEmits (xs ++ ys) = routingAPIEmits xs ++ routingAPIEmits ys := by
  simp [routingAPIEmits]

theorem increments_append (xs ys : List (Effect D A Dom M R)) :
    increments (xs ++ ys) = increments xs ++ increments ys := by
  simp [increments]

theorem metrics_append (xs ys : List (Effect D A Dom M R)) :
    metrics (xs ++ ys) = metrics xs ++ metrics ys := by
  simp [metrics]

theorem tableCalls_emitEffects (c : Collaborators T D A Dom M R) (h : Handler) (m : M) (r : R) :
    tableCalls (emitEffects c h m r) = [] := by
  unfold emitEffects
  cases h.natsEmitter <;> cases h.routingAPIEmitter <;>
    simp only [tableCalls_append, tableCalls_logs, List.append_nil, List.nil_append] <;> rfl

theorem natsEmits_emitEffects (c : Collaborators T D A Dom M R) (h : Handler) (m : M) (r : R) :
    natsEmits (emitEffects c h m r) = h.natsEmitter.toList.map (fun e => (e, m)) := by
  unfold emitEffects
  cases h.natsEmitter <;> cases h.routingAPIEmitter <;>
    simp only [natsEmits_append, natsEmits_logs, List.append_nil, List.nil_append] <;> rfl

theorem routingAPIEmits_emitEffects (c : Collaborators T D A Dom M R) (h : Handler) (m : M)
    (r : R) :
    routingAPIEmits (emitEffects c h m r) = h.routingAPIEmitter.toList.map (fun e => (e, r)) := by
  unfold emitEffects
  cases h.natsEmitter <;> cases h.routingAPIEmitter <;>
    simp only [routingAPIEmits_append, routingAPIEmits_logs, List.append_nil, List.nil_append] <;> rfl

theorem increments_emitEffects (c : Collaborators T D A Dom M R) (h : Handler) (m : M) (r : R) :
    increments (emitEffects c h m r)
      = (h.natsEmitter.toList.map (fun _ =>
          [(routesRegistered, c.RouteRegistrationCount m),
           (routesUnregistered, c.RouteUnregistrationCount m)])).flatten := by
  unfold emitEffects
  cases h.natsEmitter <;> cases h.routingAPIEmitter <;>
    simp only [increments_append, increments_logs, List.append_nil, List.nil_append] <;> rfl

theorem tableCalls_table_cons (ref : TableRef) (call : TableCall D A Dom)
    (es : List (Effect D A Dom M R)) :
    tableCalls (Effect.table ref call :: es) = (ref, call) :: tableCalls es := rfl

/-- One table call on the handler's table followed by `emitMessages` of its results. -/
theorem callThenEmit_trace (c : Collaborators T D A Dom M R) (s : State T D A Dom M R)
    (call : TableCall D A Dom) (res : T × R × M) :
    (emitMessages c (s.callTable s.handler.routingTable call res).1
        (s.callTable s.handler.routingTable call res).2.2
        (s.callTable s.handler.routingTable call res).2.1).trace
      = s.trace ++ (Effect.table s.handler.routingTable call
          :: emitEffects c s.handler res.2.2 res.2.1) := by
  rw [emitMessages_trace]
  simp

/-- C16: on an actual-LRP event `HandleEvent` makes at most one table call, chosen by
the running states only. Created: `AddEndpoint(info)` iff the state is running.
Removed: `RemoveEndpoint(info)` iff the state is running. Changed:
`AddEndpoint(after)` when `after` is running, whatever `before` is; otherwise
`RemoveEndpoint(before)` when `before` is running; otherwise no table call. -/
theorem HandleEvent_actual_calls (c : Collaborators T D A Dom M R) (s : State T D A Dom M R)
    (info before after : A) :
    tableCalls ((HandleEvent c s (.ActualLRPCreatedEvent info)).since s.trace.length)
        = (if c.actualState info = ActualLRPStateRunning
            then [(s.handler.routingTable, TableCall.AddEndpoint info)] else [])
    ∧ tableCalls ((HandleEvent c s (.ActualLRPRemovedEvent info)).since s.trace.length)
        = (if c.actualState info = ActualLRPStateRunning
            then [(s.handler.routingTable, TableCall.RemoveEndpoint info)] else [])
    ∧ tableCalls ((HandleEvent c s (.ActualLRPChangedEvent before after)).since s.trace.length)
        = (if c.actualState after = ActualLRPStateRunning
            then [(s.handler.routingTable, TableCall.AddEndpoint after)]
            else if c.actualState before = ActualLRPStateRunning
              then [(s.handler.routingTable, TableCall.RemoveEndpoint before)]
              else []) := by
  refine ⟨?_, ?_, ?_⟩
  · simp only [HandleEvent, handleActualCreate]
    split
    · rw [since_of_trace_eq _ _ _ (callThenEmit_trace c s _ _)]
      rw [tableCalls_table_cons, tableCalls_emitEffects]
    · simp [State.since, tableCalls]
  · simp only [HandleEvent, handleActualDelete]
    split
    · rw [since_of_trace_eq _ _ _ (callThenEmit_trace c s _ _)]
      rw [tableCalls_table_cons, tableCalls_emitEffects]
    · simp [State.since, tableCalls]
  · simp only [HandleEvent, handleActualUpdate]
    split
    · rw [since_of_trace_eq _ _ _ (callThenEmit_trace c s _ _)]
      rw [tableCalls_table_cons, tableCalls_emitEffects]
    · split
      · rw [since_of_trace_eq _ _ _ (callThenEmit_trace c s _ _)]
        rw [tableCalls_table_cons, tableCalls_emitEffects]
      · rw [since_of_trace_eq _ _ _ (emitMessages_trace c s _ _)]
        exact tableCalls_emitEffects c s.handler _ _

/-- C17: on an event of none of the six known kinds `HandleEvent` only writes an error
to the log: handler fields, tables and the table allocator are unchanged, and the
trace gains no table call, no emitter call, no counter increment and no metric. -/
theorem HandleEvent_unrecognized (c : Collaborators T D A Dom M R) (s : State T D A Dom M R)
    (eventType : String) :
    (HandleEvent c s (.unrecognized eventType)).handler = s.handler
      ∧ (HandleEvent c s (.unrecognized eventType)).tables = s.tables
      ∧ (HandleEvent c s (.unrecognized eventType)).nextRef = s.nextRef
      ∧ (HandleEvent c s (.unrecognized eventType)).trace
          = s.trace ++ [.logError "did-not-handle-unrecognizable-event"]
      ∧ tableCalls ((HandleEvent c s (.unrecognized eventType)).since s.trace.length) = []
      ∧ natsEmits ((HandleEvent c s (.unrecognized eventType)).since s.trace.length) = []
      ∧ routingAPIEmits ((HandleEvent c s (.unrecognized eventType)).since s.trace.length) = []
      ∧ increments ((HandleEvent c s (.unrecognized eventType)).since s.trace.length) = []
      ∧ metrics ((HandleEvent c s (.unrecognized eventType)).since s.trace.length) = [] := by
  have ht : (HandleEvent c s (.unrecognized eventType)).trace
      = s.trace ++ [.logError "did-not-handle-unrecognizable-event"] := rfl
  refine ⟨rfl, rfl, rfl, ht, ?_, ?_, ?_, ?_, ?_⟩ <;>
    rw [since_of_trace_eq _ _ _ ht] <;>
    simp [tableCalls, natsEmits, routingAPIEmits, increments, metrics, Effect.tableCall?,
      Effect.natsEmit?, Effect.routingAPIEmit?, Effect.increment?, Effect.metric?]

theorem natsEmits_table_cons (ref : TableRef) (call : TableCall D A Dom)
    (es : List (Effect D A Dom M R)) :
    natsEmits (Effect.table ref call :: es) = natsEmits es := rfl

theorem routingAPIEmits_table_cons (ref : TableRef) (call : TableCall D A Dom)
    (es : List (Effect D A Dom M R)) :
    routingAPIEmits (Effect.table ref call :: es) = routingAPIEmits es := rfl

theorem increments_table_cons (ref : TableRef) (call : TableCall D A Dom)
    (es : List (Effect D A Dom M R)) :
    increments (Effect.table ref call :: es) = increments es := rfl

/-- What one table call on the handler's table followed by `emitMessages` of its
results adds to the trace and does to the tables. -/
theorem callThenEmit_calls (c : Collaborators T D A Dom M R) (s : State T D A Dom M R)
    (call : TableCall D A Dom) (res : T × R × M) :
    tableCalls ((emitMessages c (s.callTable s.handler.routingTable call res).1
        (s.callTable s.handler.routingTable call res).2.2
        (s.callTable s.handler.routingTable call res).2.1).since s.trace.length)
      = [(s.handler.routingTable, call)]
    ∧ natsEmits ((emitMessages c (s.callTable s.handler.routingTable call res).1
        (s.callTable s.handler.routingTable call res).2.2
        (s.callTable s.handler.routingTable call res).2.1).since s.trace.length)
      = s.handler.natsEmitter.toList.map (fun e => (e, res.2.2))
    ∧ routingAPIEmits ((emitMessages c (s.callTable s.handler.routingTable call res).1
        (s.callTable s.handler.routingTable call res).2.2
        (s.callTable s.handler.routingTable call res).2.1).since s.trace.length)
      = s.handler.routingAPIEmitter.toList.map (fun e => (e, res.2.1))
    ∧ (emitMessages c (s.callTable s.handler.routingTable call res).1
        (s.callTable s.handler.routingTable call res).2.2
        (s.callTable s.handler.routingTable call res).2.1).tables
      = Function.update s.tables s.handler.routingTable res.1 := by
  rw [since_of_trace_eq _ _ _ (callThenEmit_trace c s call res)]
  refine ⟨?_, ?_, ?_, ?_⟩
  · rw [tableCalls_table_cons, tableCalls_emitEffects]
  · rw [natsEmits_table_cons, natsEmits_emitEffects]
  · rw [routingAPIEmits_table_cons, routingAPIEmits_emitEffects]
  · rw [emitMessages_tables]
    rfl

/-- C18: on a desired-LRP event `HandleEvent` makes exactly one table call on the
handler's table, `SetRoutes(nil, info)` for a creation, `SetRoutes(before, after)`
for a change and `RemoveRoutes(info)` for a removal, leaves the table in the state
that call returns, and then calls each configured emitter exactly once, the NATS
emitter with the messages and the routing-API emitter with the route mappings
returned by that call. -/
theorem HandleEvent_desired_calls (c : Collaborators T D A Dom M R) (s : State T D A Dom M R)
    (info before after : D) :
    (tableCalls ((HandleEvent c s (.DesiredLRPCreatedEvent info)).since s.trace.length)
        = [(s.handler.routingTable, TableCall.SetRoutes none info)]
      ∧ natsEmits ((HandleEvent c s (.DesiredLRPCreatedEvent info)).since s.trace.length)
        = s.handler.natsEmitter.toList.map (fun e =>
            (e, (c.SetRoutes (s.tables s.handler.routingTable) none info).2.2))
      ∧ routingAPIEmits ((HandleEvent c s (.DesiredLRPCreatedEvent info)).since s.trace.length)
        = s.handler.routingAPIEmitter.toList.map (fun e =>
            (e, (c.SetRoutes (s.tables s.handler.routingTable) none info).2.1))
      ∧ (HandleEvent c s (.DesiredLRPCreatedEvent info)).tables
        = Function.update s.tables s.handler.routingTable
            (c.SetRoutes (s.tables s.handler.routingTable) none info).1)
    ∧ (tableCalls ((HandleEvent c s (.DesiredLRPChangedEvent before after)).since s.trace.length)
        = [(s.handler.routingTable, TableCall.SetRoutes (some before) after)]
      ∧ natsEmits ((HandleEvent c s (.DesiredLRPChangedEvent before after)).since s.trace.length)
        = s.handler.natsEmitter.toList.map (fun e =>
            (e, (c.SetRoutes (s.tables s.handler.routingTable) (some before) after).2.2))
      ∧ routingAPIEmits
          ((HandleEvent c s (.DesiredLRPChangedEvent before after)).since s.trace.length)
        = s.handler.routingAPIEmitter.toList.map (fun e =>
            (e, (c.SetRoutes (s.tables s.handler.routingTable) (some before) after).2.1))
      ∧ (HandleEvent c s (.DesiredLRPChangedEvent before after)).tables
        = Function.update s.tables s.handler.routingTable
            (c.SetRoutes (s.tables s.handler.routingTable) (some before) after).1)
    ∧ (tableCalls ((HandleEvent c s (.DesiredLRPRemovedEvent info)).since s.trace.length)
        = [(s.handler.routingTable, TableCall.RemoveRoutes info)]
      ∧ natsEmits ((HandleEvent c s (.DesiredLRPRemovedEvent info)).since s.trace.length)
        = s.handler.natsEmitter.toList.map (fun e =>
            (e, (c.RemoveRoutes (s.tables s.handler.routingTable) info).2.2))
      ∧ routingAPIEmits ((HandleEvent c s (.DesiredLRPRemovedEvent info)).since s.trace.length)
        = s.handler.routingAPIEmitter.toList.map (fun e =>
            (e, (c.RemoveRoutes (s.tables s.handler.routingTable) info).2.1))
      ∧ (HandleEvent c s (.DesiredLRPRemovedEvent info)).tables
        = Function.update s.tables s.handler.routingTable
            (c.RemoveRoutes (s.tables s.handler.routingTable) info).1) :=
  ⟨callThenEmit_calls c s _ _, callThenEmit_calls c s _ _, callThenEmit_calls c s _ _⟩

/-- The calls `Handler.Emit` makes for a handler `h` whose table is in state `t`. -/
theorem Emit_trace (c : Collaborators T D A Dom M R) (s : State T D A Dom M R) :
    (Emit c s).handler = s.handler ∧ (Emit c s).tables = s.tables
    ∧ (Emit c s).nextRef = s.nextRef
    ∧ (Emit c s).trace
      = s.trace ++ ([Effect.table s.handler.routingTable TableCall.GetRoutingEvents]
        ++ (match s.handler.natsEmitter with
            | some e =>
              [Effect.natsEmit e (c.GetRoutingEvents (s.tables s.handler.routingTable)).2]
                ++ logs (c.natsEmitFails (c.GetRoutingEvents (s.tables s.handler.routingTable)).2)
                    "failed-to-emit-nats-routes"
            | none => [])
        ++ (match s.handler.routingAPIEmitter with
            | some e =>
              [Effect.routingAPIEmit e (c.GetRoutingEvents (s.tables s.handler.routingTable)).1]
                ++ logs
                    (c.routingAPIEmitFails (c.GetRoutingEvents (s.tables s.handler.routingTable)).1)
                    "failed-to-emit-tcp-routes"
            | none => [])
        ++ [Effect.incrementCounter routesSynced
              (c.RouteRegistrationCount (c.GetRoutingEvents (s.tables s.handler.routingTable)).2)]
        ++ logs (c.metronFails routesSynced) "failed-send-routes-synced-count-metric"
        ++ [Effect.sendMetric routesTotal
              (c.HTTPAssociationsCount (s.tables s.handler.routingTable))]
        ++ logs (c.metronFails routesTotal) "failed-to-send-total-route-count-metric") := by
  unfold Emit
  cases hn : s.handler.natsEmitter <;> cases hr : s.handler.routingAPIEmitter <;>
    simp [hn, hr]

/-- What `Handler.Emit` calls, read off its trace. -/
theorem Emit_calls (c : Collaborators T D A Dom M R) (s : State T D A Dom M R) :
    tableCalls ((Emit c s).since s.trace.length)
        = [(s.handler.routingTable, TableCall.GetRoutingEvents)]
    ∧ natsEmits ((Emit c s).since s.trace.length)
        = s.handler.natsEmitter.toList.map (fun e =>
            (e, (c.GetRoutingEvents (s.tables s.handler.routingTable)).2))
    ∧ routingAPIEmits ((Emit c s).since s.trace.length)
        = s.handler.routingAPIEmitter.toList.map (fun e =>
            (e, (c.GetRoutingEvents (s.tables s.handler.routingTable)).1))
    ∧ increments ((Emit c s).since s.trace.length)
        = [(routesSynced,
            c.RouteRegistrationCount (c.GetRoutingEvents (s.tables s.handler.routingTable)).2)]
    ∧ metrics ((Emit c s).since s.trace.length)
        = [(routesTotal, c.HTTPAssociationsCount (s.tables s.handler.routingTable))] := by
  rw [since_of_trace_eq _ _ _ (Emit_trace c s).2.2.2]
  cases s.handler.natsEmitter <;> cases s.handler.routingAPIEmitter <;>
    refine ⟨?_, ?_, ?_, ?_, ?_⟩ <;>
    simp only [tableCalls_append, tableCalls_logs, natsEmits_append, natsEmits_logs,
      routingAPIEmits_append, routingAPIEmits_logs, increments_append, increments_logs,
      metrics_append, metrics_logs, List.append_nil, List.nil_append] <;> rfl

/-- C19: `Handler.Emit` reads the table once through `GetRoutingEvents` and makes no
other table call; it passes the returned messages to the NATS emitter and the
returned routing events to the routing-API emitter, each once and only when
configured; it increments RoutesSynced once, by the registration count of those
messages, and sends RoutesTotal once, with `HTTPAssociationsCount`; handler and
tables are left as they were, so a second `Emit` right after publishes the same
messages and routing events. -/
theorem Emit_publishes_table (c : Collaborators T D A Dom M R) (s : State T D A Dom M R) :
    tableCalls ((Emit c s).since s.trace.length)
        = [(s.handler.routingTable, TableCall.GetRoutingEvents)]
    ∧ natsEmits ((Emit c s).since s.trace.length)
        = s.handler.natsEmitter.toList.map (fun e =>
            (e, (c.GetRoutingEvents (s.tables s.handler.routingTable)).2))
    ∧ routingAPIEmits ((Emit c s).since s.trace.length)
        = s.handler.routingAPIEmitter.toList.map (fun e =>
            (e, (c.GetRoutingEvents (s.tables s.handler.routingTable)).1))
    ∧ increments ((Emit c s).since s.trace.length)
        = [(routesSynced,
            c.RouteRegistrationCount (c.GetRoutingEvents (s.tables s.handler.routingTable)).2)]
    ∧ metrics ((Emit c s).since s.trace.length)
        = [(routesTotal, c.HTTPAssociationsCount (s.tables s.handler.routingTable))]
    ∧ (Emit c s).handler = s.handler
    ∧ (Emit c s).tables = s.tables
    ∧ natsEmits ((Emit c (Emit c s)).since (Emit c s).trace.length)
        = natsEmits ((Emit c s).since s.trace.length)
    ∧ routingAPIEmits ((Emit c (Emit c s)).since (Emit c s).trace.length)
        = routingAPIEmits ((Emit c s).since s.trace.length) := by
  obtain ⟨h1, h2, h3, h4, h5⟩ := Emit_calls c s
  obtain ⟨_, g2, g3, _, _⟩ := Emit_calls c (Emit c s)
  obtain ⟨hh, ht, _, _⟩ := Emit_trace c s
  refine ⟨h1, h2, h3, h4, h5, hh, ht, ?_, ?_⟩
  · rw [g2, h2, hh, ht]
  · rw [g3, h3, hh, ht]

/-- C20: when the `Emit` of the NATS emitter returns an error, the handler logs it and
goes on as on success. In `emitMessages` RoutesRegistered and RoutesUnregistered are
incremented by the registration and unregistration counts of the messages and the
routing-API emitter, if configured, is called with the route mappings. In
`Handler.Emit` RoutesSynced is incremented, RoutesTotal is sent and the routing-API
emitter is called. Neither method returns an error. -/
theorem nats_error_keeps_metrics (c : Collaborators T D A Dom M R) (s : State T D A Dom M R)
    (m : M) (r : R) (n : EmitterRef) (hn : s.handler.natsEmitter = some n)
    (hfail : c.natsEmitFails m = true)
    (hfailEmit :
      c.natsEmitFails (c.GetRoutingEvents (s.tables s.handler.routingTable)).2 = true) :
    (natsEmits ((emitMessages c s m r).since s.trace.length) = [(n, m)]
      ∧ Effect.logError "failed-to-emit-http-routes"
          ∈ (emitMessages c s m r).since s.trace.length
      ∧ increments ((emitMessages c s m r).since s.trace.length)
          = [(routesRegistered, c.RouteRegistrationCount m),
             (routesUnregistered, c.RouteUnregistrationCount m)]
      ∧ routingAPIEmits ((emitMessages c s m r).since s.trace.length)
          = s.handler.routingAPIEmitter.toList.map (fun e => (e, r)))
    ∧ (natsEmits ((Emit c s).since s.trace.length)
          = [(n, (c.GetRoutingEvents (s.tables s.handler.routingTable)).2)]
      ∧ Effect.logError "failed-to-emit-nats-routes" ∈ (Emit c s).since s.trace.length
      ∧ increments ((Emit c s).since s.trace.length)
          = [(routesSynced,
              c.RouteRegistrationCount (c.GetRoutingEvents (s.tables s.handler.routingTable)).2)]
      ∧ metrics ((Emit c s).since s.trace.length)
          = [(routesTotal, c.HTTPAssociationsCount (s.tables s.handler.routingTable))]
      ∧ routingAPIEmits ((Emit c s).since s.trace.length)
          = s.handler.routingAPIEmitter.toList.map (fun e =>
              (e, (c.GetRoutingEvents (s.tables s.handler.routingTable)).1))) := by
  obtain ⟨_, h2, h3, h4, h5⟩ := Emit_calls c s
  refine ⟨⟨?_, ?_, ?_, ?_⟩, ?_, ?_, h4, h5, h3⟩
  · rw [since_of_trace_eq _ _ _ (emitMessages_trace c s m r), natsEmits_emitEffects, hn]
    rfl
  · rw [since_of_trace_eq _ _ _ (emitMessages_trace c s m r)]
    unfold emitEffects
    simp [hn, hfail, logs]
  · rw [since_of_trace_eq _ _ _ (emitMessages_trace c s m r), increments_emitEffects, hn]
    rfl
  · rw [since_of_trace_eq _ _ _ (emitMessages_trace c s m r), routingAPIEmits_emitEffects]
  · rw [h2, hn]
    rfl
  · rw [since_of_trace_eq _ _ _ (Emit_trace c s).2.2.2]
    simp [hn, hfailEmit, logs]

/-- C20, on the sample handler with a NATS emitter that always fails: the two counters
are still incremented in `emitMessages`. -/
theorem nats_error_keeps_metrics_witness :
    increments ((emitMessages failingCollaborators sampleState ["reg a", "reg b"]
        ["map a"]).since sampleState.trace.length)
      = [(routesRegistered, 2), (routesUnregistered, 0)] :=
  (nats_error_keeps_metrics failingCollaborators sampleState ["reg a", "reg b"] ["map a"] 7
    rfl rfl rfl).1.2.2.1

end HandlerTheorems

/-! ## Theorems: the channels of the syncer -/

/-- C5, the code at a pending Sync event: with one event already waiting on the `Sync`
channel of a new syncer and no consumer, `sync()` does not return (it blocks on the
send); it neither drops the tick nor logs. -/
theorem sync_blocks_when_pending :
    ((NewSyncer 10000000000 false).sync.bind NatsSyncer.sync) = none
      ∧ ((NewSyncer 10000000000 false).sync.map (fun s => s.events.Sync.buf.length)) = some 1 := by
  decide

theorem Chan.trySend_of_lt {α : Type} (ch : Chan α) (v : α) (h : ch.buf.length < ch.cap) :
    ch.trySend v = ({ ch with buf := ch.buf ++ [v] }, true) := by
  simp [Chan.trySend, Chan.send, h]

theorem Chan.trySend_of_not_lt {α : Type} (ch : Chan α) (v : α) (h : ¬ ch.buf.length < ch.cap) :
    ch.trySend v = (ch, false) := by
  simp [Chan.trySend, Chan.send, h]

theorem emit_cap (s : NatsSyncer) : s.emit.events.Emit.cap = s.events.Emit.cap := by
  by_cases h : s.events.Emit.buf.length < s.events.Emit.cap
  · unfold NatsSyncer.emit
    rw [Chan.trySend_of_lt _ _ h]
    simp
  · unfold NatsSyncer.emit
    rw [Chan.trySend_of_not_lt _ _ h]
    simp

theorem emit_pending (s : NatsSyncer) (hcap : s.events.Emit.cap = 1)
    (hle : s.events.Emit.buf.length ≤ 1) : s.emit.events.Emit.buf.length = 1 := by
  by_cases h : s.events.Emit.buf.length < s.events.Emit.cap
  · have h0 : s.events.Emit.buf.length = 0 := by omega
    unfold NatsSyncer.emit
    rw [Chan.trySend_of_lt _ _ h]
    simp [h0]
  · have h1 : s.events.Emit.buf.length = 1 := by omega
    unfold NatsSyncer.emit
    rw [Chan.trySend_of_not_lt _ _ h]
    simp [h1]

theorem emitSteps_invariant (steps : List EmitStep) (s : NatsSyncer)
    (hcap : s.events.Emit.cap = 1) (hle : s.events.Emit.buf.length ≤ 1) :
    (s.emitSteps steps).events.Emit.cap = 1
      ∧ (s.emitSteps steps).events.Emit.buf.length ≤ 1 := by
  induction steps generalizing s with
  | nil => exact ⟨hcap, hle⟩
  | cons st rest ih =>
    cases st with
    | emit =>
      exact ih s.emit ((emit_cap s).trans hcap) (le_of_eq (emit_pending s hcap hle))
    | receive =>
      refine ih _ hcap ?_
      simp only [NatsSyncer.emitStep, Chan.receive, List.length_tail]
      omega

/-- C6: the `Emit` channel created by `NewSyncer` has capacity 1, and in every state
reached from a new syncer by `emit()` calls and receives of the consumer the channel
holds at most one event; `emit()`, a total function, leaves exactly one event
pending there. -/
theorem emit_never_queues (syncInterval : Int) (internalRoutes : Bool) (steps : List EmitStep) :
    (NewSyncer syncInterval internalRoutes).events.Emit.cap = 1
      ∧ ((NewSyncer syncInterval internalRoutes).emitSteps steps).events.Emit.cap = 1
      ∧ ((NewSyncer syncInterval internalRoutes).emitSteps steps).events.Emit.buf.length ≤ 1
      ∧ ((NewSyncer syncInterval internalRoutes).emitSteps steps).emit.events.Emit.buf.length
          = 1 := by
  have h := emitSteps_invariant steps (NewSyncer syncInterval internalRoutes) rfl
    (by simp [NewSyncer, Chan.make])
  exact ⟨rfl, h.1, h.2, emit_pending _ h.1 h.2⟩

/-! ## Theorems: NatsSyncer.Run -/

theorem Run_append (lib : Libraries) (s : NatsSyncer) (l l2 : List Arrival) :
    Run lib s (l ++ l2) = l2.foldl (step lib) (Run lib s l) := by
  simp [Run, List.foldl_append]

theorem Run_snoc (lib : Libraries) (s : NatsSyncer) (l : List Arrival) (a : Arrival) :
    Run lib s (l ++ [a]) = step lib (Run lib s l) a := by
  simp [Run, List.foldl_append]

theorem step_of_returned (lib : Libraries) (st : RunState) (a : Arrival) (err : Option String)
    (h : st.phase = .returned err) : step lib st a = st := by
  simp [step, h]

theorem step_of_panicked (lib : Libraries) (st : RunState) (a : Arrival) (msg : String)
    (h : st.phase = .panicked msg) : step lib st a = st := by
  simp [step, h]

theorem foldl_step_of_returned (lib : Libraries) (script : List Arrival) (st : RunState)
    (err : Option String) (h : st.phase = .returned err) :
    script.foldl (step lib) st = st := by
  induction script with
  | nil => rfl
  | cons a rest ih => rw [List.foldl_cons, step_of_returned lib st a err h, ih]

theorem foldl_step_of_panicked (lib : Libraries) (script : List Arrival) (st : RunState)
    (msg : String) (h : st.phase = .panicked msg) :
    script.foldl (step lib) st = st := by
  induction script with
  | nil => rfl
  | cons a rest ih => rw [List.foldl_cons, step_of_panicked lib st a msg h, ih]

theorem sends_nil : sends [] = [] := rfl

theorem sends_append (a b : List RunEffect) : sends (a ++ b) = sends a ++ sends b := by
  simp [sends, List.filterMap_append]

theorem greetReplies_append (a b : List RunEffect) :
    greetReplies (a ++ b) = greetReplies a ++ greetReplies b := by
  simp [greetReplies, List.filterMap_append]

theorem stoppedTickers_append (a b : List RunEffect) :
    stoppedTickers (a ++ b) = stoppedTickers a ++ stoppedTickers b := by
  simp [stoppedTickers, List.filterMap_append]

theorem createdTickers_append (a b : List RunEffect) :
    createdTickers (a ++ b) = createdTickers a ++ createdTickers b := by
  simp [createdTickers, List.filterMap_append]

/-- C28: when `uuid.NewV4` has given the reply subject and the subscription to
`router.start` fails, or that one succeeds and the subscription to the reply subject
fails, or both succeed and, with `waitForInternalRoutesGreeting` set, the
subscription to `service-discovery.start` fails, then `Run` returns that error,
whatever arrives: `ready` is not closed, no request is published and no event is sent
on the channels of `Events`. -/
theorem Run_subscription_failure (lib : Libraries) (s : NatsSyncer) (script : List Arrival)
    (replyUuid err : String) (huuid : lib.newV4 = .ok replyUuid) :
    (lib.subscribe 0 "router.start" = some err → AbortedWith (Run lib s script) err)
    ∧ (lib.subscribe 0 "router.start" = none → lib.subscribe 1 replyUuid = some err →
        AbortedWith (Run lib s script) err)
    ∧ (lib.subscribe 0 "router.start" = none → lib.subscribe 1 replyUuid = none →
        s.waitForInternalRoutesGreeting = true →
        lib.subscribe 2 "service-discovery.start" = some err →
        AbortedWith (Run lib s script) err) := by
  refine ⟨?_, ?_, ?_⟩
  · intro h1
    have hs : (start lib s).phase = .returned (some err) := by
      simp [start, huuid, listenForRouter, RunState.subscribe, RunState.init, RunState.record,
        RunState.finish, h1]
    rw [Run, foldl_step_of_returned lib script _ _ hs]
    simp [AbortedWith, start, huuid, listenForRouter, RunState.subscribe, RunState.init,
      RunState.record, RunState.finish, h1, sends]
  · intro h1 h2
    have hs : (start lib s).phase = .returned (some err) := by
      simp [start, huuid, listenForRouter, RunState.subscribe, RunState.init, RunState.record,
        RunState.finish, h1, h2]
    rw [Run, foldl_step_of_returned lib script _ _ hs]
    simp [AbortedWith, start, huuid, listenForRouter, RunState.subscribe, RunState.init,
      RunState.record, RunState.finish, h1, h2, sends]
  · intro h1 h2 hw h3
    have hs : (start lib s).phase = .returned (some err) := by
      simp [start, huuid, listenForRouter, listenForServiceDiscovery, RunState.subscribe,
        RunState.init, RunState.record, RunState.finish, h1, h2, hw, h3]
    rw [Run, foldl_step_of_returned lib script _ _ hs]
    simp [AbortedWith, start, huuid, listenForRouter, listenForServiceDiscovery,
      RunState.subscribe, RunState.init, RunState.record, RunState.finish, h1, h2, hw, h3, sends]

theorem step_replyUuid (lib : Libraries) (st : RunState) (a : Arrival) :
    (step lib st a).replyUuid = st.replyUuid := by
  unfold step
  cases hph : st.phase <;> cases a <;>
    simp only [stepGreeting, stepRunning, stepSleeping, stepBlocked, afterGreetLoop, greet,
      afterSleep, newInterval, RunState.loopSync, RunState.firstSync, RunState.firstInternalSync,
      RunState.startTickers, RunState.emit, RunState.record, RunState.finish, RunState.consume]
  all_goals (repeat' split)
  all_goals rfl

theorem step_trace_extends (lib : Libraries) (st : RunState) (a : Arrival) :
    st.trace <+: (step lib st a).trace := by
  unfold step
  cases hph : st.phase <;> cases a <;>
    simp only [stepGreeting, stepRunning, stepSleeping, stepBlocked, afterGreetLoop, greet,
      afterSleep, newInterval, RunState.loopSync, RunState.firstSync, RunState.firstInternalSync,
      RunState.startTickers, RunState.emit, RunState.record, RunState.finish, RunState.consume]
  all_goals (repeat' split)
  all_goals simp [List.append_assoc]

theorem step_sends_ne_internalEmit (lib : Libraries) (st : RunState) (a : Arrival)
    (h : EventName.InternalEmit ∉ sends st.trace) :
    EventName.InternalEmit ∉ sends (step lib st a).trace := by
  revert h
  unfold step
  cases hph : st.phase <;> cases a <;>
    simp only [stepGreeting, stepRunning, stepSleeping, stepBlocked, afterGreetLoop, greet,
      afterSleep, newInterval, RunState.loopSync, RunState.firstSync, RunState.firstInternalSync,
      RunState.startTickers, RunState.emit, RunState.record, RunState.finish, RunState.consume]
  all_goals (repeat' split)
  all_goals simp_all [sends, List.filterMap_append]

theorem step_greeting_inv (lib : Libraries) (st : RunState) (a : Arrival)
    (h : (step lib st a).phase = .greeting) : st.phase = .greeting := by
  revert h
  unfold step
  cases hph : st.phase <;> cases a <;>
    simp only [stepGreeting, stepRunning, stepSleeping, stepBlocked, afterGreetLoop, greet,
      afterSleep, newInterval, RunState.loopSync, RunState.firstSync, RunState.firstInternalSync,
      RunState.startTickers, RunState.emit, RunState.record, RunState.finish, RunState.consume]
  all_goals (repeat' split)
  all_goals simp_all

theorem step_greetReplies (lib : Libraries) (st : RunState) (a : Arrival) :
    greetReplies (step lib st a).trace
      = greetReplies st.trace
        ++ (if st.phase = .greeting ∧ a = .tick st.retryGreetingTicker then [st.replyUuid]
            else []) := by
  unfold step
  cases hph : st.phase <;> cases a <;>
    simp only [stepGreeting, stepRunning, stepSleeping, stepBlocked, afterGreetLoop, greet,
      afterSleep, newInterval, RunState.loopSync, RunState.firstSync, RunState.firstInternalSync,
      RunState.startTickers, RunState.emit, RunState.record, RunState.finish, RunState.consume]
  all_goals (repeat' split)
  all_goals simp_all [greetReplies, List.filterMap_append]

theorem step_greeting_quiet (lib : Libraries) (st : RunState) (a : Arrival)
    (hph : st.phase = .greeting) (ha : ∀ d, a ≠ .routerStart d) :
    sends (step lib st a).trace = sends st.trace
    ∧ stoppedTickers (step lib st a).trace = stoppedTickers st.trace
    ∧ createdTickers (step lib st a).trace = createdTickers st.trace
    ∧ (step lib st a).retryGreetingTicker = st.retryGreetingTicker
    ∧ (step lib st a).tickers = st.tickers
    ∧ ((step lib st a).phase = .greeting ∨ ∃ e, (step lib st a).phase = .returned e) := by
  unfold step
  rw [hph]
  cases a <;>
    simp only [stepGreeting, greet, RunState.record, RunState.finish, RunState.consume]
  case routerStart d => exact absurd rfl (ha d)
  all_goals (repeat' split)
  all_goals simp_all [sends, stoppedTickers, createdTickers, List.filterMap_append]

theorem step_greeting_stay (lib : Libraries) (st : RunState) (a : Arrival)
    (hph : st.phase = .greeting) (h : (step lib st a).phase = .greeting) :
    (∀ d, a ≠ .routerStart d) ∧ a ≠ .signal := by
  revert h
  unfold step
  rw [hph]
  cases a <;>
    simp only [stepGreeting, afterGreetLoop, greet, RunState.firstSync,
      RunState.firstInternalSync, RunState.startTickers, RunState.record, RunState.finish,
      RunState.consume]
  all_goals (repeat' split)
  all_goals simp_all

theorem consume_NewSyncer (st : RunState) (ch : EventName) (syncInterval : Int)
    (internalRoutes : Bool) (h : st.syncer = NewSyncer syncInterval internalRoutes) :
    (st.consume ch).syncer = NewSyncer syncInterval internalRoutes := by
  simp only [RunState.consume, h]
  cases ch <;> rfl

theorem step_greeting_syncer (lib : Libraries) (st : RunState) (a : Arrival)
    (syncInterval : Int) (internalRoutes : Bool)
    (hph : st.phase = .greeting) (hs : st.syncer = NewSyncer syncInterval internalRoutes)
    (h : (step lib st a).phase = .greeting) :
    (step lib st a).syncer = NewSyncer syncInterval internalRoutes := by
  revert h
  unfold step
  rw [hph]
  cases a <;>
    simp only [stepGreeting, afterGreetLoop, greet, RunState.firstSync,
      RunState.firstInternalSync, RunState.startTickers, RunState.record, RunState.finish]
  case received ch => exact fun _ => consume_NewSyncer st ch _ _ hs
  all_goals (repeat' split)
  all_goals simp_all

theorem start_quiet (lib : Libraries) (s : NatsSyncer) :
    sends (start lib s).trace = [] ∧ stoppedTickers (start lib s).trace = []
    ∧ ((start lib s).phase = .greeting ∨ ∃ e, (start lib s).phase = .returned e) := by
  cases h0 : lib.newV4 with
  | error e => simp [start, h0, RunState.init, RunState.record, RunState.finish, sends, stoppedTickers]
  | ok replyUuid =>
    cases h1 : lib.subscribe 0 "router.start" <;> cases h2 : lib.subscribe 1 replyUuid <;>
      cases hw : s.waitForInternalRoutesGreeting <;>
      cases h3 : lib.subscribe 2 "service-discovery.start" <;>
      cases h4 : lib.publishRequest 0 "router.greet" replyUuid <;>
      simp [start, listenForRouter, listenForServiceDiscovery, enterGreetLoop, greet,
        RunState.subscribe, RunState.init, RunState.record, RunState.finish, h0, h1, h2, hw, h3,
        h4, sends, stoppedTickers]

theorem start_greeting (lib : Libraries) (s : NatsSyncer)
    (h : (start lib s).phase = .greeting) :
    (start lib s).retryGreetingTicker = 0 ∧ (start lib s).tickers = 1
    ∧ createdTickers (start lib s).trace = [0]
    ∧ greetReplies (start lib s).trace = [(start lib s).replyUuid]
    ∧ (start lib s).syncer = s
    ∧ RunEffect.closeReady ∈ (start lib s).trace := by
  revert h
  cases h0 : lib.newV4 with
  | error e => simp [start, h0, RunState.init, RunState.record, RunState.finish, createdTickers, greetReplies]
  | ok replyUuid =>
    cases h1 : lib.subscribe 0 "router.start" <;> cases h2 : lib.subscribe 1 replyUuid <;>
      cases hw : s.waitForInternalRoutesGreeting <;>
      cases h3 : lib.subscribe 2 "service-discovery.start" <;>
      cases h4 : lib.publishRequest 0 "router.greet" replyUuid <;>
      simp [start, listenForRouter, listenForServiceDiscovery, enterGreetLoop, greet,
        RunState.subscribe, RunState.init, RunState.record, RunState.finish, h0, h1, h2, hw, h3,
        h4, createdTickers, greetReplies]

theorem start_replies (lib : Libraries) (s : NatsSyncer) :
    ∀ r ∈ greetReplies (start lib s).trace,
      r = (start lib s).replyUuid
        ∧ RunEffect.subscribe (start lib s).replyUuid ∈ (start lib s).trace := by
  cases h0 : lib.newV4 with
  | error e => simp [start, h0, RunState.init, RunState.record, RunState.finish, greetReplies]
  | ok replyUuid =>
    cases h1 : lib.subscribe 0 "router.start" <;> cases h2 : lib.subscribe 1 replyUuid <;>
      cases hw : s.waitForInternalRoutesGreeting <;>
      cases h3 : lib.subscribe 2 "service-discovery.start" <;>
      cases h4 : lib.publishRequest 0 "router.greet" replyUuid <;>
      simp [start, listenForRouter, listenForServiceDiscovery, enterGreetLoop, greet,
        RunState.subscribe, RunState.init, RunState.record, RunState.finish, h0, h1, h2, hw, h3,
        h4, greetReplies]

theorem Run_greeting (lib : Libraries) (s : NatsSyncer) (script : List Arrival)
    (h : (Run lib s script).phase = .greeting) :
    (Run lib s script).retryGreetingTicker = 0 ∧ (Run lib s script).tickers = 1
    ∧ sends (Run lib s script).trace = []
    ∧ stoppedTickers (Run lib s script).trace = []
    ∧ createdTickers (Run lib s script).trace = [0]
    ∧ (greetReplies (Run lib s script).trace).length = 1 + script.count (Arrival.tick 0)
    ∧ (∀ d, Arrival.routerStart d ∉ script) ∧ Arrival.signal ∉ script := by
  induction script using List.reverseRecOn with
  | nil =>
    have hs := start_greeting lib s h
    have hq := start_quiet lib s
    refine ⟨hs.1, hs.2.1, hq.1, hq.2.1, hs.2.2.1, ?_, by simp, by simp⟩
    show (greetReplies (start lib s).trace).length = _
    rw [hs.2.2.2.1]
    rfl
  | append_singleton l a ih =>
    rw [Run_snoc] at h ⊢
    have hprev := step_greeting_inv lib _ a h
    obtain ⟨i1, i2, i3, i4, i5, i6, i7, i8⟩ := ih hprev
    obtain ⟨hns, hnsig⟩ := step_greeting_stay lib _ a hprev h
    obtain ⟨q1, q2, q3, q4, q5, _⟩ := step_greeting_quiet lib _ a hprev hns
    refine ⟨q4.trans i1, q5.trans i2, q1.trans i3, q2.trans i4, q3.trans i5, ?_, ?_, ?_⟩
    · rw [step_greetReplies, List.length_append, i6, List.count_append, i1]
      by_cases ha : a = Arrival.tick 0
      · simp [hprev, ha]
        omega
      · simp [hprev, ha]
        exact List.count_eq_zero.mpr (fun hm => ha (List.mem_singleton.mp hm).symm)
    · intro d hd
      rcases List.mem_append.mp hd with hd | hd
      · exact i7 d hd
      · exact hns d (List.mem_singleton.mp hd).symm
    · intro hd
      rcases List.mem_append.mp hd with hd | hd
      · exact i8 hd
      · exact hnsig (List.mem_singleton.mp hd).symm

theorem foldl_step_trace_extends (lib : Libraries) (script : List Arrival) (st : RunState) :
    st.trace <+: (script.foldl (step lib) st).trace := by
  induction script generalizing st with
  | nil => exact List.prefix_refl _
  | cons a rest ih => exact (step_trace_extends lib st a).trans (ih _)

theorem foldl_step_replyUuid (lib : Libraries) (script : List Arrival) (st : RunState) :
    (script.foldl (step lib) st).replyUuid = st.replyUuid := by
  induction script generalizing st with
  | nil => rfl
  | cons a rest ih => exact (ih _).trans (step_replyUuid lib st a)

theorem sends_extends {a b : List RunEffect} (h : a <+: b) : sends a <+: sends b := by
  obtain ⟨c, rfl⟩ := h
  rw [sends_append]
  exact List.prefix_append _ _

theorem foldl_step_greetReplies (lib : Libraries) (script : List Arrival) (st : RunState)
    (h : st.phase ≠ .greeting) :
    greetReplies (script.foldl (step lib) st).trace = greetReplies st.trace := by
  induction script generalizing st with
  | nil => rfl
  | cons a rest ih =>
    have hne : (step lib st a).phase ≠ .greeting := fun hg => h (step_greeting_inv lib st a hg)
    rw [List.foldl_cons, ih _ hne, step_greetReplies]
    simp [h]

theorem Run_replies_start (lib : Libraries) (s : NatsSyncer) (script : List Arrival) :
    ∀ r ∈ greetReplies (Run lib s script).trace,
      r = (start lib s).replyUuid
        ∧ RunEffect.subscribe (start lib s).replyUuid ∈ (Run lib s script).trace := by
  induction script using List.reverseRecOn with
  | nil => exact start_replies lib s
  | append_singleton l a ih =>
    have hu : (Run lib s l).replyUuid = (start lib s).replyUuid :=
      foldl_step_replyUuid lib l _
    have hstep : (Run lib s l).trace <+: (Run lib s (l ++ [a])).trace := by
      rw [Run_snoc]
      exact step_trace_extends lib _ a
    intro r hr
    rw [Run_snoc, step_greetReplies] at hr
    rcases List.mem_append.mp hr with hr | hr
    · exact ⟨(ih r hr).1, hstep.subset (ih r hr).2⟩
    · split at hr
      · rename_i hc
        have hrr : r = (Run lib s l).replyUuid := List.mem_singleton.mp hr
        have hg := Run_greeting lib s l hc.1
        have hlen : greetReplies (Run lib s l).trace ≠ [] := by
          intro hnil
          have := hg.2.2.2.2.2.1
          rw [hnil] at this
          simp at this
          omega
        obtain ⟨r0, hr0⟩ := List.exists_mem_of_ne_nil _ hlen
        exact ⟨hrr.trans hu, hstep.subset (ih r0 hr0).2⟩
      · exact absurd hr (List.not_mem_nil _)

theorem Run_replies (lib : Libraries) (s : NatsSyncer) (script : List Arrival) :
    ∀ r ∈ greetReplies (Run lib s script).trace,
      r = (Run lib s script).replyUuid
        ∧ RunEffect.subscribe (Run lib s script).replyUuid ∈ (Run lib s script).trace := by
  have huuid : (Run lib s script).replyUuid = (start lib s).replyUuid :=
    foldl_step_replyUuid lib script _
  rw [huuid]
  exact Run_replies_start lib s script

theorem Run_greeting_syncer (lib : Libraries) (syncInterval : Int) (internalRoutes : Bool)
    (script : List Arrival)
    (h : (Run lib (NewSyncer syncInterval internalRoutes) script).phase = .greeting) :
    (Run lib (NewSyncer syncInterval internalRoutes) script).syncer
      = NewSyncer syncInterval internalRoutes := by
  induction script using List.reverseRecOn with
  | nil => exact (start_greeting lib _ h).2.2.2.2.1
  | append_singleton l a ih =>
    rw [Run_snoc] at h ⊢
    have hprev := step_greeting_inv lib _ a h
    exact step_greeting_syncer lib _ a _ _ hprev (ih hprev) h

theorem Run_quiet_before_interval (lib : Libraries) (s : NatsSyncer) (script : List Arrival)
    (h : ∀ d, Arrival.routerStart d ∉ script) :
    sends (Run lib s script).trace = [] ∧ stoppedTickers (Run lib s script).trace = []
    ∧ ((Run lib s script).phase = .greeting ∨ ∃ e, (Run lib s script).phase = .returned e) := by
  induction script using List.reverseRecOn with
  | nil => exact start_quiet lib s
  | append_singleton l a ih =>
    have hl : ∀ d, Arrival.routerStart d ∉ l := fun d hd => h d (List.mem_append_left _ hd)
    have ha : ∀ d, a ≠ Arrival.routerStart d := fun d hd =>
      h d (List.mem_append_right _ (List.mem_singleton.mpr hd.symm))
    obtain ⟨i1, i2, i3⟩ := ih hl
    rw [Run_snoc]
    rcases i3 with hg | ⟨e, he⟩
    · obtain ⟨q1, q2, _, _, _, q6⟩ := step_greeting_quiet lib _ a hg ha
      exact ⟨q1.trans i1, q2.trans i2, q6⟩
    · rw [step_of_returned lib _ a e he]
      exact ⟨i1, i2, Or.inr ⟨e, he⟩⟩

theorem Run_sends_ne_internalEmit (lib : Libraries) (s : NatsSyncer) (script : List Arrival) :
    EventName.InternalEmit ∉ sends (Run lib s script).trace := by
  induction script using List.reverseRecOn with
  | nil =>
    show EventName.InternalEmit ∉ sends (start lib s).trace
    rw [(start_quiet lib s).1]
    exact List.not_mem_nil _
  | append_singleton l a ih =>
    rw [Run_snoc]
    exact step_sends_ne_internalEmit lib _ a ih

theorem start_syncer (lib : Libraries) (s : NatsSyncer) : (start lib s).syncer = s := by
  cases h0 : lib.newV4 with
  | error e => simp [start, h0, RunState.init, RunState.record, RunState.finish]
  | ok replyUuid =>
    cases h1 : lib.subscribe 0 "router.start" <;> cases h2 : lib.subscribe 1 replyUuid <;>
      cases hw : s.waitForInternalRoutesGreeting <;>
      cases h3 : lib.subscribe 2 "service-discovery.start" <;>
      cases h4 : lib.publishRequest 0 "router.greet" replyUuid <;>
      simp [start, listenForRouter, listenForServiceDiscovery, enterGreetLoop, greet,
        RunState.subscribe, RunState.init, RunState.record, RunState.finish, h0, h1, h2, hw, h3,
        h4]

theorem step_greeting_quiet_syncer (lib : Libraries) (st : RunState) (a : Arrival)
    (syncInterval : Int) (internalRoutes : Bool)
    (hph : st.phase = .greeting) (hs : st.syncer = NewSyncer syncInterval internalRoutes)
    (ha : ∀ d, a ≠ .routerStart d) :
    (step lib st a).syncer = NewSyncer syncInterval internalRoutes := by
  unfold step
  rw [hph]
  cases a <;>
    simp only [stepGreeting, greet, RunState.record, RunState.finish]
  case routerStart d => exact absurd rfl (ha d)
  case received ch => exact consume_NewSyncer st ch _ _ hs
  all_goals (repeat' split)
  all_goals simp_all

theorem Run_syncer_before_interval (lib : Libraries) (syncInterval : Int)
    (internalRoutes : Bool) (script : List Arrival)
    (h : ∀ d, Arrival.routerStart d ∉ script) :
    (Run lib (NewSyncer syncInterval internalRoutes) script).syncer
      = NewSyncer syncInterval internalRoutes := by
  induction script using List.reverseRecOn with
  | nil => exact start_syncer lib _
  | append_singleton l a ih =>
    have hl : ∀ d, Arrival.routerStart d ∉ l := fun d hd => h d (List.mem_append_left _ hd)
    have ha : ∀ d, a ≠ Arrival.routerStart d := fun d hd =>
      h d (List.mem_append_right _ (List.mem_singleton.mpr hd.symm))
    rw [Run_snoc]
    rcases (Run_quiet_before_interval lib _ l hl).2.2 with hg | ⟨e, he⟩
    · exact step_greeting_quiet_syncer lib _ a _ _ hg (ih hl) ha
    · rw [step_of_returned lib _ a e he]
      exact ih hl

theorem startTickers_sends (st : RunState) :
    sends st.startTickers.trace = sends st.trace := by
  unfold RunState.startTickers
  dsimp only
  split
  · rfl
  · split <;> simp [RunState.record, sends, List.filterMap_append]

theorem startTickers_syncer (st : RunState) : st.startTickers.syncer = st.syncer := by
  unfold RunState.startTickers
  dsimp only
  split
  · rfl
  · split <;> rfl

theorem handshake_step (lib : Libraries) (st : RunState) (d : Int) (syncInterval : Int)
    (internalRoutes : Bool) (hph : st.phase = .greeting)
    (hs : st.syncer = NewSyncer syncInterval internalRoutes) (hsends : sends st.trace = [])
    (hcr : createdTickers st.trace = [0]) (htk : st.tickers = 1) :
    (internalRoutes = false →
        sends (step lib st (.routerStart d)).trace = [.Sync]
        ∧ (step lib st (.routerStart d)).syncer.events
            = { (NewSyncer syncInterval internalRoutes).events with
                Sync := { cap := 1, buf := [()] } }
        ∧ TickersStarted (step lib st (.routerStart d)) syncInterval d)
    ∧ (internalRoutes = true →
        lib.publishRequest st.publishes "service-discovery.greet" "TODO Figure out replyUUID"
          = none →
        sends (step lib st (.routerStart d)).trace = [.InternalSync, .Sync]
        ∧ (step lib st (.routerStart d)).syncer.events
            = { (NewSyncer syncInterval internalRoutes).events with
                Sync := { cap := 1, buf := [()] }
                InternalSync := { cap := 1, buf := [()] } }
        ∧ TickersStarted (step lib st (.routerStart d)) syncInterval d)
    ∧ (internalRoutes = true → ∀ err,
        lib.publishRequest st.publishes "service-discovery.greet" "TODO Figure out replyUUID"
          = some err →
        sends (step lib st (.routerStart d)).trace = []
        ∧ (step lib st (.routerStart d)).syncer.events
            = (NewSyncer syncInterval internalRoutes).events
        ∧ (step lib st (.routerStart d)).phase = .returned (some err)) := by
  unfold step
  rw [hph]
  unfold createdTickers at hcr
  refine ⟨?_, ?_, ?_⟩
  · intro hw
    subst hw
    refine ⟨?_, ?_, ?_, ?_, ?_⟩
    · simp [stepGreeting, afterGreetLoop, RunState.firstSync, startTickers_sends,
        RunState.record, hs, NewSyncer, NatsSyncer.sync, Chan.send, Chan.make, sends_append,
        hsends]
      simp [sends]
    · simp [stepGreeting, afterGreetLoop, RunState.firstSync, startTickers_syncer,
        RunState.record, hs, NewSyncer, NatsSyncer.sync, Chan.send, Chan.make]
    · intro h1 h2
      simp [stepGreeting, afterGreetLoop, RunState.firstSync, RunState.startTickers,
        RunState.record, hs, NewSyncer, NatsSyncer.sync, Chan.send, Chan.make,
        List.filterMap_append, hcr, htk, not_le.mpr h1, not_le.mpr h2, createdTickers]
    · intro h1
      simp [stepGreeting, afterGreetLoop, RunState.firstSync, RunState.startTickers,
        RunState.record, hs, NewSyncer, NatsSyncer.sync, Chan.send, Chan.make,
        List.filterMap_append, hcr, htk, h1, createdTickers]
    · intro h1 h2
      simp [stepGreeting, afterGreetLoop, RunState.firstSync, RunState.startTickers,
        RunState.record, hs, NewSyncer, NatsSyncer.sync, Chan.send, Chan.make,
        List.filterMap_append, hcr, htk, not_le.mpr h1, h2, createdTickers]
  · intro hw hpub
    subst hw
    refine ⟨?_, ?_, ?_, ?_, ?_⟩
    · simp [stepGreeting, afterGreetLoop, RunState.firstSync, RunState.firstInternalSync,
        startTickers_sends, RunState.record, hs, NewSyncer, NatsSyncer.sync,
        NatsSyncer.internalSync, Chan.send, Chan.make, sends_append, hsends, hpub]
      simp [sends]
    · simp [stepGreeting, afterGreetLoop, RunState.firstSync, RunState.firstInternalSync,
        startTickers_syncer, RunState.record, hs, NewSyncer, NatsSyncer.sync,
        NatsSyncer.internalSync, Chan.send, Chan.make, hpub]
    · intro h1 h2
      simp [stepGreeting, afterGreetLoop, RunState.firstSync, RunState.firstInternalSync,
        RunState.startTickers, RunState.record, hs, NewSyncer, NatsSyncer.sync,
        NatsSyncer.internalSync, Chan.send, Chan.make, hpub,
        List.filterMap_append, hcr, htk, not_le.mpr h1, not_le.mpr h2, createdTickers]
    · intro h1
      simp [stepGreeting, afterGreetLoop, RunState.firstSync, RunState.firstInternalSync,
        RunState.startTickers, RunState.record, hs, NewSyncer, NatsSyncer.sync,
        NatsSyncer.internalSync, Chan.send, Chan.make, hpub,
        List.filterMap_append, hcr, htk, h1, createdTickers]
    · intro h1 h2
      simp [stepGreeting, afterGreetLoop, RunState.firstSync, RunState.firstInternalSync,
        RunState.startTickers, RunState.record, hs, NewSyncer, NatsSyncer.sync,
        NatsSyncer.internalSync, Chan.send, Chan.make, hpub,
        List.filterMap_append, hcr, htk, not_le.mpr h1, h2, createdTickers]
  · intro hw err hpub
    subst hw
    simp [stepGreeting, afterGreetLoop, RunState.finish, RunState.record, hs, NewSyncer,
      sends_append, hsends, hpub]
    simp [sends]

/-- C23 as amended: in every execution of `Run` on a new syncer, while no interval has
been received from `routerStart` no event is sent and the four channels of `Events`
are as `NewSyncer` made them, empty. When the interval `d` is received in the greet
loop, the events sent are `Sync` alone when `waitForInternalRoutesGreeting` is false,
and `InternalSync` then `Sync` when it is true and the service-discovery greeting is
published: each of these channels then holds its one event and the others are empty.
With a sync interval and an interval `d` that are positive, `Run` is then in its main
loop with the router ticker created with period `d`; with one of them not positive
`Run` panics in `NewTicker` after these sends. If the service-discovery greeting fails
`Run` returns the error and no event is sent. Whatever arrives later, these events
stay the first ones sent. -/
theorem Run_no_event_before_interval (lib : Libraries) (syncInterval : Int)
    (internalRoutes : Bool) (pre post : List Arrival) (d : Int) :
    ((∀ x, Arrival.routerStart x ∉ pre) →
        sends (Run lib (NewSyncer syncInterval internalRoutes) pre).trace = []
        ∧ (Run lib (NewSyncer syncInterval internalRoutes) pre).syncer.events
            = (NewSyncer syncInterval internalRoutes).events)
    ∧ ((Run lib (NewSyncer syncInterval internalRoutes) pre).phase = .greeting →
        sends (Run lib (NewSyncer syncInterval internalRoutes) pre).trace = []
        ∧ (Run lib (NewSyncer syncInterval internalRoutes) pre).syncer.events
            = (NewSyncer syncInterval internalRoutes).events
        ∧ (internalRoutes = false →
            sends (Run lib (NewSyncer syncInterval internalRoutes)
                (pre ++ [.routerStart d])).trace = [.Sync]
            ∧ (Run lib (NewSyncer syncInterval internalRoutes)
                (pre ++ [.routerStart d])).syncer.events
                = { (NewSyncer syncInterval internalRoutes).events with
                    Sync := { cap := 1, buf := [()] } }
            ∧ TickersStarted (Run lib (NewSyncer syncInterval internalRoutes)
                (pre ++ [.routerStart d])) syncInterval d)
        ∧ (internalRoutes = true →
            lib.publishRequest (Run lib (NewSyncer syncInterval internalRoutes) pre).publishes
              "service-discovery.greet" "TODO Figure out replyUUID" = none →
            sends (Run lib (NewSyncer syncInterval internalRoutes)
                (pre ++ [.routerStart d])).trace = [.InternalSync, .Sync]
            ∧ (Run lib (NewSyncer syncInterval internalRoutes)
                (pre ++ [.routerStart d])).syncer.events
                = { (NewSyncer syncInterval internalRoutes).events with
                    Sync := { cap := 1, buf := [()] }
                    InternalSync := { cap := 1, buf := [()] } }
            ∧ TickersStarted (Run lib (NewSyncer syncInterval internalRoutes)
                (pre ++ [.routerStart d])) syncInterval d)
        ∧ (internalRoutes = true → ∀ err,
            lib.publishRequest (Run lib (NewSyncer syncInterval internalRoutes) pre).publishes
              "service-discovery.greet" "TODO Figure out replyUUID" = some err →
            sends (Run lib (NewSyncer syncInterval internalRoutes)
                (pre ++ [.routerStart d])).trace = []
            ∧ (Run lib (NewSyncer syncInterval internalRoutes)
                (pre ++ [.routerStart d])).syncer.events
                = (NewSyncer syncInterval internalRoutes).events
            ∧ (Run lib (NewSyncer syncInterval internalRoutes)
                (pre ++ [.routerStart d])).phase = .returned (some err))
        ∧ sends (Run lib (NewSyncer syncInterval internalRoutes)
              (pre ++ [.routerStart d])).trace
            <+: sends (Run lib (NewSyncer syncInterval internalRoutes)
              (pre ++ [.routerStart d] ++ post)).trace) := by
  refine ⟨fun h => ⟨(Run_quiet_before_interval lib _ pre h).1,
    congrArg NatsSyncer.events (Run_syncer_before_interval lib _ _ pre h)⟩, ?_⟩
  intro hph
  have hg := Run_greeting lib _ pre hph
  have hs := Run_greeting_syncer lib syncInterval internalRoutes pre hph
  have hh := handshake_step lib _ d syncInterval internalRoutes hph hs hg.2.2.1
    hg.2.2.2.2.1 hg.2.1
  rw [Run_snoc]
  refine ⟨hg.2.2.1, congrArg NatsSyncer.events hs, hh.1, hh.2.1, hh.2.2, ?_⟩
  rw [Run_append, Run_snoc]
  exact sends_extends (foldl_step_trace_extends lib post _)

/-- C23 as amended, on the syncer of the tests greeted after one retry tick: nothing is
sent before the interval of one second arrives; `Sync` is the event sent then, the
`Sync` channel holds it, and `Run` is in its main loop, the router ticker created with
one second. -/
theorem Run_no_event_before_interval_witness :
    sends (Run sampleLibraries sampleSyncer [.tick 0]).trace = []
    ∧ sends (Run sampleLibraries sampleSyncer ([.tick 0] ++ [.routerStart Second])).trace
        = [.Sync]
    ∧ (Run sampleLibraries sampleSyncer
          ([.tick 0] ++ [.routerStart Second])).syncer.events.Sync.buf = [()]
    ∧ (Run sampleLibraries sampleSyncer ([.tick 0] ++ [.routerStart Second])).phase = .running
    ∧ RunEffect.newTicker 2 Second
        ∈ (Run sampleLibraries sampleSyncer ([.tick 0] ++ [.routerStart Second])).trace :=
  have h := (Run_no_event_before_interval sampleLibraries 10000000000 false [.tick 0] []
    Second).2 (by decide)
  have ht := (h.2.2.1 rfl).2.2.1 (by decide) (by decide)
  ⟨((Run_no_event_before_interval sampleLibraries 10000000000 false [.tick 0] [] Second).1
      (by simp)).1,
   (h.2.2.1 rfl).1,
   congrArg (fun e => e.Sync.buf) (h.2.2.1 rfl).2.1,
   ht.1,
   ht.2.2.1 ▸ ht.2.2.2.2.1⟩

/-- C23, the claim at an announced interval of zero: the greeting with no field makes
`handleRouterStart` send the interval 0; `Run`, on the syncer of the tests, sends
`Sync`, creates the sync ticker and panics in the `NewTicker` of the router ticker,
so no router ticker is created with the interval received. -/
theorem Run_interval_zero_panics :
    (handleRouterStart sampleUnmarshal emptyPayload).sent = [0]
    ∧ sends (Run sampleLibraries sampleSyncer [.routerStart 0]).trace = [.Sync]
    ∧ (Run sampleLibraries sampleSyncer [.routerStart 0]).phase = .panicked newTickerPanic
    ∧ createdTickers (Run sampleLibraries sampleSyncer [.routerStart 0]).trace = [0, 1]
    ∧ (∀ t, RunEffect.newTicker t 0
        ∉ (Run sampleLibraries sampleSyncer [.routerStart 0]).trace) := by
  refine ⟨by decide, by decide, by decide, by decide, ?_⟩
  intro t ht
  have hall : (Run sampleLibraries sampleSyncer [.routerStart 0]).trace.all
      (fun e => match e with
        | .newTicker _ p => decide (p ≠ 0)
        | _ => true) = true := by decide
  have h := List.all_eq_true.mp hall _ ht
  simp at h

/-- C24: every `router.greet` request `Run` publishes carries the reply subject that
`Run` subscribed to. While `Run` waits in the greet loop it has published one
request on entering the loop and one more for each tick of the retry ticker. Once an
interval is received in the greet loop, and in general once `Run` has left the greet
loop, no `router.greet` request is published any more, whatever arrives. -/
theorem Run_greets_until_interval (lib : Libraries) (s : NatsSyncer)
    (pre post : List Arrival) (d : Int) :
    (∀ r ∈ greetReplies (Run lib s pre).trace,
        r = (Run lib s pre).replyUuid
          ∧ RunEffect.subscribe (Run lib s pre).replyUuid ∈ (Run lib s pre).trace)
    ∧ ((Run lib s pre).phase = .greeting →
        (greetReplies (Run lib s pre).trace).length
            = 1 + pre.count (Arrival.tick (Run lib s pre).retryGreetingTicker)
        ∧ greetReplies (Run lib s (pre ++ [.routerStart d] ++ post)).trace
            = greetReplies (Run lib s pre).trace)
    ∧ ((Run lib s pre).phase ≠ .greeting →
        greetReplies (Run lib s (pre ++ post)).trace = greetReplies (Run lib s pre).trace) := by
  refine ⟨Run_replies lib s pre, ?_, ?_⟩
  · intro hph
    have hg := Run_greeting lib s pre hph
    refine ⟨by rw [hg.1]; exact hg.2.2.2.2.2.1, ?_⟩
    have hne : (Run lib s (pre ++ [.routerStart d])).phase ≠ .greeting := by
      intro hgr
      rw [Run_snoc] at hgr
      exact (step_greeting_stay lib _ _ hph hgr).1 d rfl
    rw [Run_append, foldl_step_greetReplies lib post _ hne, Run_snoc, step_greetReplies]
    simp
  · intro hne
    rw [Run_append, foldl_step_greetReplies lib post _ hne]

/-- C24, on the test "should keep greeting the router until it gets an interval": two
greetings after one retry tick, and still two once the interval has arrived and the
old retry ticker ticks again. -/
theorem Run_greets_until_interval_witness :
    (greetReplies (Run sampleLibraries sampleSyncer [.tick 0]).trace).length = 1 + 1
    ∧ greetReplies (Run sampleLibraries sampleSyncer
          ([.tick 0] ++ [.routerStart Second] ++ [.tick 0])).trace
        = greetReplies (Run sampleLibraries sampleSyncer [.tick 0]).trace :=
  ⟨((Run_greets_until_interval sampleLibraries sampleSyncer [.tick 0] [.tick 0] Second).2.1
      (by decide)).1,
   ((Run_greets_until_interval sampleLibraries sampleSyncer [.tick 0] [.tick 0] Second).2.1
      (by decide)).2⟩

theorem foldl_step_greeting_inv (lib : Libraries) (script : List Arrival) (st : RunState)
    (h : (script.foldl (step lib) st).phase = .greeting) : st.phase = .greeting := by
  induction script generalizing st with
  | nil => exact h
  | cons a rest ih => exact step_greeting_inv lib st a (ih _ h)

theorem start_newTicker (lib : Libraries) (s : NatsSyncer)
    (h : (start lib s).phase = .greeting) :
    RunEffect.newTicker 0 Second ∈ (start lib s).trace := by
  revert h
  cases h0 : lib.newV4 with
  | error e => simp [start, h0, RunState.init, RunState.record, RunState.finish]
  | ok replyUuid =>
    cases h1 : lib.subscribe 0 "router.start" <;> cases h2 : lib.subscribe 1 replyUuid <;>
      cases hw : s.waitForInternalRoutesGreeting <;>
      cases h3 : lib.subscribe 2 "service-discovery.start" <;>
      cases h4 : lib.publishRequest 0 "router.greet" replyUuid <;>
      simp [start, listenForRouter, listenForServiceDiscovery, enterGreetLoop, greet,
        RunState.subscribe, RunState.init, RunState.record, RunState.finish, h0, h1, h2, hw, h3,
        h4]

theorem Run_greeting_newTicker (lib : Libraries) (s : NatsSyncer) (script : List Arrival)
    (h : (Run lib s script).phase = .greeting) :
    RunEffect.newTicker 0 Second ∈ (Run lib s script).trace :=
  (foldl_step_trace_extends lib script _).subset
    (start_newTicker lib s (foldl_step_greeting_inv lib script _ h))

theorem step_retry_tick (lib : Libraries) (st : RunState) (hph : st.phase = .greeting)
    (hr : st.retryGreetingTicker = 0)
    (hpub : lib.publishRequest st.publishes "router.greet" st.replyUuid = none) :
    (step lib st (.tick 0)).phase = .greeting := by
  simp [step, hph, stepGreeting, hr, greet, hpub, RunState.record]

theorem Run_replicate_ticks (replyUuid : String) (int63 : Nat → Nat) (s : NatsSyncer) (n : Nat) :
    (Run (okLibraries replyUuid int63) s (List.replicate n (Arrival.tick 0))).phase
      = .greeting := by
  induction n with
  | zero =>
    show (start (okLibraries replyUuid int63) s).phase = .greeting
    cases hw : s.waitForInternalRoutesGreeting <;>
      simp [start, listenForRouter, listenForServiceDiscovery, enterGreetLoop, greet,
        RunState.subscribe, RunState.init, RunState.record, RunState.finish, okLibraries, hw]
  | succ k ih =>
    rw [List.replicate_succ', Run_snoc]
    exact step_retry_tick _ _ ih (Run_greeting _ _ _ ih).1 rfl

/-- C25, the code at a signal in the greet loop: after any number of retry ticks a signal
makes `Run` return nil, and the retry-greeting ticker, the only ticker created, has
not been stopped. -/
theorem signal_in_greet_loop_leaves_ticker (replyUuid : String) (int63 : Nat → Nat)
    (s : NatsSyncer) (n : Nat) :
    (Run (okLibraries replyUuid int63) s
        (List.replicate n (Arrival.tick 0) ++ [.signal])).phase = .returned none
    ∧ createdTickers (Run (okLibraries replyUuid int63) s
        (List.replicate n (Arrival.tick 0) ++ [.signal])).trace = [0]
    ∧ RunEffect.newTicker 0 Second ∈ (Run (okLibraries replyUuid int63) s
        (List.replicate n (Arrival.tick 0) ++ [.signal])).trace
    ∧ stoppedTickers (Run (okLibraries replyUuid int63) s
        (List.replicate n (Arrival.tick 0) ++ [.signal])).trace = [] := by
  have hph := Run_replicate_ticks replyUuid int63 s n
  have hg := Run_greeting _ _ _ hph
  have hq := step_greeting_quiet (okLibraries replyUuid int63) _ Arrival.signal hph
    (fun d h => by cases h)
  rw [Run_snoc]
  refine ⟨?_, hq.2.2.1.trans hg.2.2.2.2.1, ?_, hq.2.1.trans hg.2.2.2.1⟩
  · simp [step, hph, stepGreeting, RunState.finish, RunState.record]
  · exact (step_trace_extends _ _ _).subset (Run_greeting_newTicker _ _ _ hph)

/-- C27: in no execution of `Run` is an event sent on `InternalEmit`, whatever intervals,
ticks and signals arrive and whether `waitForInternalRoutesGreeting` is set or not. -/
theorem Run_never_sends_InternalEmit (lib : Libraries) (s : NatsSyncer)
    (script : List Arrival) :
    EventName.InternalEmit ∉ sends (Run lib s script).trace :=
  Run_sends_ne_internalEmit lib s script

/-- C28, on a client that refuses the subscription to `router.start`. -/
theorem Run_subscription_failure_witness :
    AbortedWith (Run refusingLibraries sampleSyncer [.tick 0, .signal])
      "nats: connection closed" :=
  (Run_subscription_failure refusingLibraries sampleSyncer [.tick 0, .signal] "reply-uuid"
    "nats: connection closed" rfl).1 rfl

theorem step_tickers (lib : Libraries) (st : RunState) (a : Arrival)
    (ih : (st.phase = .running ∨ st.phase = .syncing ∨ ∃ l, st.phase = .sleeping l) →
      st.syncTicker < st.routerTicker ∧ st.routerTicker < st.tickers)
    (h : (step lib st a).phase = .running ∨ (step lib st a).phase = .syncing
      ∨ ∃ l, (step lib st a).phase = .sleeping l) :
    (step lib st a).syncTicker < (step lib st a).routerTicker
      ∧ (step lib st a).routerTicker < (step lib st a).tickers := by
  revert h ih
  unfold step
  cases hph : st.phase <;> cases a <;>
    simp only [stepGreeting, stepRunning, stepSleeping, stepBlocked, afterGreetLoop, greet,
      afterSleep, newInterval, RunState.loopSync, RunState.firstSync, RunState.firstInternalSync,
      RunState.startTickers, RunState.emit, RunState.record, RunState.finish, RunState.consume]
  all_goals (repeat' split)
  all_goals simp_all
  all_goals omega

theorem Run_tickers (lib : Libraries) (s : NatsSyncer) (script : List Arrival)
    (h : (Run lib s script).phase = .running ∨ (Run lib s script).phase = .syncing
      ∨ ∃ l, (Run lib s script).phase = .sleeping l) :
    (Run lib s script).syncTicker < (Run lib s script).routerTicker
      ∧ (Run lib s script).routerTicker < (Run lib s script).tickers := by
  induction script using List.reverseRecOn with
  | nil =>
    exfalso
    have hq := (start_quiet lib s).2.2
    change (start lib s).phase = .running ∨ (start lib s).phase = .syncing
      ∨ ∃ l, (start lib s).phase = .sleeping l at h
    rcases hq with hq | ⟨e, hq⟩ <;> rw [hq] at h <;> simp at h
  | append_singleton l a ih =>
    rw [Run_snoc] at h ⊢
    exact step_tickers lib _ a ih h

theorem advanced_cons (a : Arrival) (l : List Arrival) :
    advanced (a :: l) = advanced [a] + advanced l := by
  simp [advanced]

theorem advanced_append (l l2 : List Arrival) :
    advanced (l ++ l2) = advanced l + advanced l2 := by
  simp [advanced]

theorem RunState.with_self (st : RunState) :
    { st with phase := st.phase, syncer := st.syncer } = st := rfl

theorem foldl_step_sleeping (lib : Libraries) (during : List Arrival) (st : RunState)
    (left : Int) (hph : st.phase = .sleeping left) (hadv : (advanced during : Int) < left) :
    ∃ syncer, during.foldl (step lib) st
      = { st with phase := .sleeping (left - advanced during), syncer := syncer } := by
  induction during generalizing st left with
  | nil =>
    refine ⟨st.syncer, ?_⟩
    simp only [List.foldl_nil, advanced, List.map_nil, List.sum_nil, Nat.cast_zero, sub_zero]
    rw [← hph]
  | cons a rest ih =>
    rw [advanced_cons, Nat.cast_add] at hadv
    have hrest : (0 : Int) ≤ (advanced rest : Int) := Int.ofNat_nonneg _
    have hhead : (0 : Int) ≤ (advanced [a] : Int) := Int.ofNat_nonneg _
    cases a with
    | advance dt =>
      have hdt : advanced [Arrival.advance dt] = dt := by simp [advanced]
      rw [hdt] at hadv
      have hstep : step lib st (.advance dt) = { st with phase := .sleeping (left - dt) } := by
        have : ¬ left ≤ (dt : Int) := by omega
        simp [step, hph, stepSleeping, this]
      obtain ⟨sy, h⟩ := ih { st with phase := .sleeping (left - dt) } (left - dt) rfl (by omega)
      refine ⟨sy, ?_⟩
      rw [List.foldl_cons, hstep, h, advanced_cons, hdt, Nat.cast_add]
      have : left - (dt : Int) - (advanced rest : Int) = left - ((dt : Int) + advanced rest) := by
        omega
      rw [this]
    | received ch =>
      have h0 : advanced [Arrival.received ch] = 0 := by simp [advanced]
      rw [h0] at hadv
      have hstep : step lib st (.received ch) = st.consume ch := by
        simp [step, hph, stepSleeping]
      obtain ⟨sy, h⟩ := ih (st.consume ch) left hph (by simpa using hadv)
      refine ⟨sy, ?_⟩
      rw [List.foldl_cons, hstep, h, advanced_cons, h0]
      simp [RunState.consume]
    | routerStart x =>
      have h0 : advanced [Arrival.routerStart x] = 0 := by simp [advanced]
      rw [h0] at hadv
      have hstep : step lib st (.routerStart x) = st := by simp [step, hph, stepSleeping]
      obtain ⟨sy, h⟩ := ih st left hph (by simpa using hadv)
      refine ⟨sy, ?_⟩
      rw [List.foldl_cons, hstep, h, advanced_cons, h0]
      simp
    | tick x =>
      have h0 : advanced [Arrival.tick x] = 0 := by simp [advanced]
      rw [h0] at hadv
      have hstep : step lib st (.tick x) = st := by simp [step, hph, stepSleeping]
      obtain ⟨sy, h⟩ := ih st left hph (by simpa using hadv)
      refine ⟨sy, ?_⟩
      rw [List.foldl_cons, hstep, h, advanced_cons, h0]
      simp
    | signal =>
      have h0 : advanced [Arrival.signal] = 0 := by simp [advanced]
      rw [h0] at hadv
      have hstep : step lib st .signal = st := by simp [step, hph, stepSleeping]
      obtain ⟨sy, h⟩ := ih st left hph (by simpa using hadv)
      refine ⟨sy, ?_⟩
      rw [List.foldl_cons, hstep, h, advanced_cons, h0]
      simp

theorem newInterval_sleeps (lib : Libraries) (st : RunState) (d j : Int)
    (hph : st.phase = .running) (hb : 0 < jitterBound d)
    (hj : j = (lib.int63 st.draws : Int) % jitterBound d) (hpos : 0 < j) :
    step lib st (.routerStart d)
      = { st with
          routerRegisterInterval := d
          draws := st.draws + 1
          phase := .sleeping j
          trace := st.trace ++ [.log "received-new-router-prune-interval",
            .int63n (jitterBound d), .sleep j] } := by
  have hnb : ¬ jitterBound d ≤ 0 := by omega
  have hnj : ¬ (lib.int63 st.draws : Int) % jitterBound d ≤ 0 := by omega
  subst hj
  simp [step, hph, stepRunning, newInterval, Int63n, hnb, hnj, RunState.record]

theorem newInterval_no_sleep (lib : Libraries) (st : RunState) (d : Int)
    (hph : st.phase = .running) (hb : 0 < jitterBound d)
    (hj : (lib.int63 st.draws : Int) % jitterBound d = 0) :
    step lib st (.routerStart d)
      = afterSleep { st with
          routerRegisterInterval := d
          draws := st.draws + 1
          trace := st.trace ++ [.log "received-new-router-prune-interval",
            .int63n (jitterBound d), .sleep 0] } := by
  have hnb : ¬ jitterBound d ≤ 0 := by omega
  simp [step, hph, stepRunning, newInterval, Int63n, hnb, hj, RunState.record]

theorem afterSleep_spec (st : RunState) :
    ∃ e, (e = RunEffect.send .Emit ∨ e = RunEffect.log "emit-already-in-progress")
      ∧ (afterSleep st).trace
          = st.trace ++ [.stopTicker st.routerTicker,
              .newTicker st.tickers st.routerRegisterInterval, e]
      ∧ (afterSleep st).phase = .running
      ∧ (afterSleep st).routerTicker = st.tickers
      ∧ (afterSleep st).syncTicker = st.syncTicker := by
  by_cases h : (st.syncer.events.Emit.trySend ()).2 = true
  · exact ⟨_, Or.inl rfl, by simp [afterSleep, RunState.emit, RunState.record, h], rfl, rfl, rfl⟩
  · exact ⟨_, Or.inr rfl, by simp [afterSleep, RunState.emit, RunState.record, h], rfl, rfl, rfl⟩

theorem step_router_tick (lib : Libraries) (st : RunState) (hph : st.phase = .running) :
    ∃ e, (e = RunEffect.send .Emit ∨ e = RunEffect.log "emit-already-in-progress")
      ∧ (step lib st (.tick st.routerTicker)).trace
          = st.trace ++ [.log "emitting-routes", e] := by
  by_cases h : (st.syncer.events.Emit.trySend ()).2 = true
  · exact ⟨_, Or.inl rfl, by simp [step, hph, stepRunning, RunState.emit, RunState.record, h]⟩
  · exact ⟨_, Or.inr rfl, by simp [step, hph, stepRunning, RunState.emit, RunState.record, h]⟩

theorem step_other_tick (lib : Libraries) (st : RunState) (t : Nat) (hph : st.phase = .running)
    (h1 : t ≠ st.routerTicker) (h2 : t ≠ st.syncTicker) : step lib st (.tick t) = st := by
  simp [step, hph, stepRunning, h1, h2]

/-- C22, the claim at an announced interval of 0 that arrives in the main loop: the bound
of the draw is 0, `Int63n` panics and `Run` stops there. Whatever arrives afterwards,
the router ticker it had is not stopped, no router ticker is created and no Emit is
attempted. -/
theorem Run_new_interval_of_zero_panics :
    (Run sampleLibraries sampleSyncer [.routerStart Second]).phase = .running
    ∧ (Run sampleLibraries sampleSyncer [.routerStart Second, .routerStart 0]).phase
        = .panicked "invalid argument to Int63n"
    ∧ (Run sampleLibraries sampleSyncer
          [.routerStart Second, .routerStart 0, .advance 1000000000, .tick 2, .tick 3]).trace
        = (Run sampleLibraries sampleSyncer [.routerStart Second]).trace
          ++ [.log "received-new-router-prune-interval", .int63n 0]
    ∧ createdTickers (Run sampleLibraries sampleSyncer
          [.routerStart Second, .routerStart 0, .advance 1000000000, .tick 2, .tick 3]).trace
        = [0, 1, 2]
    ∧ stoppedTickers (Run sampleLibraries sampleSyncer
          [.routerStart Second, .routerStart 0, .advance 1000000000, .tick 2, .tick 3]).trace
        = [0]
    ∧ sends (Run sampleLibraries sampleSyncer
          [.routerStart Second, .routerStart 0, .advance 1000000000, .tick 2, .tick 3]).trace
        = [.Sync] := by
  decide

/-- C22 as amended: a new interval `d` received in the main loop, with a bound of the
draw that is positive and the jitter `j` drawn. While the clock has advanced by less than `j`,
whatever else arrives, `Run` is inside the sleep: the trace has gained only the log
line, the draw and the sleep, so no Emit was attempted and no ticker was touched.
When the clock has advanced by `j` (at once when `j` is 0), `Run` stops the router
ticker it had, creates a router ticker of period `d` and calls `emit()` once, and is
back in its main loop with the same sync ticker; a tick of the old router ticker
changes nothing any more, and a tick of the new one makes one Emit attempt. -/
theorem Run_new_interval (lib : Libraries) (s : NatsSyncer) (pre during : List Arrival)
    (d j : Int) (dt : Nat) (st : RunState) (hst : st = Run lib s pre)
    (hph : st.phase = .running) (hb : 0 < jitterBound d)
    (hj : j = (lib.int63 st.draws : Int) % jitterBound d) :
    st.syncTicker ≠ st.routerTicker ∧ st.tickers ≠ st.routerTicker
    ∧ ((advanced during : Int) < j →
        (Run lib s (pre ++ [.routerStart d] ++ during)).trace
            = st.trace ++ [.log "received-new-router-prune-interval",
                .int63n (jitterBound d), .sleep j]
        ∧ (Run lib s (pre ++ [.routerStart d] ++ during)).phase
            = .sleeping (j - advanced during)
        ∧ (Run lib s (pre ++ [.routerStart d] ++ during)).routerTicker = st.routerTicker
        ∧ (Run lib s (pre ++ [.routerStart d] ++ during)).syncTicker = st.syncTicker)
    ∧ ((advanced during : Int) < j → j ≤ (advanced during : Int) + dt →
        ∃ e, (e = RunEffect.send .Emit ∨ e = RunEffect.log "emit-already-in-progress")
          ∧ (Run lib s (pre ++ [.routerStart d] ++ during ++ [.advance dt])).trace
              = st.trace ++ [.log "received-new-router-prune-interval",
                  .int63n (jitterBound d), .sleep j, .stopTicker st.routerTicker,
                  .newTicker st.tickers d, e]
          ∧ (Run lib s (pre ++ [.routerStart d] ++ during ++ [.advance dt])).phase = .running
          ∧ (Run lib s (pre ++ [.routerStart d] ++ during ++ [.advance dt])).routerTicker
              = st.tickers
          ∧ (Run lib s (pre ++ [.routerStart d] ++ during ++ [.advance dt])).syncTicker
              = st.syncTicker
          ∧ step lib (Run lib s (pre ++ [.routerStart d] ++ during ++ [.advance dt]))
                (.tick st.routerTicker)
              = Run lib s (pre ++ [.routerStart d] ++ during ++ [.advance dt])
          ∧ ∃ e2, (e2 = RunEffect.send .Emit ∨ e2 = RunEffect.log "emit-already-in-progress")
            ∧ (step lib (Run lib s (pre ++ [.routerStart d] ++ during ++ [.advance dt]))
                  (.tick st.tickers)).trace
                = (Run lib s (pre ++ [.routerStart d] ++ during ++ [.advance dt])).trace
                  ++ [.log "emitting-routes", e2])
    ∧ (j = 0 →
        ∃ e, (e = RunEffect.send .Emit ∨ e = RunEffect.log "emit-already-in-progress")
          ∧ (Run lib s (pre ++ [.routerStart d])).trace
              = st.trace ++ [.log "received-new-router-prune-interval",
                  .int63n (jitterBound d), .sleep 0, .stopTicker st.routerTicker,
                  .newTicker st.tickers d, e]
          ∧ (Run lib s (pre ++ [.routerStart d])).phase = .running
          ∧ (Run lib s (pre ++ [.routerStart d])).routerTicker = st.tickers
          ∧ (Run lib s (pre ++ [.routerStart d])).syncTicker = st.syncTicker) := by
  have hw : st.syncTicker < st.routerTicker ∧ st.routerTicker < st.tickers := by
    rw [hst]
    exact Run_tickers lib s pre (Or.inl (hst ▸ hph))
  have hsleep : (advanced during : Int) < j →
      ∃ syncer, Run lib s (pre ++ [.routerStart d] ++ during)
        = { st with
            routerRegisterInterval := d
            draws := st.draws + 1
            phase := .sleeping (j - advanced during)
            trace := st.trace ++ [.log "received-new-router-prune-interval",
              .int63n (jitterBound d), .sleep j]
            syncer := syncer } := by
    intro hadv
    have hpos : 0 < j := lt_of_le_of_lt (Int.ofNat_nonneg _) hadv
    rw [Run_append, Run_snoc, ← hst, newInterval_sleeps lib st d j hph hb hj hpos]
    exact foldl_step_sleeping lib during
      { st with
        routerRegisterInterval := d
        draws := st.draws + 1
        phase := .sleeping j
        trace := st.trace ++ [.log "received-new-router-prune-interval",
          .int63n (jitterBound d), .sleep j] } j rfl hadv
  refine ⟨by omega, by omega, ?_, ?_, ?_⟩
  · intro hadv
    obtain ⟨sy, h⟩ := hsleep hadv
    rw [h]
    exact ⟨rfl, rfl, rfl, rfl⟩
  · intro hadv hwake
    obtain ⟨sy, h⟩ := hsleep hadv
    have hstep : Run lib s (pre ++ [.routerStart d] ++ during ++ [.advance dt])
        = afterSleep { st with
            routerRegisterInterval := d
            draws := st.draws + 1
            phase := .sleeping (j - advanced during)
            trace := st.trace ++ [.log "received-new-router-prune-interval",
              .int63n (jitterBound d), .sleep j]
            syncer := sy } := by
      rw [Run_snoc, h]
      have : j - (advanced during : Int) ≤ (dt : Int) := by omega
      simp [step, stepSleeping, this]
    rw [hstep]
    obtain ⟨e, he, ht, hp, hr, hs⟩ := afterSleep_spec { st with
            routerRegisterInterval := d
            draws := st.draws + 1
            phase := .sleeping (j - advanced during)
            trace := st.trace ++ [.log "received-new-router-prune-interval",
              .int63n (jitterBound d), .sleep j]
            syncer := sy }
    refine ⟨e, he, ?_, hp, hr, hs, ?_, ?_⟩
    · rw [ht]
      simp
    · apply step_other_tick _ _ _ hp
      · rw [hr]
        exact (Nat.ne_of_lt hw.2)
      · rw [hs]
        exact (Nat.ne_of_lt hw.1).symm
    · have := step_router_tick lib _ hp
      rw [hr] at this
      exact this
  · intro hj0
    have hm : (lib.int63 st.draws : Int) % jitterBound d = 0 := by rw [← hj, hj0]
    rw [Run_snoc, ← hst, newInterval_no_sleep lib st d hph hb hm]
    obtain ⟨e, he, ht, hp, hr, hs⟩ := afterSleep_spec { st with
          routerRegisterInterval := d
          draws := st.draws + 1
          trace := st.trace ++ [.log "received-new-router-prune-interval",
            .int63n (jitterBound d), .sleep 0] }
    refine ⟨e, he, ?_, hp, hr, hs⟩
    rw [ht]
    simp

/-- C22 as amended, on the syncer of the tests greeted with one second: an interval of
two seconds arrives, the jitter drawn is 123456789 ns, and after 100 ms `Run` is still asleep. -/
theorem Run_new_interval_witness :
    (Run sampleLibraries sampleSyncer
        ([.routerStart Second] ++ [.routerStart (2 * Second)]
          ++ [.tick 2, .advance 100000000])).phase
      = .sleeping (123456789 - (advanced [.tick 2, .advance 100000000] : Nat)) :=
  ((Run_new_interval sampleLibraries sampleSyncer [.routerStart Second]
      [.tick 2, .advance 100000000] (2 * Second) 123456789 300000000 _ rfl (by decide)
      (by decide) (by decide)).2.2.1 (by decide)).2.1

theorem shiftFrom_spec (fuel s n : Nat) :
    s ≤ shiftFrom fuel s n ∧ shiftFrom fuel s n ≤ s + fuel
    ∧ (shiftFrom fuel s n < s + fuel → n < 2 ^ (53 + shiftFrom fuel s n))
    ∧ (s < shiftFrom fuel s n → 2 ^ (52 + shiftFrom fuel s n) ≤ n) := by
  induction fuel generalizing s with
  | zero => simp [shiftFrom]
  | succ k ih =>
    unfold shiftFrom
    by_cases h : n < 2 ^ (53 + s)
    · simp [h]
    · rw [if_neg h]
      obtain ⟨i1, i2, i3, i4⟩ := ih (s + 1)
      refine ⟨by omega, by omega, fun hlt => i3 (by omega), ?_⟩
      intro _
      by_cases he : shiftFrom k (s + 1) n = s + 1
      · rw [he]
        have : 52 + (s + 1) = 53 + s := by omega
        rw [this]
        exact Nat.le_of_not_lt h
      · exact i4 (by omega)

theorem float64Shift_spec (n : Nat) (h : n < 2 ^ 116) :
    n < 2 ^ (53 + float64Shift n) ∧ (0 < float64Shift n → 2 ^ (52 + float64Shift n) ≤ n) := by
  obtain ⟨_, i2, i3, i4⟩ := shiftFrom_spec 64 0 n
  have hlt : float64Shift n < 64 := by
    by_contra hge
    have h64 : shiftFrom 64 0 n = 64 := by
      have : float64Shift n = shiftFrom 64 0 n := rfl
      omega
    have := i4 (by omega)
    rw [h64] at this
    omega
  exact ⟨i3 (by simpa [float64Shift] using hlt), i4⟩

theorem nearestEven53_exact (n m t : Nat) (hn : n = m * 2 ^ t) (hm : m < 2 ^ 53)
    (h : n < 2 ^ 116) : nearestEven53 n = n := by
  obtain ⟨h1, h2⟩ := float64Shift_spec n h
  have hdvd : 2 ^ float64Shift n ∣ n := by
    by_cases hs : float64Shift n = 0
    · rw [hs]
      simp
    · have hle := h2 (Nat.pos_of_ne_zero hs)
      have hlt : n < 2 ^ (53 + t) := by
        rw [hn, Nat.pow_add]
        exact Nat.mul_lt_mul_of_pos_right hm (by positivity)
      have hpow : 2 ^ (52 + float64Shift n) < 2 ^ (53 + t) := lt_of_le_of_lt hle hlt
      have hexp : 52 + float64Shift n < 53 + t :=
        (Nat.pow_lt_pow_iff_right (by norm_num)).mp hpow
      have hst : float64Shift n ≤ t := by omega
      have hd : 2 ^ float64Shift n ∣ m * 2 ^ t :=
        Dvd.dvd.mul_left (Nat.pow_dvd_pow 2 hst) m
      rwa [← hn] at hd
  unfold nearestEven53
  have hr : n % 2 ^ float64Shift n = 0 := Nat.mod_eq_zero_of_dvd hdvd
  simp only [hr, Nat.mul_zero]
  rw [if_pos (Or.inl (by positivity))]
  exact Nat.div_mul_cancel hdvd

theorem nearestEven53_down (x m t : Nat) (hx : x = m * 2 ^ t) (hm : m < 2 ^ 53)
    (hpos : 0 < x) (h : x * 2 ^ 54 + x < 2 ^ 116) :
    nearestEven53 (x * 2 ^ 54 + x) = x * 2 ^ 54 := by
  obtain ⟨h1, h2⟩ := float64Shift_spec _ h
  generalize hs : float64Shift (x * 2 ^ 54 + x) = s at h1 h2
  have hs2 : 2 ≤ s := by
    by_contra hlt
    have : 2 ^ (53 + s) ≤ 2 ^ 54 := Nat.pow_le_pow_right (by norm_num) (by omega)
    have : 1 * 2 ^ 54 ≤ x * 2 ^ 54 := Nat.mul_le_mul_right _ hpos
    omega
  have hxlt : 2 * x < 2 ^ s := by
    have e1 : 2 ^ (53 + s) = 2 ^ 53 * 2 ^ s := Nat.pow_add 2 53 s
    have e2 : (2 : Nat) ^ 53 = 9007199254740992 := by norm_num
    have e3 : (2 : Nat) ^ 54 = 18014398509481984 := by norm_num
    rw [e1, e2, e3] at h1
    omega
  have hst : s ≤ 54 + t := by
    have hle := h2 (by omega)
    have hlt : x * 2 ^ 54 + x < 2 ^ (107 + t) := by
      have e : x * 2 ^ 54 + x = (m * (2 ^ 54 + 1)) * 2 ^ t := by
        rw [hx]
        ring
      rw [e, Nat.pow_add]
      apply Nat.mul_lt_mul_of_pos_right _ (by positivity)
      have e3 : (2 : Nat) ^ 54 = 18014398509481984 := by norm_num
      have e4 : (2 : Nat) ^ 107 = 162259276829213363391578010288128 := by norm_num
      have e2 : (2 : Nat) ^ 53 = 9007199254740992 := by norm_num
      rw [e3, e4]
      rw [e2] at hm
      omega
    have hexp : 52 + s < 107 + t :=
      (Nat.pow_lt_pow_iff_right (by norm_num)).mp (lt_of_le_of_lt hle hlt)
    omega
  have hdvd : 2 ^ s ∣ x * 2 ^ 54 := by
    rw [hx, Nat.mul_assoc, ← Nat.pow_add]
    exact Dvd.dvd.mul_left (Nat.pow_dvd_pow 2 (by omega)) m
  obtain ⟨k, hk⟩ := hdvd
  have hx2 : x < 2 ^ s := by omega
  unfold nearestEven53
  simp only [hs]
  have hq : (x * 2 ^ 54 + x) / 2 ^ s = k := by
    rw [hk, Nat.mul_comm (2 ^ s) k, Nat.add_comm, Nat.add_mul_div_right _ _ (by positivity),
      Nat.div_eq_of_lt hx2, Nat.zero_add]
  have hr : (x * 2 ^ 54 + x) % 2 ^ s = x := by
    rw [hk, Nat.mul_comm (2 ^ s) k, Nat.add_comm, Nat.add_mul_mod_self_right,
      Nat.mod_eq_of_lt hx2]
  rw [hq, hr, if_pos (Or.inl hxlt), hk, Nat.mul_comm]

theorem nearestEven53_ge_pow (n k : Nat) (hk : 2 ^ k ≤ n) (h : n < 2 ^ 116) :
    2 ^ k ≤ nearestEven53 n := by
  obtain ⟨h1, h2⟩ := float64Shift_spec n h
  have hq : 2 ^ k ≤ n / 2 ^ float64Shift n * 2 ^ float64Shift n := by
    by_cases hs : float64Shift n = 0
    · rw [hs]
      simpa using hk
    · have hle := h2 (Nat.pos_of_ne_zero hs)
      have hkle : k ≤ 52 + float64Shift n := by
        by_contra hgt
        have : 2 ^ (53 + float64Shift n) ≤ 2 ^ k := Nat.pow_le_pow_right (by norm_num) (by omega)
        omega
      have h52 : 2 ^ 52 ≤ n / 2 ^ float64Shift n := by
        rw [Nat.le_div_iff_mul_le (by positivity), ← Nat.pow_add]
        exact hle
      calc 2 ^ k ≤ 2 ^ (52 + float64Shift n) := Nat.pow_le_pow_right (by norm_num) hkle
        _ = 2 ^ 52 * 2 ^ float64Shift n := Nat.pow_add 2 52 _
        _ ≤ n / 2 ^ float64Shift n * 2 ^ float64Shift n := Nat.mul_le_mul_right _ h52
  unfold nearestEven53
  simp only
  split
  · exact hq
  · exact le_trans hq (Nat.mul_le_mul_right _ (Nat.le_succ _))

theorem nearestEven53_le_pow (n k : Nat) (hk : n ≤ 2 ^ k) (h : n < 2 ^ 116) :
    nearestEven53 n ≤ 2 ^ k := by
  obtain ⟨h1, h2⟩ := float64Shift_spec n h
  unfold nearestEven53
  simp only
  split
  · exact le_trans (Nat.div_mul_le_self n _) hk
  · rename_i hup
    have hs : 0 < float64Shift n := by
      by_contra h0
      have h00 : float64Shift n = 0 := by omega
      apply hup
      left
      rw [h00]
      simp [Nat.mod_one]
    have hle := h2 hs
    have hr : n % 2 ^ float64Shift n ≠ 0 := by
      intro h0
      apply hup
      left
      rw [h0]
      positivity
    have hkge : 53 + float64Shift n ≤ k := by
      by_contra hlt
      have hk2 : 2 ^ k ≤ 2 ^ (52 + float64Shift n) :=
        Nat.pow_le_pow_right (by norm_num) (by omega)
      have hn : n = 2 ^ (52 + float64Shift n) := by omega
      exact hr (Nat.mod_eq_zero_of_dvd
        (Dvd.intro_left (2 ^ 52) ((Nat.pow_add 2 52 _).symm.trans hn.symm)))
    have hq : n / 2 ^ float64Shift n < 2 ^ 53 := by
      rw [Nat.div_lt_iff_lt_mul (by positivity), ← Nat.pow_add]
      exact h1
    calc (n / 2 ^ float64Shift n + 1) * 2 ^ float64Shift n
        ≤ 2 ^ 53 * 2 ^ float64Shift n := Nat.mul_le_mul_right _ hq
      _ = 2 ^ (53 + float64Shift n) := (Nat.pow_add 2 53 _).symm
      _ ≤ 2 ^ k := Nat.pow_le_pow_right (by norm_num) hkge

theorem jitterBound_natCast (d : Nat) :
    jitterBound (d : Int)
      = ((nearestEven53 (nearestEven53 d * point2Mantissa) / 2 ^ 54 : Nat) : Int) := by
  simp [jitterBound]

theorem jitterBound_nonpos_of_neg (d : Int) (h : d < 0) : jitterBound d ≤ 0 := by
  simp only [jitterBound, h, if_true]
  exact Int.neg_nonpos_of_nonneg (Int.ofNat_nonneg _)

theorem jitterBound_pos (d : Nat) (h5 : 5 ≤ d) (h : d < 2 ^ 63) : 0 < jitterBound (d : Int) := by
  have e63 : (2 : Nat) ^ 63 = 9223372036854775808 := by norm_num
  have e53 : (2 : Nat) ^ 53 = 9007199254740992 := by norm_num
  have e54 : (2 : Nat) ^ 54 = 18014398509481984 := by norm_num
  have e116 : (2 : Nat) ^ 116 = 83076749736557242056487941267521536 := by norm_num
  have hd116 : d < 2 ^ 116 := by omega
  have hx5 : 5 ≤ nearestEven53 d := by
    by_cases hsmall : d < 2 ^ 53
    · rw [nearestEven53_exact d d 0 (by simp) hsmall hd116]
      exact h5
    · have := nearestEven53_ge_pow d 53 (Nat.le_of_not_lt hsmall) hd116
      omega
  have hx63 : nearestEven53 d ≤ 2 ^ 63 := nearestEven53_le_pow d 63 (Nat.le_of_lt h) hd116
  have hN116 : nearestEven53 d * point2Mantissa < 2 ^ 116 := by
    unfold point2Mantissa
    omega
  have hN54 : 2 ^ 54 ≤ nearestEven53 d * point2Mantissa := by
    unfold point2Mantissa
    omega
  have hp := nearestEven53_ge_pow _ 54 hN54 hN116
  rw [jitterBound_natCast]
  have : 1 ≤ nearestEven53 (nearestEven53 d * point2Mantissa) / 2 ^ 54 :=
    (Nat.le_div_iff_mul_le (by positivity)).mpr (by simpa using hp)
  exact_mod_cast this

theorem jitterBound_seconds (n : Nat) (hn : n ≤ 4611686018) :
    jitterBound ((n : Int) * Second) = (n : Int) * 200000000 := by
  have e53 : (2 : Nat) ^ 53 = 9007199254740992 := by norm_num
  have e54 : (2 : Nat) ^ 54 = 18014398509481984 := by norm_num
  have e116 : (2 : Nat) ^ 116 = 83076749736557242056487941267521536 := by norm_num
  have hcast : (n : Int) * Second = ((n * 1000000000 : Nat) : Int) := by
    simp [Second]
  rw [hcast, jitterBound_natCast]
  by_cases h0 : n = 0
  · subst h0
    decide
  · have hx : nearestEven53 (n * 1000000000) = n * 1000000000 :=
      nearestEven53_exact _ (n * 1953125) 9 (by ring) (by omega) (by omega)
    have hprod : n * 1000000000 * point2Mantissa
        = (n * 200000000) * 2 ^ 54 + n * 200000000 := by
      unfold point2Mantissa
      rw [e54]
      ring
    have hdown := nearestEven53_down (n * 200000000) (n * 390625) 9 (by ring) (by omega)
      (by omega) (by rw [e54, e116]; omega)
    rw [hx, hprod, hdown, Nat.mul_div_cancel _ (by positivity)]
    push_cast
    ring

/-- C21, the claim at an interval of 4611686019 seconds, which is at least one second:
the bound of the draw is 922337203800000128, so the source can draw the jitter
922337203800000127, which is not below 0.2 × d = 922337203800000000 ns; after the
clock has advanced by 0.2 × d, `Run` is still asleep, with 127 ns left. -/
theorem jitter_reaches_fifth_of_interval :
    Second ≤ 4611686019 * Second
    ∧ jitterBound (4611686019 * Second) = 922337203800000128
    ∧ Int63n 922337203800000127 (jitterBound (4611686019 * Second))
        = some 922337203800000127
    ∧ ¬ (5 * 922337203800000127 < 4611686019 * Second)
    ∧ (Run lateLibraries sampleSyncer
          [.routerStart Second, .routerStart (4611686019 * Second),
            .advance 922337203800000000]).phase = .sleeping 127 := by
  decide

/-- C21 as amended: for an announced interval of `n` seconds with 1 ≤ n ≤ 4611686018 the
bound of the draw is exactly 0.2 × d, that is `n` × 200000000 ns, so for every value
the random source draws `Int63n` returns a jitter `j` with 0 ≤ j < 0.2 × d, and a
`Run` that sleeps `j` is back in its main loop once the clock has advanced by
0.2 × d. -/
theorem jitter_below_fifth_of_interval (n draw : Nat) (h1 : 1 ≤ n) (hn : n ≤ 4611686018) :
    jitterBound ((n : Int) * Second) = (n : Int) * 200000000
    ∧ ∃ j, Int63n draw (jitterBound ((n : Int) * Second)) = some j
      ∧ 0 ≤ j ∧ 5 * j < (n : Int) * Second
      ∧ ∀ (lib : Libraries) (st : RunState), st.phase = .sleeping j →
          (step lib st (.advance (n * 200000000))).phase = .running := by
  have hb := jitterBound_seconds n hn
  have hpos : (0 : Int) < (n : Int) * 200000000 := by
    have : (1 : Int) ≤ (n : Int) := by exact_mod_cast h1
    omega
  refine ⟨hb, (draw : Int) % ((n : Int) * 200000000), ?_, ?_, ?_, ?_⟩
  · rw [hb]
    simp [Int63n, not_le.mpr hpos]
  · exact Int.emod_nonneg _ (ne_of_gt hpos)
  · have := Int.emod_lt_of_pos (draw : Int) hpos
    simp only [Second]
    omega
  · intro lib st hph
    have hle : (draw : Int) % ((n : Int) * 200000000) ≤ ((n * 200000000 : Nat) : Int) := by
      have := Int.emod_lt_of_pos (draw : Int) hpos
      push_cast
      omega
    obtain ⟨_, _, _, hp, _⟩ := afterSleep_spec st
    simp only [step, hph, stepSleeping, hle, if_true]
    exact hp

/-- C21 as amended, on the intervals of the tests: 400 ms bound the jitter for two
seconds and one second bounds it for five. -/
theorem jitter_below_fifth_of_interval_witness :
    jitterBound (((2 : Nat) : Int) * Second) = ((2 : Nat) : Int) * 200000000
    ∧ jitterBound (((5 : Nat) : Int) * Second) = ((5 : Nat) : Int) * 200000000 :=
  ⟨(jitter_below_fifth_of_interval 2 123456789 (by decide) (by decide)).1,
   (jitter_below_fifth_of_interval 5 123456789 (by decide) (by decide)).1⟩

theorem greetDuration_of_small (n : Int) (hlo : -9223372036 ≤ n) (hhi : n ≤ 9223372036) :
    greetDuration n = n * 1000000000 := by
  simp only [greetDuration, wrapInt64, Second]
  omega

/-- C26, the claim at a greeting that announces 9223372037 seconds: the payload parses,
and the value sent is -9223372036709551616 ns, the product wrapped on 64 bits, not
9223372037 × 1,000,000,000 ns. -/
theorem handleRouterStart_wraps_distant_interval :
    sampleUnmarshal distantPayload
        = .ok { MinimumRegisterInterval := 9223372037, PruneThresholdInSeconds := 3 }
    ∧ (handleRouterStart sampleUnmarshal distantPayload).sent = [-9223372036709551616]
    ∧ (handleRouterStart sampleUnmarshal distantPayload).sent ≠ [9223372037 * 1000000000] := by
  refine ⟨rfl, ?_, ?_⟩ <;> decide

/-- C26 as amended: on a payload that does not parse `handleRouterStart` logs the error
and sends nothing; on a payload that parses with `minimumRegisterIntervalInSeconds`
= n it sends exactly one value, `time.Duration(n) * time.Second`, whatever the prune
threshold is: that is n × 1,000,000,000 ns when -9223372036 ≤ n ≤ 9223372036, and
the product wrapped on 64 bits otherwise. -/
theorem handleRouterStart_sends_interval
    (unmarshal : String → Except String RouterGreetingMessage) (data : String) :
    (∀ err, unmarshal data = .error err →
        (handleRouterStart unmarshal data).sent = []
        ∧ (handleRouterStart unmarshal data).logger = ["received-invalid-router-start"])
    ∧ (∀ n p, unmarshal data
          = .ok { MinimumRegisterInterval := n, PruneThresholdInSeconds := p } →
        (handleRouterStart unmarshal data).sent = [wrapInt64 (wrapInt64 n * Second)]
        ∧ (-9223372036 ≤ n → n ≤ 9223372036 →
            (handleRouterStart unmarshal data).sent = [n * 1000000000])) := by
  refine ⟨?_, ?_⟩
  · intro err h
    simp [handleRouterStart, h]
  · intro n p h
    refine ⟨by simp [handleRouterStart, h, greetDuration], ?_⟩
    intro hlo hhi
    simp [handleRouterStart, h, greetDuration_of_small n hlo hhi]

/-- C26 as amended, on the payloads of the examples: a payload that is no JSON sends
nothing and the greeting of the tests sends one second. -/
theorem handleRouterStart_sends_interval_witness :
    (handleRouterStart sampleUnmarshal "not json").sent = []
    ∧ (handleRouterStart sampleUnmarshal greetingPayload).sent = [1 * 1000000000] :=
  ⟨((handleRouterStart_sends_interval sampleUnmarshal "not json").1 "invalid character"
      rfl).1,
   ((handleRouterStart_sends_interval sampleUnmarshal greetingPayload).2 1 3 rfl).2
      (by decide) (by decide)⟩

/-- C30, the claim at a well-formed greeting that announces 9223372037 seconds, a value
of at least 1: the interval sent is the wrapped product -9223372036709551616 ns, the
bound of the draw is negative, `Int63n` has its precondition violated, and a `Run` in
its main loop stops with the panic. -/
theorem draw_precondition_fails_for_distant_interval :
    (1 : Int) ≤ 9223372037
    ∧ (handleRouterStart sampleUnmarshal distantPayload).sent = [greetDuration 9223372037]
    ∧ jitterBound (greetDuration 9223372037) = -1844674407341910528
    ∧ Int63n 123456789 (jitterBound (greetDuration 9223372037)) = none
    ∧ (Run sampleLibraries sampleSyncer
          [.routerStart Second, .routerStart (greetDuration 9223372037)]).phase
        = .panicked "invalid argument to Int63n" := by
  decide

/-- C30 as amended: the bound of the draw is `int64(0.2 * float64(interval))`. For an
announcement of `n` seconds with -9223372036 ≤ n ≤ 9223372036, where the interval is
n × 1,000,000,000 ns, the bound is positive exactly when n ≥ 1, and then the draw
has its precondition for every value of the source. For the value 0, which is also
what a greeting without the field decodes to, the bound is 0, `Int63n` panics and
`Run` stops in its main loop. -/
theorem draw_precondition (n : Int) (draw : Nat) (lib : Libraries) (st : RunState)
    (hlo : -9223372036 ≤ n) (hhi : n ≤ 9223372036) :
    greetDuration n = n * Second
    ∧ (0 < jitterBound (greetDuration n) ↔ 1 ≤ n)
    ∧ (1 ≤ n → (Int63n draw (jitterBound (greetDuration n))).isSome = true)
    ∧ jitterBound (greetDuration 0) = 0
    ∧ Int63n draw (jitterBound (greetDuration 0)) = none
    ∧ (st.phase = .running →
        (step lib st (.routerStart (greetDuration 0))).phase
          = .panicked "invalid argument to Int63n") := by
  have hd : greetDuration n = n * Second := greetDuration_of_small n hlo hhi
  have h0 : jitterBound (greetDuration 0) = 0 := by decide
  have hiff : 0 < jitterBound (greetDuration n) ↔ 1 ≤ n := by
    rw [hd]
    constructor
    · intro hpos
      by_contra hlt
      have hn0 : n ≤ 0 := by omega
      rcases eq_or_lt_of_le hn0 with hz | hneg
      · rw [hz] at hpos
        have : jitterBound (0 * Second) = 0 := by decide
        omega
      · have := jitterBound_nonpos_of_neg (n * Second) (by simp only [Second]; omega)
        omega
    · intro h1
      have hcast : n * Second = ((n.toNat * 1000000000 : Nat) : Int) := by
        have : ((n.toNat : Nat) : Int) = n := Int.toNat_of_nonneg (by omega)
        push_cast
        rw [this]
        rfl
      rw [hcast]
      have e63 : (2 : Nat) ^ 63 = 9223372036854775808 := by norm_num
      apply jitterBound_pos
      · omega
      · rw [e63]
        omega
  refine ⟨hd, hiff, ?_, h0, ?_, ?_⟩
  · intro h1
    have := hiff.mpr h1
    simp [Int63n, not_le.mpr this]
  · rw [h0]
    rfl
  · intro hph
    simp [step, hph, stepRunning, newInterval, h0, Int63n, RunState.record]

/-- C30 as amended, on the greeting of the tests and on a greeting without the field:
one second gives a positive bound, and the empty object decodes to 0, for which the
draw panics. -/
theorem draw_precondition_witness :
    0 < jitterBound (greetDuration 1)
    ∧ (handleRouterStart sampleUnmarshal emptyPayload).sent = [greetDuration 0]
    ∧ Int63n 123456789 (jitterBound (greetDuration 0)) = none :=
  ⟨(draw_precondition 1 123456789 sampleLibraries
      (Run sampleLibraries sampleSyncer [.routerStart Second]) (by decide) (by decide)).2.1.mpr
      (by decide),
   by decide,
   (draw_precondition 1 123456789 sampleLibraries
      (Run sampleLibraries sampleSyncer [.routerStart Second]) (by decide)
      (by decide)).2.2.2.2.1⟩

/-! ### The model on the scenarios of syncer_test.go -/

/-- The test "should emit routes with the frequency of the passed-in-interval": `Sync`
after the greeting, then one `Emit` for each tick of the router ticker. -/
theorem test_Run_emits_on_router_ticks :
    sends (Run sampleLibraries sampleSyncer
        [.routerStart Second, .received .Sync, .tick 2, .received .Emit, .tick 2]).trace
      = [.Sync, .Emit, .Emit] := by
  decide

/-- The test "should keep greeting the router until it gets an interval": a second
greeting after the retry tick, none after the interval has arrived. -/
theorem test_Run_keeps_greeting :
    greetReplies (Run sampleLibraries sampleSyncer [.tick 0]).trace
        = ["reply-uuid", "reply-uuid"]
    ∧ greetReplies (Run sampleLibraries sampleSyncer
        [.tick 0, .routerStart Second, .tick 0]).trace = ["reply-uuid", "reply-uuid"] := by
  decide

/-- The test "should modify its update rate": an interval of two seconds arrives, no
`Emit` is sent while the clock has not advanced, one is sent after 400 ms, the old
router ticker sends nothing and the new one sends the next `Emit`. -/
theorem test_Run_modifies_update_rate :
    sends (Run sampleLibraries sampleSyncer
        [.routerStart Second, .received .Sync, .routerStart (2 * Second)]).trace = [.Sync]
    ∧ sends (Run sampleLibraries sampleSyncer
        [.routerStart Second, .received .Sync, .routerStart (2 * Second),
          .advance 400000000]).trace = [.Sync, .Emit]
    ∧ sends (Run sampleLibraries sampleSyncer
        [.routerStart Second, .received .Sync, .routerStart (2 * Second),
          .advance 400000000, .received .Emit, .tick 2, .tick 3]).trace
        = [.Sync, .Emit, .Emit] := by
  decide

/-- The tests "syncing": `Sync` after the greeting and one `Sync` for each tick of the
sync ticker that finds the channel read. -/
theorem test_Run_syncs :
    sends (Run sampleLibraries sampleSyncer
        [.routerStart (10 * Second), .received .Sync, .tick 1, .received .Sync, .tick 1]).trace
      = [.Sync, .Sync, .Sync] := by
  decide

/-- The test "should still be able to shutdown": a signal in the greet loop makes `Run`
return nil. -/
theorem test_Run_shutdown :
    (Run sampleLibraries sampleSyncer [.signal]).phase = .returned none
    ∧ (Run sampleLibraries sampleSyncer [.routerStart Second, .signal]).phase
        = .returned none
    ∧ stoppedTickers (Run sampleLibraries sampleSyncer [.routerStart Second, .signal]).trace
        = [0, 1, 2] := by
  decide

/-- The start of the test "should emit internal routes with the frequency of the
passed-in-interval": with internal routes `InternalSync` and `Sync` follow the
greeting of the router. -/
theorem test_Run_internal_sync :
    sends (Run sampleLibraries internalSyncer [.routerStart (1000 * Second)]).trace
      = [.InternalSync, .Sync] := by
  decide

theorem jitterBound_zero : jitterBound 0 = 0 := by decide

theorem interval_pos_of_draw (draw : Nat) (d j : Int)
    (h : Int63n draw (jitterBound d) = some j) : 0 < d := by
  unfold Int63n at h
  split at h
  · exact absurd h (by simp)
  · rename_i hb
    rcases lt_trichotomy d 0 with hd | hd | hd
    · exact absurd (jitterBound_nonpos_of_neg d hd) hb
    · rw [hd, jitterBound_zero] at hb
      exact absurd (le_refl 0) hb
    · exact hd

theorem step_tickers_positive (lib : Libraries) (st : RunState) (a : Arrival)
    (h1 : ∀ t p, RunEffect.newTicker t p ∈ st.trace → 0 < p)
    (h2 : ∀ l, st.phase = .sleeping l → 0 < st.routerRegisterInterval) :
    (∀ t p, RunEffect.newTicker t p ∈ (step lib st a).trace → 0 < p)
    ∧ (∀ l, (step lib st a).phase = .sleeping l → 0 < (step lib st a).routerRegisterInterval) := by
  revert h1 h2
  unfold step
  cases hph : st.phase <;> cases a <;>
    simp only [stepGreeting, stepRunning, stepSleeping, stepBlocked, afterGreetLoop, greet,
      afterSleep, newInterval, RunState.loopSync, RunState.firstSync, RunState.firstInternalSync,
      RunState.startTickers, RunState.emit, RunState.record, RunState.finish, RunState.consume]
  all_goals (repeat' split)
  all_goals intro h1 h2
  all_goals refine ⟨fun t p hm => ?_, fun l hl => ?_⟩
  all_goals try (exact h1 t p hm)
  all_goals try (exact h2 l hl)
  all_goals try (simp at hl; done)
  all_goals try (simp [hph] at hl; done)
  all_goals try (have hd := interval_pos_of_draw _ _ _ ‹Int63n _ _ = some _›)
  all_goals try (have hr := h2 _ rfl)
  all_goals try (exact hd)
  all_goals try (exact hr)
  all_goals try (simp at hm; exact h1 t p hm)
  all_goals try (simp at hm; rcases hm with hm | ⟨_, rfl⟩ <;>
    first | exact h1 t p hm | omega)

theorem start_tickers_positive (lib : Libraries) (s : NatsSyncer) :
    (∀ t p, RunEffect.newTicker t p ∈ (start lib s).trace → 0 < p)
    ∧ (∀ l, (start lib s).phase = .sleeping l → 0 < (start lib s).routerRegisterInterval) := by
  cases h0 : lib.newV4 with
  | error e => simp [start, h0, RunState.init, RunState.record, RunState.finish]
  | ok replyUuid =>
    cases h1 : lib.subscribe 0 "router.start" <;> cases h2 : lib.subscribe 1 replyUuid <;>
      cases hw : s.waitForInternalRoutesGreeting <;>
      cases h3 : lib.subscribe 2 "service-discovery.start" <;>
      cases h4 : lib.publishRequest 0 "router.greet" replyUuid <;>
      simp [start, listenForRouter, listenForServiceDiscovery, enterGreetLoop, greet,
        RunState.subscribe, RunState.init, RunState.record, RunState.finish, h0, h1, h2, hw, h3,
        h4, Second]

/-- Every ticker `Run` creates in the model has a positive period, and while `Run` is
inside `clock.Sleep` the interval received is positive: the `NewTicker` of line 127
is never reached with an interval on which it would panic. -/
theorem Run_tickers_positive (lib : Libraries) (s : NatsSyncer) (script : List Arrival) :
    (∀ t p, RunEffect.newTicker t p ∈ (Run lib s script).trace → 0 < p)
    ∧ (∀ l, (Run lib s script).phase = .sleeping l →
        0 < (Run lib s script).routerRegisterInterval) := by
  induction script using List.reverseRecOn with
  | nil => exact start_tickers_positive lib s
  | append_singleton l a ih =>
    rw [Run_snoc]
    exact step_tickers_positive lib _ a ih.1 ih.2

/-! ## Theorems: RoutingAPISyncer.Run -/

theorem apiRun_snoc (s : RoutingAPISyncer) (l : List Arrival) (a : Arrival) :
    RoutingAPISyncer.Run s (l ++ [a]) = RoutingAPISyncer.step (RoutingAPISyncer.Run s l) a := by
  simp [RoutingAPISyncer.Run, List.foldl_append]

theorem syncAttempts_append (a b : List RunEffect) :
    syncAttempts (a ++ b) = syncAttempts a + syncAttempts b := by
  simp [syncAttempts, List.filter_append]

theorem apiSync_spec (st : APIRunState) :
    ∃ e, (e = RunEffect.send .Sync ∨ e = RunEffect.log "sync-already-in-progress")
      ∧ st.sync.trace = st.trace ++ [e]
      ∧ st.sync.phase = st.phase ∧ st.sync.syncTicker = st.syncTicker := by
  by_cases h : (st.syncer.syncChannel.trySend ()).2 = true
  · exact ⟨_, Or.inl rfl, by simp [APIRunState.sync, h], rfl, rfl⟩
  · exact ⟨_, Or.inr rfl, by simp [APIRunState.sync, h], rfl, rfl⟩

theorem apiSync_channel (s : RoutingAPISyncer) :
    (s.syncChannel.buf.length < s.syncChannel.cap →
        s.sync.syncChannel.buf.length = s.syncChannel.buf.length + 1
        ∧ s.sync.syncChannel.cap = s.syncChannel.cap ∧ s.sync.logger = s.logger)
    ∧ (¬ s.syncChannel.buf.length < s.syncChannel.cap →
        s.sync.syncChannel = s.syncChannel
        ∧ s.sync.logger = s.logger ++ ["sync-already-in-progress"]) := by
  refine ⟨fun h => ?_, fun h => ?_⟩
  · unfold RoutingAPISyncer.sync
    rw [Chan.trySend_of_lt _ _ h]
    simp
  · unfold RoutingAPISyncer.sync
    rw [Chan.trySend_of_not_lt _ _ h]
    simp

theorem apiStart_spec (s : RoutingAPISyncer) :
    (∃ e, (e = RunEffect.send .Sync ∨ e = RunEffect.log "sync-already-in-progress")
      ∧ (0 < s.syncInterval →
          (RoutingAPISyncer.start s).trace
            = [.closeReady, .log "started", .log "starting-initial-sync", e,
                .newTicker 0 s.syncInterval])
      ∧ (s.syncInterval ≤ 0 →
          (RoutingAPISyncer.start s).trace
            = [.closeReady, .log "started", .log "starting-initial-sync", e]))
    ∧ (0 < s.syncInterval → (RoutingAPISyncer.start s).phase = .running)
    ∧ (s.syncInterval ≤ 0 → (RoutingAPISyncer.start s).phase = .panicked newTickerPanic)
    ∧ (RoutingAPISyncer.start s).syncTicker = 0
    ∧ (RoutingAPISyncer.start s).syncer = s.sync := by
  refine ⟨?_, ?_, ?_, ?_, ?_⟩
  · by_cases h : (s.syncChannel.trySend ()).2 = true
    · exact ⟨_, Or.inl rfl,
        fun hp => by simp [RoutingAPISyncer.start, APIRunState.sync, h, not_le.mpr hp],
        fun hp => by simp [RoutingAPISyncer.start, APIRunState.sync, h, hp]⟩
    · exact ⟨_, Or.inr rfl,
        fun hp => by simp [RoutingAPISyncer.start, APIRunState.sync, h, not_le.mpr hp],
        fun hp => by simp [RoutingAPISyncer.start, APIRunState.sync, h, hp]⟩
  · intro hp
    simp [RoutingAPISyncer.start, APIRunState.sync, not_le.mpr hp]
  · intro hp
    simp [RoutingAPISyncer.start, APIRunState.sync, hp]
  · unfold RoutingAPISyncer.start
    dsimp only
    split <;> rfl
  · unfold RoutingAPISyncer.start
    dsimp only
    split <;> rfl

theorem apiStep_of_panicked (st : APIRunState) (a : Arrival) (msg : String)
    (h : st.phase = .panicked msg) : RoutingAPISyncer.step st a = st := by
  simp [RoutingAPISyncer.step, h]

theorem apiRun_of_panicked (s : RoutingAPISyncer) (script : List Arrival) (msg : String)
    (h : (RoutingAPISyncer.start s).phase = .panicked msg) :
    RoutingAPISyncer.Run s script = RoutingAPISyncer.start s := by
  induction script using List.reverseRecOn with
  | nil => rfl
  | append_singleton l a ih =>
    rw [apiRun_snoc, ih]
    exact apiStep_of_panicked _ a msg h

theorem apiStep_running (st : APIRunState) (a : Arrival)
    (hph : st.phase = .running) (ht : st.syncTicker = 0)
    (h : (RoutingAPISyncer.step st a).phase = .running) :
    (RoutingAPISyncer.step st a).syncTicker = 0
    ∧ a ≠ .signal
    ∧ syncAttempts (RoutingAPISyncer.step st a).trace
        = syncAttempts st.trace + (if a = .tick 0 then 1 else 0)
    ∧ stoppedTickers (RoutingAPISyncer.step st a).trace = stoppedTickers st.trace := by
  revert h
  unfold RoutingAPISyncer.step
  rw [hph]
  cases a with
  | tick t =>
    by_cases h0 : t = 0
    · subst h0
      by_cases hs : (st.syncer.syncChannel.trySend ()).2 = true <;>
        simp [ht, APIRunState.sync, hs, syncAttempts, stoppedTickers, List.filter_append,
          List.filterMap_append]
    · simp [ht, h0]
  | signal => simp
  | routerStart d => simp [ht]
  | advance d => simp [ht]
  | received ch => cases ch <;> simp [ht]

theorem apiStep_phase (st : APIRunState) (a : Arrival)
    (h : st.phase = .running ∨ st.phase = .returned none) :
    (RoutingAPISyncer.step st a).phase = .running
      ∨ (RoutingAPISyncer.step st a).phase = .returned none := by
  unfold RoutingAPISyncer.step
  rcases h with h | h
  · rw [h]
    cases a with
    | tick t =>
      by_cases h0 : t = st.syncTicker
      · simp [h0, APIRunState.sync, h]
      · simp [h0, h]
    | signal => simp
    | routerStart d => simp [h]
    | advance d => simp [h]
    | received ch => cases ch <;> simp [h]
  · rw [h]
    simp [h]

theorem apiStep_running_inv (st : APIRunState) (a : Arrival)
    (h : (RoutingAPISyncer.step st a).phase = .running) : st.phase = .running := by
  revert h
  unfold RoutingAPISyncer.step
  cases hph : st.phase <;> simp [hph]

theorem apiRun_running (s : RoutingAPISyncer) (script : List Arrival)
    (h : (RoutingAPISyncer.Run s script).phase = .running) :
    (RoutingAPISyncer.Run s script).syncTicker = 0
    ∧ Arrival.signal ∉ script
    ∧ syncAttempts (RoutingAPISyncer.Run s script).trace = 1 + script.count (Arrival.tick 0)
    ∧ stoppedTickers (RoutingAPISyncer.Run s script).trace = []
    ∧ 0 < s.syncInterval := by
  induction script using List.reverseRecOn with
  | nil =>
    obtain ⟨⟨e, he, ht, _⟩, _, hpan, h3, _⟩ := apiStart_spec s
    have hpos : 0 < s.syncInterval := by
      by_contra hn
      have hp := hpan (not_lt.mp hn)
      have h2 : (RoutingAPISyncer.start s).phase = .running := h
      rw [hp] at h2
      exact Phase.noConfusion h2
    refine ⟨h3, by simp, ?_, ?_, hpos⟩
    · show syncAttempts (RoutingAPISyncer.start s).trace = _
      rw [ht hpos]
      rcases he with he | he <;> subst he <;> simp [syncAttempts]
    · show stoppedTickers (RoutingAPISyncer.start s).trace = _
      rw [ht hpos]
      rcases he with he | he <;> subst he <;> rfl
  | append_singleton l a ih =>
    rw [apiRun_snoc] at h ⊢
    have hprev := apiStep_running_inv _ a h
    obtain ⟨i1, i2, i3, i4, i5⟩ := ih hprev
    obtain ⟨q1, q2, q3, q4⟩ := apiStep_running _ a hprev i1 h
    refine ⟨q1, ?_, ?_, q4.trans i4, i5⟩
    · intro hm
      rcases List.mem_append.mp hm with hm | hm
      · exact i2 hm
      · exact q2 (List.mem_singleton.mp hm).symm
    · rw [q3, i3, List.count_append]
      by_cases ha : a = Arrival.tick 0
      · simp [ha]
        omega
      · simp [ha]
        exact List.count_eq_zero.mpr (fun hm => ha (List.mem_singleton.mp hm).symm)

/-- C29 as amended: `RoutingAPISyncer.Run` closes `ready` and calls `sync()` once, which
leaves the syncer as that one call makes it, and then creates its ticker. With a
sync interval that is positive, along any script `Run` is either waiting in its
`select` or returned with nil: it never stops inside a send. While it waits it has
called `sync()` once at the start and once for every tick of the sync ticker, each
tick being one more call of `sync()` on the syncer, and has stopped no ticker; a
signal then stops the ticker and makes `Run` return nil. With a sync interval that
is not positive `Run` panics in `NewTicker` after the first `sync()`, whatever
arrives. A call of `sync()` adds one event when the channel has room, and otherwise
leaves the channel as it is and writes the debug line. -/
theorem RoutingAPISyncer_Run_coalesces (s : RoutingAPISyncer) (script : List Arrival) :
    (∃ e, (e = RunEffect.send .Sync ∨ e = RunEffect.log "sync-already-in-progress")
      ∧ (0 < s.syncInterval →
          (RoutingAPISyncer.Run s []).trace
            = [.closeReady, .log "started", .log "starting-initial-sync", e,
                .newTicker 0 s.syncInterval])
      ∧ (s.syncInterval ≤ 0 →
          (RoutingAPISyncer.Run s script).trace
            = [.closeReady, .log "started", .log "starting-initial-sync", e]))
    ∧ (RoutingAPISyncer.Run s []).syncer = s.sync
    ∧ (0 < s.syncInterval →
        (RoutingAPISyncer.Run s script).phase = .running
          ∨ (RoutingAPISyncer.Run s script).phase = .returned none)
    ∧ (s.syncInterval ≤ 0 →
        (RoutingAPISyncer.Run s script).phase = .panicked newTickerPanic)
    ∧ ((RoutingAPISyncer.Run s script).phase = .running →
        syncAttempts (RoutingAPISyncer.Run s script).trace
            = 1 + script.count (Arrival.tick 0)
        ∧ stoppedTickers (RoutingAPISyncer.Run s script).trace = []
        ∧ (RoutingAPISyncer.Run s (script ++ [.tick 0])).syncer
            = (RoutingAPISyncer.Run s script).syncer.sync
        ∧ (RoutingAPISyncer.Run s (script ++ [.tick 0])).phase = .running
        ∧ (RoutingAPISyncer.Run s (script ++ [.signal])).phase = .returned none
        ∧ (RoutingAPISyncer.Run s (script ++ [.signal])).trace
            = (RoutingAPISyncer.Run s script).trace ++ [.log "stopping", .stopTicker 0])
    ∧ ((RoutingAPISyncer.Run s script).syncer.syncChannel.buf.length
          < (RoutingAPISyncer.Run s script).syncer.syncChannel.cap →
        (RoutingAPISyncer.Run s script).syncer.sync.syncChannel.buf.length
          = (RoutingAPISyncer.Run s script).syncer.syncChannel.buf.length + 1)
    ∧ (¬ (RoutingAPISyncer.Run s script).syncer.syncChannel.buf.length
          < (RoutingAPISyncer.Run s script).syncer.syncChannel.cap →
        (RoutingAPISyncer.Run s script).syncer.sync.syncChannel
          = (RoutingAPISyncer.Run s script).syncer.syncChannel
        ∧ (RoutingAPISyncer.Run s script).syncer.sync.logger
          = (RoutingAPISyncer.Run s script).syncer.logger ++ ["sync-already-in-progress"]) := by
  obtain ⟨⟨e, he, ht1, ht2⟩, hrun, hpan, _, hsy⟩ := apiStart_spec s
  refine ⟨⟨e, he, ht1, ?_⟩, hsy, ?_, ?_, ?_, ?_, ?_⟩
  · intro hp
    rw [apiRun_of_panicked s script _ (hpan hp)]
    exact ht2 hp
  · intro hp
    induction script using List.reverseRecOn with
    | nil => exact Or.inl (hrun hp)
    | append_singleton l a ih =>
      rw [apiRun_snoc]
      exact apiStep_phase _ a ih
  · intro hp
    rw [apiRun_of_panicked s script _ (hpan hp)]
    exact hpan hp
  · intro hph
    obtain ⟨h1, _, h3, h4, _⟩ := apiRun_running s script hph
    refine ⟨h3, h4, ?_, ?_, ?_, ?_⟩
    · rw [apiRun_snoc]
      simp [RoutingAPISyncer.step, hph, h1, APIRunState.sync]
    · rw [apiRun_snoc]
      simp [RoutingAPISyncer.step, hph, h1, APIRunState.sync]
    · rw [apiRun_snoc]
      simp [RoutingAPISyncer.step, hph]
    · rw [apiRun_snoc]
      simp [RoutingAPISyncer.step, hph, h1]
  · exact fun h => ((apiSync_channel _).1 h).1
  · exact fun h => (apiSync_channel _).2 h

/-- C29 as amended, on a channel of capacity 1 that nobody reads, with a sync interval of
ten seconds: the first `sync()` fills the channel, the `sync()` of the tick is
dropped, and `Run` has made two attempts and still waits. -/
theorem RoutingAPISyncer_Run_coalesces_witness :
    ((RoutingAPISyncer.Run (NewRoutingApiSyncer 10000000000 (Chan.make Unit 1))
        [.tick 0]).phase = .running
      ∨ (RoutingAPISyncer.Run (NewRoutingApiSyncer 10000000000 (Chan.make Unit 1))
        [.tick 0]).phase = .returned none)
    ∧ syncAttempts (RoutingAPISyncer.Run (NewRoutingApiSyncer 10000000000 (Chan.make Unit 1))
        [.tick 0]).trace = 1 + [Arrival.tick 0].count (Arrival.tick 0)
    ∧ (RoutingAPISyncer.Run (NewRoutingApiSyncer 10000000000 (Chan.make Unit 1))
        [.tick 0]).syncer.sync.syncChannel
      = (RoutingAPISyncer.Run (NewRoutingApiSyncer 10000000000 (Chan.make Unit 1))
        [.tick 0]).syncer.syncChannel :=
  ⟨(RoutingAPISyncer_Run_coalesces (NewRoutingApiSyncer 10000000000 (Chan.make Unit 1))
      [.tick 0]).2.2.1 (by decide),
   ((RoutingAPISyncer_Run_coalesces (NewRoutingApiSyncer 10000000000 (Chan.make Unit 1))
      [.tick 0]).2.2.2.2.1 (by decide)).1,
   ((RoutingAPISyncer_Run_coalesces (NewRoutingApiSyncer 10000000000 (Chan.make Unit 1))
      [.tick 0]).2.2.2.2.2.2 (by decide)).1⟩

/-- C29, the claim at a sync interval of zero: `Run` closes `ready`, makes its first
`sync()` and panics in `NewTicker`. The tick and the signal that follow reach nothing:
no second `sync()` is made, no ticker is stopped and `Run` does not return nil. -/
theorem RoutingAPISyncer_Run_zero_interval_panics :
    (RoutingAPISyncer.Run (NewRoutingApiSyncer 0 (Chan.make Unit 1))
        [.tick 0, .signal]).phase = .panicked newTickerPanic
    ∧ (RoutingAPISyncer.Run (NewRoutingApiSyncer 0 (Chan.make Unit 1))
        [.tick 0, .signal]).phase ≠ .returned none
    ∧ (RoutingAPISyncer.Run (NewRoutingApiSyncer 0 (Chan.make Unit 1))
        [.tick 0, .signal]).trace
      = [.closeReady, .log "started", .log "starting-initial-sync", .send .Sync]
    ∧ syncAttempts (RoutingAPISyncer.Run (NewRoutingApiSyncer 0 (Chan.make Unit 1))
        [.tick 0, .signal]).trace = 1
    ∧ stoppedTickers (RoutingAPISyncer.Run (NewRoutingApiSyncer 0 (Chan.make Unit 1))
        [.tick 0, .signal]).trace = [] := by
  refine ⟨by decide, by decide, by decide, by decide, by decide⟩

/-! ## Theorems: the operations of the routing table -/

theorem find?_filter_same (l : List (RoutingKey × RoutableEndpoints)) (key : RoutingKey) :
    (l.filter (fun p => decide (p.1 ≠ key))).find? (fun p => decide (p.1 = key)) = none := by
  rw [List.find?_eq_none]
  intro x hx
  have := (List.mem_filter.mp hx).2
  simpa using this

theorem find?_filter_other (l : List (RoutingKey × RoutableEndpoints)) (key key2 : RoutingKey)
    (hne : key2 ≠ key) :
    (l.filter (fun p => decide (p.1 ≠ key))).find? (fun p => decide (p.1 = key2))
      = l.find? (fun p => decide (p.1 = key2)) := by
  rw [List.find?_filter]
  congr 1
  funext a
  by_cases ha : a.1 = key2
  · have : a.1 ≠ key := fun h => hne (ha.symm.trans h)
    simp [ha, hne]
  · simp [ha]

theorem entry_setEntry_same (t : NATSRoutingTable) (key : RoutingKey) (e : RoutableEndpoints) :
    (t.setEntry key e).entry key
      = if e.Routes.isEmpty && e.Endpoints.isEmpty then RoutableEndpoints.empty else e := by
  unfold NATSRoutingTable.entry NATSRoutingTable.setEntry
  by_cases h : (e.Routes.isEmpty && e.Endpoints.isEmpty) = true
  · simp only [h, if_true, find?_filter_same]
  · simp only [h, if_false, List.find?_append, find?_filter_same, Option.none_or,
      List.find?_singleton, decide_True, if_true, Bool.false_eq_true]

theorem entry_setEntry_other (t : NATSRoutingTable) (key key2 : RoutingKey)
    (e : RoutableEndpoints) (hne : key2 ≠ key) :
    (t.setEntry key e).entry key2 = t.entry key2 := by
  have hsingle : ([(key, e)] : List (RoutingKey × RoutableEndpoints)).find?
      (fun p => decide (p.1 = key2)) = none := by
    rw [List.find?_eq_none]
    intro x hx
    rw [List.mem_singleton] at hx
    subst hx
    simpa using hne.symm
  unfold NATSRoutingTable.entry NATSRoutingTable.setEntry
  by_cases h : (e.Routes.isEmpty && e.Endpoints.isEmpty) = true
  · simp only [h, if_true, find?_filter_other _ _ _ hne]
  · simp only [h, if_false, List.find?_append, find?_filter_other _ _ _ hne, hsingle,
      Option.or_none, Bool.false_eq_true]

theorem RouteCount_setEntry (t : NATSRoutingTable) (key : RoutingKey) (e : RoutableEndpoints) :
    (t.setEntry key e).RouteCount
      = ((t.entries.filter (fun p => decide (p.1 ≠ key))).map (fun p => p.2.routeCount)).sum
        + e.routeCount := by
  unfold NATSRoutingTable.RouteCount NATSRoutingTable.setEntry
  by_cases h : (e.Routes.isEmpty && e.Endpoints.isEmpty) = true
  · have h0 : e.routeCount = 0 := by
      simp only [Bool.and_eq_true, List.isEmpty_iff] at h
      simp [RoutableEndpoints.routeCount, h.1]
    simp [h, h0]
  · simp [h]

theorem strictlyOlder_some (a b : ModificationTag) :
    strictlyOlder (some a) (some b) = true ↔ a.Epoch = b.Epoch ∧ a.Index < b.Index := by
  simp [strictlyOlder, ModificationTag.olderThan]

/-- The test of the table operations on the incoming tag, in words: `tag` is not
strictly older than `stored` when, if both are present with the same epoch, the
index of `tag` is not smaller. -/
theorem strictlyOlder_eq_false (tag stored : Option ModificationTag)
    (h : ∀ tg st, tag = some tg → stored = some st → tg.Epoch = st.Epoch → st.Index ≤ tg.Index) :
    strictlyOlder tag stored = false := by
  cases tag with
  | none => simp [strictlyOlder]
  | some tg =>
    cases stored with
    | none => simp [strictlyOlder]
    | some st =>
      rw [Bool.eq_false_iff]
      intro hs
      obtain ⟨he, hi⟩ := (strictlyOlder_some tg st).mp hs
      have := h tg st rfl rfl he
      omega

theorem messagesFor_eq_product (routes : List Route) (endpoints : List Endpoint) :
    messagesFor routes endpoints
      = (List.product endpoints routes).map (fun p => RegistryMessageFor p.1 p.2) := by
  simp [messagesFor, List.product, List.map_flatMap, List.map_map, Function.comp_def]

theorem hasRoute_iff (routes : List Route) (r : Route) :
    hasRoute routes r = true
      ↔ ∃ r2 ∈ routes, r2.Hostname = r.Hostname ∧ r2.RouteServiceUrl = r.RouteServiceUrl := by
  simp [hasRoute]

theorem hasHostname_iff (routes : List Route) (hostname : String) :
    hasHostname routes hostname = true ↔ hostname ∈ routes.map Route.Hostname := by
  simp [hasHostname]

theorem sameRoutes_iff (old new : List Route) :
    sameRoutes old new = true ↔ SameRouteSet old new := by
  simp only [sameRoutes, SameRouteSet, Bool.and_eq_true, List.all_eq_true, hasRoute_iff]

/-- C7: `SetRoutes(key, routes, tag)` on a key whose stored tag is `stored`. If `tag` has
the epoch of `stored` and a smaller index, the call emits no message and returns
the table unchanged, whatever `routes` is. If the epoch of `tag` differs from that
of `stored`, the update is applied: the key then holds `routes`, with its endpoints
as before, under `tag` (unless the entry, left without route and endpoint, is
destroyed). -/
theorem SetRoutes_monotonic (t : NATSRoutingTable) (key : RoutingKey) (routes : List Route)
    (tag stored : ModificationTag) (hstored : (t.entry key).ModificationTag = some stored) :
    (tag.Epoch = stored.Epoch → tag.Index < stored.Index →
        t.SetRoutes key routes (some tag) = (t, MessagesToEmit.zero))
    ∧ (tag.Epoch ≠ stored.Epoch →
        ((t.SetRoutes key routes (some tag)).1.entry key).Routes = routes
        ∧ ((t.SetRoutes key routes (some tag)).1.entry key).Endpoints = (t.entry key).Endpoints
        ∧ (routes ≠ [] ∨ (t.entry key).Endpoints ≠ [] →
            ((t.SetRoutes key routes (some tag)).1.entry key).ModificationTag = some tag)) := by
  constructor
  · intro he hi
    have h : strictlyOlder (some tag) (t.entry key).ModificationTag = true := by
      rw [hstored]
      exact (strictlyOlder_some tag stored).mpr ⟨he, hi⟩
    simp [NATSRoutingTable.SetRoutes, h]
  · intro he
    have h : strictlyOlder (some tag) (t.entry key).ModificationTag = false := by
      rw [hstored, Bool.eq_false_iff]
      intro hs
      exact he ((strictlyOlder_some tag stored).mp hs).1
    simp only [NATSRoutingTable.SetRoutes, h, Bool.false_eq_true, if_false, entry_setEntry_same]
    by_cases hempty : (routes.isEmpty && (t.entry key).Endpoints.isEmpty) = true
    · have h2 := hempty
      simp only [Bool.and_eq_true, List.isEmpty_iff] at h2
      simp only [hempty, if_true]
      refine ⟨by simp [RoutableEndpoints.empty, h2.1], by simp [RoutableEndpoints.empty, h2.2], ?_⟩
      intro hor
      rcases hor with h3 | h3
      · exact absurd h2.1 h3
      · exact absurd h2.2 h3
    · simp only [hempty, if_false, Bool.false_eq_true]
      exact ⟨trivial, trivial, fun _ => trivial⟩

/-- C7, on the table of the tests: `olderTag` changes nothing, `newerTag` (another
epoch) replaces the routes. -/
theorem SetRoutes_monotonic_witness :
    TableTest.bothTable.SetRoutes TableTest.key
        [TableTest.route TableTest.hostname1, TableTest.route TableTest.hostname3]
        (some TableTest.olderTag) = (TableTest.bothTable, MessagesToEmit.zero)
    ∧ ((TableTest.bothTable.SetRoutes TableTest.key
        [TableTest.route TableTest.hostname1, TableTest.route TableTest.hostname3]
        (some TableTest.newerTag)).1.entry TableTest.key).Routes
        = [TableTest.route TableTest.hostname1, TableTest.route TableTest.hostname3] :=
  ⟨(SetRoutes_monotonic TableTest.bothTable TableTest.key _ TableTest.olderTag
      TableTest.currentTag (by decide)).1 (by decide) (by decide),
   ((SetRoutes_monotonic TableTest.bothTable TableTest.key _ TableTest.newerTag
      TableTest.currentTag (by decide)).2 (by decide)).1⟩

/-- C8: `RemoveRoutes(key, tag)` on a key holding routes R and endpoints E. If `tag` is
strictly older than the stored tag (same epoch, smaller index), nothing is emitted,
the table and so `RouteCount` are unchanged. If it is not (whenever both tags have
the same epoch, the index of `tag` is not smaller), no registration is emitted, the
unregistrations are one message for every pair of E × R, and afterwards the key
contributes 0 to `RouteCount`, which is the sum over the other keys. -/
theorem RemoveRoutes_unregisters_product (t : NATSRoutingTable) (key : RoutingKey)
    (tag : Option ModificationTag) :
    ((∃ tg st, tag = some tg ∧ (t.entry key).ModificationTag = some st
          ∧ tg.Epoch = st.Epoch ∧ tg.Index < st.Index) →
        (t.RemoveRoutes key tag).2 = MessagesToEmit.zero
        ∧ (t.RemoveRoutes key tag).1 = t
        ∧ (t.RemoveRoutes key tag).1.RouteCount = t.RouteCount)
    ∧ ((∀ tg st, tag = some tg → (t.entry key).ModificationTag = some st →
          tg.Epoch = st.Epoch → st.Index ≤ tg.Index) →
        (t.RemoveRoutes key tag).2.RegistrationMessages = []
        ∧ List.Perm (t.RemoveRoutes key tag).2.UnregistrationMessages
            ((List.product (t.entry key).Endpoints (t.entry key).Routes).map
              (fun p => RegistryMessageFor p.1 p.2))
        ∧ (t.RemoveRoutes key tag).2.UnregistrationMessages.length
            = (t.entry key).Routes.length * (t.entry key).Endpoints.length
        ∧ ((t.RemoveRoutes key tag).1.entry key).routeCount = 0
        ∧ (t.RemoveRoutes key tag).1.RouteCount
            = ((t.entries.filter (fun p => decide (p.1 ≠ key))).map
                (fun p => p.2.routeCount)).sum) := by
  constructor
  · rintro ⟨tg, st, rfl, hst, he, hi⟩
    have h : strictlyOlder (some tg) (t.entry key).ModificationTag = true := by
      rw [hst]
      exact (strictlyOlder_some tg st).mpr ⟨he, hi⟩
    simp [NATSRoutingTable.RemoveRoutes, h]
  · intro hfresh
    have h := strictlyOlder_eq_false tag (t.entry key).ModificationTag hfresh
    simp only [NATSRoutingTable.RemoveRoutes, h, Bool.false_eq_true, if_false,
      entry_setEntry_same, RouteCount_setEntry]
    refine ⟨rfl, ?_, ?_, ?_, ?_⟩
    · rw [messagesFor_eq_product]
    · rw [messagesFor_eq_product, List.length_map]
      exact (List.length_product _ _).trans (Nat.mul_comm _ _)
    · split <;> simp [RoutableEndpoints.routeCount, RoutableEndpoints.empty]
    · simp [RoutableEndpoints.routeCount]

/-- C8, on the table of the tests: `olderTag` changes nothing, `currentTag` unregisters
the four pairs. -/
theorem RemoveRoutes_unregisters_product_witness :
    (TableTest.bothTable.RemoveRoutes TableTest.key (some TableTest.olderTag)).2
        = MessagesToEmit.zero
    ∧ (TableTest.bothTable.RemoveRoutes TableTest.key (some TableTest.currentTag)).2.UnregistrationMessages.length
        = (TableTest.bothTable.entry TableTest.key).Routes.length
            * (TableTest.bothTable.entry TableTest.key).Endpoints.length
    ∧ (TableTest.bothTable.entry TableTest.key).Routes.length
            * (TableTest.bothTable.entry TableTest.key).Endpoints.length = 4 :=
  ⟨((RemoveRoutes_unregisters_product TableTest.bothTable TableTest.key
      (some TableTest.olderTag)).1
      ⟨TableTest.olderTag, TableTest.currentTag, rfl, by decide, by decide, by decide⟩).1,
   ((RemoveRoutes_unregisters_product TableTest.bothTable TableTest.key
      (some TableTest.currentTag)).2
      (fun tg st h1 h2 _ => by
        have e1 : TableTest.currentTag = tg := Option.some.inj h1
        have e2 : TableTest.currentTag = st :=
          Option.some.inj ((show (TableTest.bothTable.entry TableTest.key).ModificationTag
            = some TableTest.currentTag by decide).symm.trans h2)
        rw [← e1, ← e2])).2.2.1,
   by decide⟩

/-- C9: `SetRoutes(key, routes, tag)` with a tag that is not older than the stored
one, on a key holding routes R and endpoints E. If `routes` is the same set of
(hostname, route-service URL) pairs as R, nothing is emitted. Otherwise the
registrations are one message for every pair of E × `routes`, the routes whose
hostname was already present included, and the unregistrations are one message for
every pair of E × (routes of R whose hostname is absent from `routes`); when every
hostname of R is still in `routes`, as for a change of route-service URL alone,
there is no unregistration. -/
theorem SetRoutes_diff (t : NATSRoutingTable) (key : RoutingKey) (routes : List Route)
    (tag : Option ModificationTag)
    (hfresh : ∀ tg st, tag = some tg → (t.entry key).ModificationTag = some st →
      tg.Epoch = st.Epoch → st.Index ≤ tg.Index) :
    (SameRouteSet (t.entry key).Routes routes →
        (t.SetRoutes key routes tag).2 = MessagesToEmit.zero)
    ∧ (¬ SameRouteSet (t.entry key).Routes routes →
        List.Perm (t.SetRoutes key routes tag).2.RegistrationMessages
            ((List.product (t.entry key).Endpoints routes).map
              (fun p => RegistryMessageFor p.1 p.2))
        ∧ List.Perm (t.SetRoutes key routes tag).2.UnregistrationMessages
            ((List.product (t.entry key).Endpoints
                ((t.entry key).Routes.filter
                  (fun r => decide (r.Hostname ∉ routes.map Route.Hostname)))).map
              (fun p => RegistryMessageFor p.1 p.2))
        ∧ ((∀ r ∈ (t.entry key).Routes, r.Hostname ∈ routes.map Route.Hostname) →
            (t.SetRoutes key routes tag).2.UnregistrationMessages = [])) := by
  have h := strictlyOlder_eq_false tag (t.entry key).ModificationTag hfresh
  have hfilter : (t.entry key).Routes.filter (fun r => !hasHostname routes r.Hostname)
      = (t.entry key).Routes.filter
          (fun r => decide (r.Hostname ∉ routes.map Route.Hostname)) := by
    apply List.filter_congr
    intro r _
    by_cases hr : r.Hostname ∈ routes.map Route.Hostname
    · simp [(hasHostname_iff routes r.Hostname).mpr hr, hr]
    · have : hasHostname routes r.Hostname = false := by
        rw [Bool.eq_false_iff]
        exact fun hh => hr ((hasHostname_iff routes r.Hostname).mp hh)
      simp [this, hr]
  have hnone : (∀ r ∈ (t.entry key).Routes, r.Hostname ∈ routes.map Route.Hostname) →
      (t.entry key).Routes.filter
        (fun r => decide (r.Hostname ∉ routes.map Route.Hostname)) = [] := by
    intro hall
    rw [List.filter_eq_nil_iff]
    intro r hr
    simpa using hall r hr
  constructor
  · intro hsame
    have hs := (sameRoutes_iff _ _).mpr hsame
    have hall : ∀ r ∈ (t.entry key).Routes, r.Hostname ∈ routes.map Route.Hostname := by
      intro r hr
      obtain ⟨r2, hr2, hh, _⟩ := hsame.1 r hr
      exact List.mem_map.mpr ⟨r2, hr2, hh⟩
    simp only [NATSRoutingTable.SetRoutes, h, Bool.false_eq_true, if_false, hs, if_true,
      hfilter, hnone hall]
    simp [messagesFor, MessagesToEmit.zero]
  · intro hdiff
    have hs : sameRoutes (t.entry key).Routes routes = false := by
      rw [Bool.eq_false_iff]
      exact fun hh => hdiff ((sameRoutes_iff _ _).mp hh)
    simp only [NATSRoutingTable.SetRoutes, h, Bool.false_eq_true, if_false, hs, hfilter]
    refine ⟨?_, ?_, ?_⟩
    · rw [messagesFor_eq_product]
    · rw [messagesFor_eq_product]
    · intro hall
      rw [hnone hall]
      simp [messagesFor]

/-- C9, on the table of the tests: unchanged routes emit nothing; a hostname added and
one removed give four registrations and two unregistrations; a new route-service
URL alone gives no unregistration. -/
theorem SetRoutes_diff_witness :
    (TableTest.bothTable.SetRoutes TableTest.key
        [TableTest.route TableTest.hostname1, TableTest.route TableTest.hostname2]
        (some TableTest.newerTag)).2 = MessagesToEmit.zero
    ∧ List.Perm
        (TableTest.bothTable.SetRoutes TableTest.key
          [TableTest.route TableTest.hostname1, TableTest.route TableTest.hostname3]
          (some TableTest.newerTag)).2.RegistrationMessages
        ((List.product (TableTest.bothTable.entry TableTest.key).Endpoints
            [TableTest.route TableTest.hostname1, TableTest.route TableTest.hostname3]).map
          (fun p => RegistryMessageFor p.1 p.2))
    ∧ (TableTest.bothTable.SetRoutes TableTest.key
        [TableTest.routeWithService TableTest.hostname1,
         TableTest.routeWithService TableTest.hostname2]
        (some TableTest.newerTag)).2.UnregistrationMessages = [] :=
  have hnewer : ∀ tg st, some TableTest.newerTag = some tg →
      (TableTest.bothTable.entry TableTest.key).ModificationTag = some st →
      tg.Epoch = st.Epoch → st.Index ≤ tg.Index := fun tg st h1 h2 h3 => by
    have e1 : TableTest.newerTag = tg := Option.some.inj h1
    have e2 : TableTest.currentTag = st :=
      Option.some.inj ((show (TableTest.bothTable.entry TableTest.key).ModificationTag
        = some TableTest.currentTag by decide).symm.trans h2)
    rw [← e1, ← e2] at h3
    exact absurd h3 (by decide)
  ⟨(SetRoutes_diff TableTest.bothTable TableTest.key _ _ hnewer).1
      (by
        refine ⟨?_, ?_⟩ <;> intro r hr <;>
          · have hr2 : r = TableTest.route TableTest.hostname1
                ∨ r = TableTest.route TableTest.hostname2 := by
              revert hr
              simp only [show (TableTest.bothTable.entry TableTest.key).Routes
                = [TableTest.route TableTest.hostname1, TableTest.route TableTest.hostname2]
                from by decide, List.mem_cons, List.mem_singleton, List.not_mem_nil, or_false]
              exact id
            refine ⟨r, ?_, rfl, rfl⟩
            rcases hr2 with rfl | rfl <;> decide),
   ((SetRoutes_diff TableTest.bothTable TableTest.key _ _ hnewer).2
      (fun hsame => by
        obtain ⟨r2, hr2, hh, _⟩ := hsame.2 (TableTest.route TableTest.hostname3) (by decide)
        have hr3 : r2 = TableTest.route TableTest.hostname1
            ∨ r2 = TableTest.route TableTest.hostname2 := by
          revert hr2
          simp only [show (TableTest.bothTable.entry TableTest.key).Routes
            = [TableTest.route TableTest.hostname1, TableTest.route TableTest.hostname2]
            from by decide, List.mem_cons, List.mem_singleton, List.not_mem_nil, or_false]
          exact id
        rcases hr3 with rfl | rfl <;> exact absurd hh (by decide))).1,
   ((SetRoutes_diff TableTest.bothTable TableTest.key _ _ hnewer).2
      (fun hsame => by
        obtain ⟨r2, hr2, _, hu⟩ :=
          hsame.2 (TableTest.routeWithService TableTest.hostname1) (by decide)
        have hr3 : r2 = TableTest.route TableTest.hostname1
            ∨ r2 = TableTest.route TableTest.hostname2 := by
          revert hr2
          simp only [show (TableTest.bothTable.entry TableTest.key).Routes
            = [TableTest.route TableTest.hostname1, TableTest.route TableTest.hostname2]
            from by decide, List.mem_cons, List.mem_singleton, List.not_mem_nil, or_false]
          exact id
        rcases hr3 with rfl | rfl <;> exact absurd hu (by decide))).2.2
      (by
        intro r hr
        have hr2 : r = TableTest.route TableTest.hostname1
            ∨ r = TableTest.route TableTest.hostname2 := by
          revert hr
          simp only [show (TableTest.bothTable.entry TableTest.key).Routes
            = [TableTest.route TableTest.hostname1, TableTest.route TableTest.hostname2]
            from by decide, List.mem_cons, List.mem_singleton, List.not_mem_nil, or_false]
          exact id
        rcases hr2 with rfl | rfl <;> decide)⟩

/-- C10: `AddEndpoint(key, e)` on a key holding routes R. If the key stores no endpoint
whose instance identifier is that of `e`, the registrations are one message for
every (route of R, `e`), there is no unregistration, and `e` is stored afterwards.
If an endpoint with that instance identifier is stored, be it `e` itself under any
tag or its twin with the opposite evacuating flag, nothing is emitted. -/
theorem AddEndpoint_registers_new_instance (t : NATSRoutingTable) (key : RoutingKey)
    (e : Endpoint) :
    ((∀ x ∈ (t.entry key).Endpoints, x.InstanceGuid ≠ e.InstanceGuid) →
        List.Perm (t.AddEndpoint key e).2.RegistrationMessages
            ((t.entry key).Routes.map (fun r => RegistryMessageFor e r))
        ∧ (t.AddEndpoint key e).2.UnregistrationMessages = []
        ∧ e ∈ ((t.AddEndpoint key e).1.entry key).Endpoints)
    ∧ ((∃ x ∈ (t.entry key).Endpoints, x.InstanceGuid = e.InstanceGuid) →
        (t.AddEndpoint key e).2 = MessagesToEmit.zero) := by
  constructor
  · intro hnew
    have hfind : (t.entry key).Endpoints.find? (Endpoint.sameKey e) = none := by
      rw [List.find?_eq_none]
      intro x hx hk
      simp only [Endpoint.sameKey, Bool.and_eq_true, beq_iff_eq] at hk
      exact hnew x hx hk.1.symm
    have hany : (t.entry key).Endpoints.any (Endpoint.sameInstance e) = false := by
      rw [Bool.eq_false_iff]
      intro hh
      obtain ⟨x, hx, hi⟩ := List.any_eq_true.mp hh
      simp only [Endpoint.sameInstance, beq_iff_eq] at hi
      exact hnew x hx hi.symm
    have hanyk : (t.entry key).Endpoints.any (Endpoint.sameKey e) = false := by
      rw [Bool.eq_false_iff]
      intro hh
      obtain ⟨x, hx, hk⟩ := List.any_eq_true.mp hh
      simp only [Endpoint.sameKey, Bool.and_eq_true, beq_iff_eq] at hk
      exact hnew x hx hk.1.symm
    unfold NATSRoutingTable.AddEndpoint
    simp only [hfind, hany, Bool.false_eq_true, if_false, entry_setEntry_same]
    refine ⟨List.Perm.refl _, rfl, ?_⟩
    simp [upsertEndpoint, hanyk]
  · rintro ⟨x, hx, hi⟩
    cases hfind : (t.entry key).Endpoints.find? (Endpoint.sameKey e) with
    | some stored =>
      unfold NATSRoutingTable.AddEndpoint
      simp only [hfind]
      split <;> rfl
    | none =>
      have hany : (t.entry key).Endpoints.any (Endpoint.sameInstance e) = true := by
        rw [List.any_eq_true]
        exact ⟨x, hx, by simp [Endpoint.sameInstance, hi]⟩
      unfold NATSRoutingTable.AddEndpoint
      simp only [hfind, hany, if_true]

/-- C10, on the table of the tests: `endpoint3` is registered for both hostnames, the
evacuating twin of `endpoint1` emits nothing. -/
theorem AddEndpoint_registers_new_instance_witness :
    List.Perm (TableTest.bothTable.AddEndpoint TableTest.key TableTest.endpoint3).2.RegistrationMessages
        ((TableTest.bothTable.entry TableTest.key).Routes.map
          (fun r => RegistryMessageFor TableTest.endpoint3 r))
    ∧ (TableTest.bothTable.AddEndpoint TableTest.key TableTest.evacuating1).2
        = MessagesToEmit.zero :=
  ⟨((AddEndpoint_registers_new_instance TableTest.bothTable TableTest.key
      TableTest.endpoint3).1 (by decide)).1,
   (AddEndpoint_registers_new_instance TableTest.bothTable TableTest.key
      TableTest.evacuating1).2 ⟨TableTest.endpoint1, by decide, by decide⟩⟩

/-- C11: `RemoveEndpoint(key, e)` on a key holding routes R, where `stored` is the
endpoint stored under the key of `e` (instance identifier, evacuating flag). If the
tag of `e` is strictly older than the tag of `stored`, nothing is emitted and the
table is unchanged. If the twin of `e` is stored, nothing is emitted. Otherwise no
registration is emitted and the unregistrations are one message for every (route
of R, the removed endpoint), whatever other instances the key holds; the removed
endpoint is `stored`, whose messages are those of `e` when both have the same
address. -/
theorem RemoveEndpoint_unregisters (t : NATSRoutingTable) (key : RoutingKey)
    (e stored : Endpoint)
    (hstored : (t.entry key).Endpoints.find? (Endpoint.sameKey e) = some stored) :
    ((∃ tg st, e.ModificationTag = some tg ∧ stored.ModificationTag = some st
          ∧ tg.Epoch = st.Epoch ∧ tg.Index < st.Index) →
        t.RemoveEndpoint key e = (t, MessagesToEmit.zero))
    ∧ ((∃ x ∈ (t.entry key).Endpoints,
          x.InstanceGuid = e.InstanceGuid ∧ x.Evacuating ≠ e.Evacuating) →
        (t.RemoveEndpoint key e).2 = MessagesToEmit.zero)
    ∧ ((∀ tg st, e.ModificationTag = some tg → stored.ModificationTag = some st →
          tg.Epoch = st.Epoch → st.Index ≤ tg.Index) →
       (∀ x ∈ (t.entry key).Endpoints,
          x.InstanceGuid = e.InstanceGuid → x.Evacuating = e.Evacuating) →
        (t.RemoveEndpoint key e).2.RegistrationMessages = []
        ∧ List.Perm (t.RemoveEndpoint key e).2.UnregistrationMessages
            ((t.entry key).Routes.map (fun r => RegistryMessageFor stored r))
        ∧ (stored.Host = e.Host → stored.Port = e.Port →
            List.Perm (t.RemoveEndpoint key e).2.UnregistrationMessages
              ((t.entry key).Routes.map (fun r => RegistryMessageFor e r)))) := by
  refine ⟨?_, ?_, ?_⟩
  · rintro ⟨tg, st, htg, hst, he, hi⟩
    have h : strictlyOlder e.ModificationTag stored.ModificationTag = true := by
      rw [htg, hst]
      exact (strictlyOlder_some tg st).mpr ⟨he, hi⟩
    unfold NATSRoutingTable.RemoveEndpoint
    simp only [hstored, h, if_true]
  · rintro ⟨x, hx, hi, hev⟩
    have hany : ((t.entry key).Endpoints.filter (fun y => !Endpoint.sameKey e y)).any
        (Endpoint.sameInstance e) = true := by
      rw [List.any_eq_true]
      refine ⟨x, List.mem_filter.mpr ⟨hx, ?_⟩, by simp [Endpoint.sameInstance, hi]⟩
      simp only [Endpoint.sameKey, Bool.not_eq_true', Bool.and_eq_false_iff, beq_eq_false_iff_ne]
      exact Or.inr (fun h => hev h.symm)
    unfold NATSRoutingTable.RemoveEndpoint
    simp only [hstored, hany, if_true]
    split <;> rfl
  · intro hfresh hnotwin
    have h := strictlyOlder_eq_false e.ModificationTag stored.ModificationTag hfresh
    have hany : ((t.entry key).Endpoints.filter (fun y => !Endpoint.sameKey e y)).any
        (Endpoint.sameInstance e) = false := by
      rw [Bool.eq_false_iff]
      intro hh
      obtain ⟨x, hx, hs⟩ := List.any_eq_true.mp hh
      obtain ⟨hx1, hx2⟩ := List.mem_filter.mp hx
      simp only [Endpoint.sameInstance, beq_iff_eq] at hs
      have hev := hnotwin x hx1 hs.symm
      simp [Endpoint.sameKey, hs, hev] at hx2
    unfold NATSRoutingTable.RemoveEndpoint
    simp only [hstored, h, hany, Bool.false_eq_true, if_false]
    refine ⟨rfl, List.Perm.refl _, ?_⟩
    intro hh hp
    have : (fun r => RegistryMessageFor stored r) = (fun r => RegistryMessageFor e r) := by
      funext r
      simp [RegistryMessageFor, hh, hp]
    show List.Perm ((t.entry key).Routes.map (RegistryMessageFor stored)) _
    exact List.Perm.of_eq (congrArg (fun f => (t.entry key).Routes.map f) this)

/-- C11, on the tables of the tests: an older tag and a stored twin emit nothing; the
removal of `endpoint2` while `endpoint1` remains unregisters both hostnames. -/
theorem RemoveEndpoint_unregisters_witness :
    TableTest.bothTable.RemoveEndpoint TableTest.key
        { TableTest.endpoint2 with ModificationTag := some TableTest.olderTag }
      = (TableTest.bothTable, MessagesToEmit.zero)
    ∧ ((TableTest.bothTable.AddEndpoint TableTest.key TableTest.evacuating1).1.RemoveEndpoint
        TableTest.key TableTest.endpoint1).2 = MessagesToEmit.zero
    ∧ List.Perm
        (TableTest.bothTable.RemoveEndpoint TableTest.key TableTest.endpoint2).2.UnregistrationMessages
        ((TableTest.bothTable.entry TableTest.key).Routes.map
          (fun r => RegistryMessageFor TableTest.endpoint2 r)) :=
  ⟨(RemoveEndpoint_unregisters TableTest.bothTable TableTest.key
      { TableTest.endpoint2 with ModificationTag := some TableTest.olderTag }
      TableTest.endpoint2 (by decide)).1
      ⟨TableTest.olderTag, TableTest.currentTag, rfl, rfl, by decide, by decide⟩,
   (RemoveEndpoint_unregisters (TableTest.bothTable.AddEndpoint TableTest.key
      TableTest.evacuating1).1 TableTest.key TableTest.endpoint1 TableTest.endpoint1
      (by decide)).2.1 ⟨TableTest.evacuating1, by decide, by decide, by decide⟩,
   ((RemoveEndpoint_unregisters TableTest.bothTable TableTest.key TableTest.endpoint2
      TableTest.endpoint2 (by decide)).2.2
      (fun tg st h1 h2 _ => by
        have e1 : TableTest.currentTag = tg := Option.some.inj h1
        have e2 : TableTest.currentTag = st := Option.some.inj h2
        rw [← e1, ← e2])
      (by decide)).2.1⟩

/-! ### Swap and MessagesToEmit -/

theorem messagesFor_nil_left (endpoints : List Endpoint) : messagesFor [] endpoints = [] := by
  induction endpoints with
  | nil => rfl
  | cons e rest ih =>
    simp only [messagesFor, List.flatMap_cons, List.map_nil, List.nil_append] at ih ⊢
    exact ih

theorem messagesFor_nil_right (routes : List Route) : messagesFor routes [] = [] := rfl

theorem messagesFor_oneSided (e : RoutableEndpoints) (h : e.OneSided) :
    messagesFor e.Routes e.Endpoints = [] := by
  rcases h with h | h
  · rw [h, messagesFor_nil_left]
  · rw [h, messagesFor_nil_right]

theorem entry_of_not_mem_keys (t : NATSRoutingTable) (key : RoutingKey) (h : key ∉ t.keys) :
    t.entry key = RoutableEndpoints.empty := by
  have hnone : t.entries.find? (fun p => decide (p.1 = key)) = none := by
    rw [List.find?_eq_none]
    intro x hx hk
    exact h (List.mem_map.mpr ⟨x, hx, by simpa using hk⟩)
  simp only [NATSRoutingTable.entry, hnone]

theorem foldl_merge_registrations (l : List MessagesToEmit) (acc : MessagesToEmit) :
    (l.foldl MessagesToEmit.merge acc).RegistrationMessages
      = acc.RegistrationMessages ++ l.flatMap (fun m => m.RegistrationMessages) := by
  induction l generalizing acc with
  | nil => simp
  | cons m rest ih =>
    simp only [List.foldl_cons, List.flatMap_cons, ih]
    simp [MessagesToEmit.merge, List.append_assoc]

theorem foldl_merge_unregistrations (l : List MessagesToEmit) (acc : MessagesToEmit) :
    (l.foldl MessagesToEmit.merge acc).UnregistrationMessages
      = acc.UnregistrationMessages ++ l.flatMap (fun m => m.UnregistrationMessages) := by
  induction l generalizing acc with
  | nil => simp
  | cons m rest ih =>
    simp only [List.foldl_cons, List.flatMap_cons, ih]
    simp [MessagesToEmit.merge, List.append_assoc]

/-- The messages of a `Swap` are those emitted for the keys of either table. -/
theorem Swap_messages (t new : NATSRoutingTable) (fresh : DomainSet) :
    (t.Swap new fresh).2.RegistrationMessages
        = (swapKeys t new).flatMap
            (fun k => (swapEntry fresh (t.entry k) (new.entry k)).2.RegistrationMessages)
    ∧ (t.Swap new fresh).2.UnregistrationMessages
        = (swapKeys t new).flatMap
            (fun k => (swapEntry fresh (t.entry k) (new.entry k)).2.UnregistrationMessages) := by
  constructor
  · simp only [NATSRoutingTable.Swap, foldl_merge_registrations, List.flatMap_map]
    simp [MessagesToEmit.zero, Function.comp_def]
  · simp only [NATSRoutingTable.Swap, foldl_merge_unregistrations, List.flatMap_map]
    simp [MessagesToEmit.zero, Function.comp_def]

theorem find?_filterMap_key (ks : List RoutingKey) (g : RoutingKey → RoutableEndpoints)
    (key : RoutingKey) :
    (ks.filterMap (fun k =>
        if (g k).Routes.isEmpty && (g k).Endpoints.isEmpty then none else some (k, g k))).find?
        (fun p => decide (p.1 = key))
      = if key ∈ ks ∧ ¬ ((g key).Routes.isEmpty && (g key).Endpoints.isEmpty) = true
          then some (key, g key) else none := by
  induction ks with
  | nil => simp
  | cons k rest ih =>
    by_cases hk : k = key
    · subst hk
      by_cases he : ((g k).Routes.isEmpty && (g k).Endpoints.isEmpty) = true
      · rw [List.filterMap_cons_none (by simp [he]), ih]
        simp [he]
      · rw [List.filterMap_cons_some (b := (k, g k)) (by simp [he])]
        simp [he]
    · have hmem : (key ∈ k :: rest) ↔ key ∈ rest := by
        simp [List.mem_cons, Ne.symm hk]
      by_cases he : ((g k).Routes.isEmpty && (g k).Endpoints.isEmpty) = true
      · rw [List.filterMap_cons_none (by simp [he]), ih]
        simp only [hmem]
      · rw [List.filterMap_cons_some (b := (k, g k)) (by simp [he]),
          List.find?_cons_of_neg _ (by simpa using hk), ih]
        simp only [hmem]

theorem swapEntry_empty (fresh : DomainSet) :
    (swapEntry fresh RoutableEndpoints.empty RoutableEndpoints.empty).1
      = RoutableEndpoints.empty := by
  simp [swapEntry, staleEntry, RoutableEndpoints.empty]

theorem mem_swapKeys (t new : NATSRoutingTable) (key : RoutingKey) :
    key ∈ swapKeys t new ↔ key ∈ new.keys ∨ key ∈ t.keys := by
  simp [swapKeys]

/-- The entry of a key after a `Swap`: the one `swapEntry` gives for the key, unless
that entry has neither route nor endpoint. -/
theorem Swap_entry (t new : NATSRoutingTable) (fresh : DomainSet) (key : RoutingKey) :
    (t.Swap new fresh).1.entry key
      = if (swapEntry fresh (t.entry key) (new.entry key)).1.Routes.isEmpty
            && (swapEntry fresh (t.entry key) (new.entry key)).1.Endpoints.isEmpty
          then RoutableEndpoints.empty
          else (swapEntry fresh (t.entry key) (new.entry key)).1 := by
  have hfind := find?_filterMap_key (swapKeys t new)
    (fun k => (swapEntry fresh (t.entry k) (new.entry k)).1) key
  simp only [NATSRoutingTable.entry, NATSRoutingTable.Swap] at hfind ⊢
  rw [hfind]
  by_cases he : ((swapEntry fresh (t.entry key) (new.entry key)).1.Routes.isEmpty
      && (swapEntry fresh (t.entry key) (new.entry key)).1.Endpoints.isEmpty) = true
  · simp only [NATSRoutingTable.entry] at he
    simp [he]
  · by_cases hmem : key ∈ swapKeys t new
    · simp only [NATSRoutingTable.entry] at he
      simp [he, hmem]
    · exfalso
      rw [mem_swapKeys] at hmem
      have h1 := entry_of_not_mem_keys t key (fun h => hmem (Or.inr h))
      have h2 := entry_of_not_mem_keys new key (fun h => hmem (Or.inl h))
      rw [h1, h2, swapEntry_empty] at he
      exact he (by simp [RoutableEndpoints.empty])

theorem staleEntry_iff (fresh : DomainSet) (old : RoutableEndpoints) :
    staleEntry fresh old = true
      ↔ old.Endpoints ≠ [] ∧ ∀ e ∈ old.Endpoints, e.Domain ∉ fresh := by
  simp [staleEntry, List.isEmpty_iff]

theorem swapEntry_stale (fresh : DomainSet) (old new : RoutableEndpoints)
    (h : staleEntry fresh old = true) :
    swapEntry fresh old new
      = (mergeStale old new,
         { MessagesToEmit.zero with
           RegistrationMessages :=
             messagesFor (mergeStale old new).Routes (mergeStale old new).Endpoints }) := by
  simp [swapEntry, h]

theorem swapEntry_fresh (fresh : DomainSet) (old new : RoutableEndpoints)
    (h : staleEntry fresh old = false) :
    swapEntry fresh old new
      = (new,
         { MessagesToEmit.zero with
           RegistrationMessages := messagesFor new.Routes new.Endpoints
           UnregistrationMessages := swapUnregistrations old new }) := by
  simp [swapEntry, h]

theorem mergeStale_endpoints_ne_nil (old new : RoutableEndpoints) (h : old.Endpoints ≠ []) :
    (mergeStale old new).Endpoints ≠ [] := by
  intro hnil
  simp only [mergeStale, List.append_eq_nil] at hnil
  obtain ⟨h1, h2⟩ := hnil
  obtain ⟨e, he⟩ := List.exists_mem_of_ne_nil _ h
  have : e ∈ old.Endpoints.filter (fun e => !new.Endpoints.any (Endpoint.sameKey e)) := by
    rw [List.mem_filter]
    exact ⟨he, by simp [h1]⟩
  rw [h2] at this
  exact List.not_mem_nil _ this

theorem sameKey_self (e : Endpoint) : Endpoint.sameKey e e = true := by
  simp [Endpoint.sameKey]

/-- Merging the same new entry a second time changes nothing. -/
theorem mergeStale_idem (old new : RoutableEndpoints) :
    mergeStale (mergeStale old new) new = mergeStale old new := by
  have hr : (new.Routes ++ old.Routes.filter
        (fun r => !hasHostname new.Routes r.Hostname)).filter
        (fun r => !hasHostname new.Routes r.Hostname)
      = old.Routes.filter (fun r => !hasHostname new.Routes r.Hostname) := by
    rw [List.filter_append, List.filter_filter]
    have h1 : new.Routes.filter (fun r => !hasHostname new.Routes r.Hostname) = [] := by
      rw [List.filter_eq_nil_iff]
      intro r hr
      have : hasHostname new.Routes r.Hostname = true :=
        (hasHostname_iff _ _).mpr (List.mem_map.mpr ⟨r, hr, rfl⟩)
      simp [this]
    rw [h1, List.nil_append]
    apply List.filter_congr
    intro r _
    simp
  have he : (new.Endpoints ++ old.Endpoints.filter
        (fun e => !new.Endpoints.any (Endpoint.sameKey e))).filter
        (fun e => !new.Endpoints.any (Endpoint.sameKey e))
      = old.Endpoints.filter (fun e => !new.Endpoints.any (Endpoint.sameKey e)) := by
    rw [List.filter_append, List.filter_filter]
    have h1 : new.Endpoints.filter (fun e => !new.Endpoints.any (Endpoint.sameKey e)) = [] := by
      rw [List.filter_eq_nil_iff]
      intro e he
      have : new.Endpoints.any (Endpoint.sameKey e) = true :=
        List.any_eq_true.mpr ⟨e, he, sameKey_self e⟩
      simp [this]
    rw [h1, List.nil_append]
    apply List.filter_congr
    intro e _
    simp
  unfold mergeStale
  simp only [hr, he]
  cases new.ModificationTag <;> rfl

/-- C12: `Swap(newTable, freshDomains)` and a routing key none of whose stored endpoints
is of a fresh domain. The messages of the Swap are those emitted for the keys of
either table. No unregistration is emitted for the key. If the key has
stored endpoints (so that its domain is known and stale), the live table afterwards
holds, for the key, the routes and endpoints of `newTable` and the old routes and
endpoints that `newTable` lacks; the registrations emitted for the key are one
message for every (route, endpoint) pair of that entry; and when the endpoints of
`newTable` for the key are stale too, the same Swap repeated emits the same
messages for the key. -/
theorem Swap_stale_domain (t new : NATSRoutingTable) (fresh : DomainSet) (key : RoutingKey)
    (hstale : ∀ e ∈ (t.entry key).Endpoints, e.Domain ∉ fresh) :
    ((t.Swap new fresh).2.RegistrationMessages
        = (swapKeys t new).flatMap
            (fun k => (swapEntry fresh (t.entry k) (new.entry k)).2.RegistrationMessages)
      ∧ (t.Swap new fresh).2.UnregistrationMessages
        = (swapKeys t new).flatMap
            (fun k => (swapEntry fresh (t.entry k) (new.entry k)).2.UnregistrationMessages))
    ∧ (swapEntry fresh (t.entry key) (new.entry key)).2.UnregistrationMessages = []
    ∧ ((t.entry key).Endpoints ≠ [] →
        (∀ r ∈ (new.entry key).Routes, r ∈ ((t.Swap new fresh).1.entry key).Routes)
        ∧ (∀ r ∈ (t.entry key).Routes,
            r.Hostname ∉ (new.entry key).Routes.map Route.Hostname →
            r ∈ ((t.Swap new fresh).1.entry key).Routes)
        ∧ (∀ e ∈ (new.entry key).Endpoints, e ∈ ((t.Swap new fresh).1.entry key).Endpoints)
        ∧ (∀ e ∈ (t.entry key).Endpoints,
            (∀ x ∈ (new.entry key).Endpoints,
              ¬ (x.InstanceGuid = e.InstanceGuid ∧ x.Evacuating = e.Evacuating)) →
            e ∈ ((t.Swap new fresh).1.entry key).Endpoints)
        ∧ List.Perm (swapEntry fresh (t.entry key) (new.entry key)).2.RegistrationMessages
            ((List.product ((t.Swap new fresh).1.entry key).Endpoints
                ((t.Swap new fresh).1.entry key).Routes).map
              (fun p => RegistryMessageFor p.1 p.2))
        ∧ ((∀ e ∈ (new.entry key).Endpoints, e.Domain ∉ fresh) →
            (swapEntry fresh ((t.Swap new fresh).1.entry key) (new.entry key)).2
              = (swapEntry fresh (t.entry key) (new.entry key)).2)) := by
  refine ⟨Swap_messages t new fresh, ?_, ?_⟩
  · by_cases hs : staleEntry fresh (t.entry key) = true
    · rw [swapEntry_stale _ _ _ hs]
      rfl
    · have hnil : (t.entry key).Endpoints = [] := by
        by_contra hne
        exact hs ((staleEntry_iff _ _).mpr ⟨hne, hstale⟩)
      rw [swapEntry_fresh _ _ _ (by simpa using hs)]
      simp [swapUnregistrations, hnil]
  · intro hne
    have hs : staleEntry fresh (t.entry key) = true := (staleEntry_iff _ _).mpr ⟨hne, hstale⟩
    have hlive : (t.Swap new fresh).1.entry key = mergeStale (t.entry key) (new.entry key) := by
      rw [Swap_entry, swapEntry_stale _ _ _ hs]
      have := mergeStale_endpoints_ne_nil (t.entry key) (new.entry key) hne
      simp [this]
    rw [hlive, swapEntry_stale _ _ _ hs]
    refine ⟨?_, ?_, ?_, ?_, ?_, ?_⟩
    · intro r hr
      simp [mergeStale, hr]
    · intro r hr hmiss
      have : hasHostname (new.entry key).Routes r.Hostname = false := by
        rw [Bool.eq_false_iff]
        exact fun hh => hmiss ((hasHostname_iff _ _).mp hh)
      simp [mergeStale, hr, this]
    · intro e he
      simp [mergeStale, he]
    · intro e he hmiss
      have : (new.entry key).Endpoints.any (Endpoint.sameKey e) = false := by
        rw [Bool.eq_false_iff]
        intro hh
        obtain ⟨x, hx, hk⟩ := List.any_eq_true.mp hh
        simp only [Endpoint.sameKey, Bool.and_eq_true, beq_iff_eq] at hk
        exact hmiss x hx ⟨hk.1.symm, hk.2.symm⟩
      simp [mergeStale, he, this]
    · show List.Perm (messagesFor _ _) _
      rw [messagesFor_eq_product]
    · intro hnew
      have hs2 : staleEntry fresh (mergeStale (t.entry key) (new.entry key)) = true := by
        rw [staleEntry_iff]
        refine ⟨mergeStale_endpoints_ne_nil _ _ hne, ?_⟩
        intro e he
        simp only [mergeStale, List.mem_append, List.mem_filter] at he
        rcases he with he | ⟨he, _⟩
        · exact hnew e he
        · exact hstale e he
      rw [swapEntry_stale _ _ _ hs2, mergeStale_idem]

/-- C12, on the tests "when the routing key disappears entirely" with a domain that is
not fresh: the Swap with the empty temp table unregisters nothing, keeps hostname 1
for the key, and repeated emits the same messages. -/
theorem Swap_stale_domain_witness :
    (swapEntry TableTest.noFreshDomains (TableTest.swappedTable.entry TableTest.key)
        (TableTest.emptyTemp.entry TableTest.key)).2.UnregistrationMessages = []
    ∧ TableTest.route TableTest.hostname1
        ∈ ((TableTest.swappedTable.Swap TableTest.emptyTemp TableTest.noFreshDomains).1.entry
            TableTest.key).Routes
    ∧ (swapEntry TableTest.noFreshDomains
        ((TableTest.swappedTable.Swap TableTest.emptyTemp TableTest.noFreshDomains).1.entry
          TableTest.key) (TableTest.emptyTemp.entry TableTest.key)).2
      = (swapEntry TableTest.noFreshDomains (TableTest.swappedTable.entry TableTest.key)
          (TableTest.emptyTemp.entry TableTest.key)).2 :=
  ⟨(Swap_stale_domain TableTest.swappedTable TableTest.emptyTemp TableTest.noFreshDomains
      TableTest.key (by decide)).2.1,
   ((Swap_stale_domain TableTest.swappedTable TableTest.emptyTemp TableTest.noFreshDomains
      TableTest.key (by decide)).2.2 (by decide)).2.1
      (TableTest.route TableTest.hostname1) (by decide) (by decide),
   ((Swap_stale_domain TableTest.swappedTable TableTest.emptyTemp TableTest.noFreshDomains
      TableTest.key (by decide)).2.2 (by decide)).2.2.2.2.2 (by decide)⟩

theorem hasHostname_eq_decide (routes : List Route) (hostname : String) :
    hasHostname routes hostname = decide (hostname ∈ routes.map Route.Hostname) :=
  Bool.eq_iff_iff.mpr ((hasHostname_iff routes hostname).trans decide_eq_true_iff.symm)

/-- The unregistrations of a fresh Swap, as a selection among the old pairs: an old
(endpoint, route) pair is unregistered unless the new entry has both the hostname
of the route and an endpoint of the instance. -/
theorem swapUnregistrations_eq (old new : RoutableEndpoints) :
    swapUnregistrations old new
      = ((List.product old.Endpoints old.Routes).filter (fun p =>
          !(decide (p.2.Hostname ∈ new.Routes.map Route.Hostname)
            && new.Endpoints.any (fun x => decide (x.InstanceGuid = p.1.InstanceGuid))))).map
          (fun p => RegistryMessageFor p.1 p.2) := by
  unfold swapUnregistrations
  induction old.Endpoints with
  | nil => rfl
  | cons e rest ih =>
    have hpc : (e :: rest).product old.Routes
        = old.Routes.map (Prod.mk e) ++ rest.product old.Routes := List.product_cons _ _ _
    rw [List.flatMap_cons, ih, hpc, List.filter_append, List.map_append]
    congr 1
    rw [List.filter_map, List.map_map]
    have hinst : new.Endpoints.any (Endpoint.sameInstance e)
        = new.Endpoints.any (fun x => decide (x.InstanceGuid = e.InstanceGuid)) := by
      congr 1
      funext x
      simp only [Endpoint.sameInstance]
      by_cases hx : x.InstanceGuid = e.InstanceGuid
      · simp [hx]
      · simp [hx, Ne.symm hx]
    by_cases hp : new.Endpoints.any (fun x => decide (x.InstanceGuid = e.InstanceGuid)) = true
    · rw [hinst]
      simp only [hp, if_true]
      congr 1
      apply List.filter_congr
      intro r _
      show (!hasHostname new.Routes r.Hostname)
        = !(decide (r.Hostname ∈ new.Routes.map Route.Hostname)
            && new.Endpoints.any (fun x => decide (x.InstanceGuid = e.InstanceGuid)))
      rw [hp, Bool.and_true, hasHostname_eq_decide]
    · rw [hinst]
      simp only [hp, if_false, Bool.false_eq_true]
      have hp2 : new.Endpoints.any (fun x => decide (x.InstanceGuid = e.InstanceGuid))
          = false := by simpa using hp
      congr 1
      symm
      rw [List.filter_eq_self]
      intro r _
      show (!(decide (r.Hostname ∈ new.Routes.map Route.Hostname)
            && new.Endpoints.any (fun x => decide (x.InstanceGuid = e.InstanceGuid)))) = true
      rw [hp2, Bool.and_false]
      rfl

/-- C13: `Swap(newTable, freshDomains)` and a routing key all of whose stored endpoints
are of a fresh domain. The messages of the Swap are those emitted for the keys of
either table. The live table afterwards holds for the key the routes and endpoints
of `newTable`. The registrations emitted for the key are one message for every
(route, endpoint) pair of the entry of `newTable`, every stored endpoint counted,
whether the pair was registered before or not. The unregistrations are one message
for every old pair for which `newTable` lacks the hostname or lacks an endpoint of
the instance. A key absent from `newTable` gets no registration and the
unregistrations of all its old pairs. -/
theorem Swap_fresh_domain (t new : NATSRoutingTable) (fresh : DomainSet) (key : RoutingKey)
    (hfresh : ∀ e ∈ (t.entry key).Endpoints, e.Domain ∈ fresh) :
    ((t.Swap new fresh).2.RegistrationMessages
        = (swapKeys t new).flatMap
            (fun k => (swapEntry fresh (t.entry k) (new.entry k)).2.RegistrationMessages)
      ∧ (t.Swap new fresh).2.UnregistrationMessages
        = (swapKeys t new).flatMap
            (fun k => (swapEntry fresh (t.entry k) (new.entry k)).2.UnregistrationMessages))
    ∧ ((t.Swap new fresh).1.entry key).Routes = (new.entry key).Routes
    ∧ ((t.Swap new fresh).1.entry key).Endpoints = (new.entry key).Endpoints
    ∧ List.Perm (swapEntry fresh (t.entry key) (new.entry key)).2.RegistrationMessages
        ((List.product (new.entry key).Endpoints (new.entry key).Routes).map
          (fun p => RegistryMessageFor p.1 p.2))
    ∧ List.Perm (swapEntry fresh (t.entry key) (new.entry key)).2.UnregistrationMessages
        (((List.product (t.entry key).Endpoints (t.entry key).Routes).filter (fun p =>
            !(decide (p.2.Hostname ∈ (new.entry key).Routes.map Route.Hostname)
              && (new.entry key).Endpoints.any
                  (fun x => decide (x.InstanceGuid = p.1.InstanceGuid))))).map
          (fun p => RegistryMessageFor p.1 p.2))
    ∧ (key ∉ new.keys →
        (swapEntry fresh (t.entry key) (new.entry key)).2.RegistrationMessages = []
        ∧ List.Perm (swapEntry fresh (t.entry key) (new.entry key)).2.UnregistrationMessages
            ((List.product (t.entry key).Endpoints (t.entry key).Routes).map
              (fun p => RegistryMessageFor p.1 p.2))) := by
  have hs : staleEntry fresh (t.entry key) = false := by
    rw [Bool.eq_false_iff]
    intro h
    obtain ⟨hne, hall⟩ := (staleEntry_iff _ _).mp h
    obtain ⟨e, he⟩ := List.exists_mem_of_ne_nil _ hne
    exact hall e he (hfresh e he)
  have hentry := Swap_entry t new fresh key
  rw [swapEntry_fresh _ _ _ hs] at hentry ⊢
  dsimp only at hentry
  refine ⟨Swap_messages t new fresh, ?_, ?_, ?_, ?_, ?_⟩
  · rw [hentry]
    by_cases he : ((new.entry key).Routes.isEmpty && (new.entry key).Endpoints.isEmpty) = true
    · have h2 := he
      simp only [Bool.and_eq_true, List.isEmpty_iff] at h2
      rw [if_pos he, h2.1]
      rfl
    · rw [if_neg he]
  · rw [hentry]
    by_cases he : ((new.entry key).Routes.isEmpty && (new.entry key).Endpoints.isEmpty) = true
    · have h2 := he
      simp only [Bool.and_eq_true, List.isEmpty_iff] at h2
      rw [if_pos he, h2.2]
      rfl
    · rw [if_neg he]
  · show List.Perm (messagesFor _ _) _
    rw [messagesFor_eq_product]
  · show List.Perm (swapUnregistrations _ _) _
    rw [swapUnregistrations_eq]
  · intro habsent
    have hnew := entry_of_not_mem_keys new key habsent
    refine ⟨?_, ?_⟩
    · show messagesFor _ _ = []
      rw [hnew]
      rfl
    · show List.Perm (swapUnregistrations _ _) _
      rw [swapUnregistrations_eq, hnew]
      simp [RoutableEndpoints.empty]

/-- C13, on the tests with a fresh domain: the key that disappears entirely gets no
registration, and the key that loses hostname 2 and `endpoint2` keeps its entry of
the new table. -/
theorem Swap_fresh_domain_witness :
    (swapEntry TableTest.domains (TableTest.swappedTable.entry TableTest.key)
        (TableTest.emptyTemp.entry TableTest.key)).2.RegistrationMessages = []
    ∧ ((TableTest.swappedTable.Swap
          (TableTest.temp [TableTest.route TableTest.hostname1] [TableTest.endpoint1])
          TableTest.domains).1.entry TableTest.key).Routes
        = ((TableTest.temp [TableTest.route TableTest.hostname1]
            [TableTest.endpoint1]).entry TableTest.key).Routes :=
  ⟨((Swap_fresh_domain TableTest.swappedTable TableTest.emptyTemp TableTest.domains
      TableTest.key (by decide)).2.2.2.2.2 (by decide)).1,
   (Swap_fresh_domain TableTest.swappedTable
      (TableTest.temp [TableTest.route TableTest.hostname1] [TableTest.endpoint1])
      TableTest.domains TableTest.key (by decide)).2.1⟩

theorem swapUnregistrations_oneSided (old new : RoutableEndpoints) (h : old.OneSided) :
    swapUnregistrations old new = [] := by
  rw [swapUnregistrations_eq]
  rcases h with h | h
  · rw [h]
    have : List.product old.Endpoints ([] : List Route) = [] := by
      induction old.Endpoints with
      | nil => rfl
      | cons e rest ih =>
        have hpc : (e :: rest).product ([] : List Route)
            = ([] : List Route).map (Prod.mk e) ++ rest.product [] := List.product_cons _ _ _
        rw [hpc, ih]
        rfl
    rw [this]
    rfl
  · rw [h]
    rfl

theorem zero_of_lists_nil (m : MessagesToEmit) (h1 : m.RegistrationMessages = [])
    (h2 : m.UnregistrationMessages = []) (h3 : m.InternalRegistrationMessages = [])
    (h4 : m.InternalUnregistrationMessages = []) : m = MessagesToEmit.zero := by
  cases m
  simp only [MessagesToEmit.zero, MessagesToEmit.mk.injEq]
  exact ⟨h1, h2, h3, h4⟩

/-- C14: no emission without pairing. For a routing key whose entry has no route or no
endpoint both before and after the operation, `SetRoutes`, `RemoveRoutes`,
`AddEndpoint` and `RemoveEndpoint` on the key return the zero `MessagesToEmit`, and
`Swap` emits nothing for the key; an entry with no route or no endpoint contributes
nothing to `MessagesToEmit()`, which never holds an unregistration. -/
theorem no_emit_without_pairing (t new : NATSRoutingTable) (fresh : DomainSet)
    (key : RoutingKey) (routes : List Route) (tag : Option ModificationTag)
    (endpoint : Endpoint) :
    ((t.entry key).OneSided → ((t.SetRoutes key routes tag).1.entry key).OneSided →
        (t.SetRoutes key routes tag).2 = MessagesToEmit.zero)
    ∧ ((t.entry key).OneSided → (t.RemoveRoutes key tag).2 = MessagesToEmit.zero)
    ∧ ((t.entry key).OneSided → ((t.AddEndpoint key endpoint).1.entry key).OneSided →
        (t.AddEndpoint key endpoint).2 = MessagesToEmit.zero)
    ∧ ((t.entry key).OneSided → (t.RemoveEndpoint key endpoint).2 = MessagesToEmit.zero)
    ∧ ((t.entry key).OneSided → ((t.Swap new fresh).1.entry key).OneSided →
        (swapEntry fresh (t.entry key) (new.entry key)).2 = MessagesToEmit.zero)
    ∧ (∀ p ∈ t.entries, p.2.OneSided → messagesFor p.2.Routes p.2.Endpoints = [])
    ∧ t.MessagesToEmit.UnregistrationMessages = []
    ∧ ((∀ p ∈ t.entries, p.2.OneSided) → t.MessagesToEmit = MessagesToEmit.zero) := by
  refine ⟨?_, ?_, ?_, ?_, ?_, ?_, rfl, ?_⟩
  · intro hb ha
    unfold NATSRoutingTable.SetRoutes at ha ⊢
    by_cases hs : strictlyOlder tag (t.entry key).ModificationTag = true
    · simp only [hs, if_true]
    · simp only [hs, if_false, Bool.false_eq_true] at ha ⊢
      rcases hb with hb | hb
      · by_cases hE : (t.entry key).Endpoints = []
        · apply zero_of_lists_nil <;> simp [hE, messagesFor, MessagesToEmit.zero]
        · have hR : routes = [] := by
            rw [entry_setEntry_same] at ha
            have hne : ¬ ((routes.isEmpty && (t.entry key).Endpoints.isEmpty) = true) := by
              simp [List.isEmpty_iff, hE]
            rw [if_neg hne] at ha
            rcases ha with ha | ha
            · exact ha
            · exact absurd ha hE
          subst hR
          apply zero_of_lists_nil <;>
            simp [hb, sameRoutes, messagesFor_nil_left, MessagesToEmit.zero]
      · apply zero_of_lists_nil <;> simp [hb, messagesFor, MessagesToEmit.zero]
  · intro hb
    unfold NATSRoutingTable.RemoveRoutes
    by_cases hs : strictlyOlder tag (t.entry key).ModificationTag = true
    · simp only [hs, if_true]
    · simp only [hs, if_false, Bool.false_eq_true]
      apply zero_of_lists_nil <;> simp [messagesFor_oneSided _ hb, MessagesToEmit.zero]
  · intro hb ha
    cases hfind : (t.entry key).Endpoints.find? (Endpoint.sameKey endpoint) with
    | some stored =>
      unfold NATSRoutingTable.AddEndpoint
      simp only [hfind]
      split <;> rfl
    | none =>
      unfold NATSRoutingTable.AddEndpoint at ha ⊢
      simp only [hfind] at ha ⊢
      have hne : (upsertEndpoint (t.entry key).Endpoints endpoint) ≠ [] := by
        unfold upsertEndpoint
        split
        · rename_i hany
          obtain ⟨x, hx, _⟩ := List.any_eq_true.mp hany
          intro hnil
          have := List.map_eq_nil_iff.mp hnil
          rw [this] at hx
          exact List.not_mem_nil _ hx
        · simp
      have hR : (t.entry key).Routes = [] := by
        rw [entry_setEntry_same] at ha
        have hne2 : ¬ (((t.entry key).Routes.isEmpty
            && (upsertEndpoint (t.entry key).Endpoints endpoint).isEmpty) = true) := by
          simp [List.isEmpty_iff, hne]
        rw [if_neg hne2] at ha
        rcases ha with ha | ha
        · exact ha
        · exact absurd ha hne
      split
      · rfl
      · apply zero_of_lists_nil <;> simp [hR, MessagesToEmit.zero]
  · intro hb
    cases hfind : (t.entry key).Endpoints.find? (Endpoint.sameKey endpoint) with
    | none =>
      unfold NATSRoutingTable.RemoveEndpoint
      simp only [hfind]
    | some stored =>
      have hR : (t.entry key).Routes = [] := by
        rcases hb with hb | hb
        · exact hb
        · rw [hb] at hfind
          simp at hfind
      unfold NATSRoutingTable.RemoveEndpoint
      simp only [hfind]
      split
      · rfl
      · split
        · rfl
        · apply zero_of_lists_nil <;> simp [hR, MessagesToEmit.zero]
  · intro hb ha
    rw [Swap_entry] at ha
    by_cases hs : staleEntry fresh (t.entry key) = true
    · have hne := (staleEntry_iff _ _).mp hs
      rw [swapEntry_stale _ _ _ hs] at ha ⊢
      have hne2 := mergeStale_endpoints_ne_nil (t.entry key) (new.entry key) hne.1
      have hne3 : ¬ (((mergeStale (t.entry key) (new.entry key)).Routes.isEmpty
          && (mergeStale (t.entry key) (new.entry key)).Endpoints.isEmpty) = true) := by
        simp [List.isEmpty_iff, hne2]
      dsimp only at ha
      rw [if_neg hne3] at ha
      apply zero_of_lists_nil <;> simp [messagesFor_oneSided _ ha, MessagesToEmit.zero]
    · have hs2 : staleEntry fresh (t.entry key) = false := by simpa using hs
      rw [swapEntry_fresh _ _ _ hs2] at ha ⊢
      dsimp only at ha
      have hnew : (new.entry key).OneSided := by
        by_cases he : ((new.entry key).Routes.isEmpty
            && (new.entry key).Endpoints.isEmpty) = true
        · simp only [Bool.and_eq_true, List.isEmpty_iff] at he
          exact Or.inl he.1
        · rw [if_neg he] at ha
          exact ha
      apply zero_of_lists_nil <;>
        simp [messagesFor_oneSided _ hnew, swapUnregistrations_oneSided _ _ hb,
          MessagesToEmit.zero]
  · intro p _ hp
    exact messagesFor_oneSided p.2 hp
  · intro hall
    apply zero_of_lists_nil
    · show t.entries.flatMap (fun p => messagesFor p.2.Routes p.2.Endpoints) = []
      rw [List.flatMap_eq_nil_iff]
      intro p hp
      exact messagesFor_oneSided p.2 (hall p hp)
    · rfl
    · rfl
    · rfl

/-- C14, on the test tables with only routes and with only endpoints. -/
theorem no_emit_without_pairing_witness :
    (TableTest.routesOnlyTable.SetRoutes TableTest.key
        [TableTest.route TableTest.hostname1, TableTest.route TableTest.hostname3] none).2
      = MessagesToEmit.zero
    ∧ (TableTest.endpointsOnlyTable.AddEndpoint TableTest.key TableTest.endpoint3).2
      = MessagesToEmit.zero
    ∧ (TableTest.endpointsOnlyTable.RemoveEndpoint TableTest.key TableTest.endpoint1).2
      = MessagesToEmit.zero
    ∧ TableTest.routesOnlyTable.MessagesToEmit = MessagesToEmit.zero :=
  ⟨(no_emit_without_pairing TableTest.routesOnlyTable TableTest.emptyTemp TableTest.domains
      TableTest.key [TableTest.route TableTest.hostname1, TableTest.route TableTest.hostname3]
      none TableTest.endpoint1).1 (Or.inr (by decide)) (Or.inr (by decide)),
   (no_emit_without_pairing TableTest.endpointsOnlyTable TableTest.emptyTemp TableTest.domains
      TableTest.key [] none TableTest.endpoint3).2.2.1 (Or.inl (by decide))
      (Or.inl (by decide)),
   (no_emit_without_pairing TableTest.endpointsOnlyTable TableTest.emptyTemp TableTest.domains
      TableTest.key [] none TableTest.endpoint1).2.2.2.1 (Or.inl (by decide)),
   (no_emit_without_pairing TableTest.routesOnlyTable TableTest.emptyTemp TableTest.domains
      TableTest.key [] none TableTest.endpoint1).2.2.2.2.2.2.2
      (fun p hp => Or.inr (by
        have : p = (TableTest.key, TableTest.routesOnlyTable.entry TableTest.key) := by
          revert hp
          simp only [show TableTest.routesOnlyTable.entries
            = [(TableTest.key, TableTest.routesOnlyTable.entry TableTest.key)] from by decide,
            List.mem_singleton]
          exact id
        rw [this]
        decide))⟩

/-! ### RouteCount -/

theorem keys_setEntry_nodup (t : NATSRoutingTable) (key : RoutingKey) (e : RoutableEndpoints)
    (h : t.keys.Nodup) : (t.setEntry key e).keys.Nodup := by
  have hsub : ((t.entries.filter (fun p => decide (p.1 ≠ key))).map Prod.fst).Sublist t.keys :=
    List.Sublist.map _ (List.filter_sublist _)
  have hnd := h.sublist hsub
  have hnot : key ∉ (t.entries.filter (fun p => decide (p.1 ≠ key))).map Prod.fst := by
    intro hmem
    obtain ⟨p, hp, hk⟩ := List.mem_map.mp hmem
    have := (List.mem_filter.mp hp).2
    simp only [decide_eq_true_eq] at this
    exact this hk
  unfold NATSRoutingTable.setEntry NATSRoutingTable.keys
  split
  · exact hnd
  · rw [List.map_append, List.map_singleton]
    exact List.Nodup.append hnd (List.nodup_singleton _)
      (by
        intro a ha hb
        have hb2 : a = key := List.mem_singleton.mp hb
        rw [hb2] at ha
        exact hnot ha)

theorem keys_filterMap_nodup (ks : List RoutingKey)
    (f : RoutingKey → Option (RoutingKey × RoutableEndpoints))
    (hf : ∀ k p, f k = some p → p.1 = k) (h : ks.Nodup) :
    ((ks.filterMap f).map Prod.fst).Nodup := by
  have heq : (ks.filterMap f).map Prod.fst = ks.filter (fun k => (f k).isSome) := by
    induction ks with
    | nil => rfl
    | cons k rest ih =>
      have ih2 := ih (List.Nodup.of_cons h)
      cases hk : f k with
      | none =>
        rw [List.filterMap_cons_none hk, ih2, List.filter_cons_of_neg (by simp [hk])]
      | some p =>
        rw [List.filterMap_cons_some hk, List.map_cons, ih2, hf k p hk,
          List.filter_cons_of_pos (by simp [hk])]
  rw [heq]
  exact h.filter _

theorem keys_Swap_nodup (t new : NATSRoutingTable) (fresh : DomainSet) :
    (t.Swap new fresh).1.keys.Nodup := by
  unfold NATSRoutingTable.Swap NATSRoutingTable.keys
  apply keys_filterMap_nodup
  · intro k p hp
    dsimp only at hp
    split at hp
    · exact absurd hp (by simp)
    · rw [← Option.some.inj hp]
  · exact List.nodup_dedup _

theorem keys_foldl_setEntry_nodup {X : Type} (xs : List X)
    (f : NATSRoutingTable → X → RoutingKey × RoutableEndpoints) (t : NATSRoutingTable)
    (h : t.keys.Nodup) :
    (xs.foldl (fun t x => t.setEntry (f t x).1 (f t x).2) t).keys.Nodup := by
  induction xs generalizing t with
  | nil => exact h
  | cons x rest ih => exact ih _ (keys_setEntry_nodup t _ _ h)

/-- The tables reached by table operations hold one entry per routing key. -/
theorem Reachable.keys_nodup {t : NATSRoutingTable} (h : Reachable t) : t.keys.Nodup := by
  induction h with
  | new => exact List.nodup_nil
  | temp routes endpoints =>
    unfold NewTempTable
    exact keys_foldl_setEntry_nodup endpoints
      (fun t p => (p.1, { t.entry p.1 with Endpoints := p.2.foldl upsertEndpoint [] })) _
      (keys_foldl_setEntry_nodup routes
        (fun t p => (p.1, { t.entry p.1 with Routes := p.2 })) _ List.nodup_nil)
  | setRoutes h key routes tag ih =>
    unfold NATSRoutingTable.SetRoutes
    dsimp only
    split
    · exact ih
    · exact keys_setEntry_nodup _ _ _ ih
  | removeRoutes h key tag ih =>
    unfold NATSRoutingTable.RemoveRoutes
    dsimp only
    split
    · exact ih
    · exact keys_setEntry_nodup _ _ _ ih
  | addEndpoint h key endpoint ih =>
    unfold NATSRoutingTable.AddEndpoint
    dsimp only
    split
    · split
      · exact ih
      · exact keys_setEntry_nodup _ _ _ ih
    · exact keys_setEntry_nodup _ _ _ ih
  | removeEndpoint h key endpoint ih =>
    unfold NATSRoutingTable.RemoveEndpoint
    dsimp only
    split
    · exact ih
    · split
      · exact ih
      · exact keys_setEntry_nodup _ _ _ ih
  | swap h newTable fresh _ => exact keys_Swap_nodup _ _ _

theorem find?_of_mem_nodup (l : List (RoutingKey × RoutableEndpoints))
    (h : (l.map Prod.fst).Nodup) (p : RoutingKey × RoutableEndpoints) (hp : p ∈ l) :
    l.find? (fun q => decide (q.1 = p.1)) = some p := by
  induction l with
  | nil => exact absurd hp (List.not_mem_nil _)
  | cons q rest ih =>
    rw [List.map_cons, List.nodup_cons] at h
    by_cases hq : q.1 = p.1
    · have hpq : p = q := by
        rcases List.mem_cons.mp hp with hpq | hpr
        · exact hpq
        · exact absurd (List.mem_map.mpr ⟨p, hpr, hq.symm⟩) h.1
      rw [List.find?_cons_of_pos _ (by simpa using hq), hpq]
    · have hpr : p ∈ rest := by
        rcases List.mem_cons.mp hp with hpq | hpr
        · exact absurd (hpq ▸ rfl) hq
        · exact hpr
      rw [List.find?_cons_of_neg _ (by simpa using hq)]
      exact ih h.2 hpr

theorem entry_of_mem (t : NATSRoutingTable) (h : t.keys.Nodup)
    (p : RoutingKey × RoutableEndpoints) (hp : p ∈ t.entries) : t.entry p.1 = p.2 := by
  unfold NATSRoutingTable.entry
  rw [find?_of_mem_nodup t.entries h p hp]

/-- The table of the last `RouteCount` test is reached by two `SetRoutes` and four
`AddEndpoint` from the new table. -/
theorem routeCountTable_reachable : Reachable TableTest.routeCountTable := by
  unfold TableTest.routeCountTable
  exact Reachable.addEndpoint (Reachable.addEndpoint (Reachable.setRoutes
    (Reachable.addEndpoint (Reachable.addEndpoint (Reachable.setRoutes Reachable.new _ _ _)
      _ _) _ _) _ _ _) _ _) _ _

/-- C15, the claim at the table of the last `RouteCount` test: after the operations of
that test `RouteCount` is 8, as the test expects, while the sum over the routing
keys of |routes| × min(1, |non-evacuating instances|) is 4. -/
theorem RouteCount_is_not_claimed_formula :
    Reachable TableTest.routeCountTable
      ∧ TableTest.routeCountTable.RouteCount = 8
      ∧ TableTest.routeCountTable.claimedRouteCount = 4
      ∧ TableTest.routeCountTable.RouteCount ≠ TableTest.routeCountTable.claimedRouteCount :=
  ⟨routeCountTable_reachable, by decide, by decide, by decide⟩

theorem filter_upsert_evacuating (endpoints : List Endpoint) (e : Endpoint)
    (he : e.Evacuating = true) :
    (upsertEndpoint endpoints e).filter (fun x => !x.Evacuating)
      = endpoints.filter (fun x => !x.Evacuating) := by
  have hmap : (endpoints.map (fun x => if Endpoint.sameKey e x then e else x)).filter
      (fun x => !x.Evacuating) = endpoints.filter (fun x => !x.Evacuating) := by
    induction endpoints with
    | nil => rfl
    | cons x rest ih =>
      rw [List.map_cons, List.filter_cons, List.filter_cons, ih]
      by_cases hk : Endpoint.sameKey e x = true
      · have hx : x.Evacuating = true := by
          simp only [Endpoint.sameKey, Bool.and_eq_true, beq_iff_eq] at hk
          rw [← hk.2, he]
        simp [hk, he, hx]
      · simp [hk]
  unfold upsertEndpoint
  split
  · exact hmap
  · simp [List.filter_append, he]

theorem RouteCount_split_key (t : NATSRoutingTable) (key : RoutingKey) (h : t.keys.Nodup) :
    t.RouteCount
      = ((t.entries.filter (fun p => decide (p.1 ≠ key))).map (fun p => p.2.routeCount)).sum
        + (t.entry key).routeCount := by
  unfold NATSRoutingTable.RouteCount NATSRoutingTable.entry
  unfold NATSRoutingTable.keys at h
  generalize t.entries = l at h
  induction l with
  | nil => rfl
  | cons q rest ih =>
    rw [List.map_cons, List.nodup_cons] at h
    by_cases hq : q.1 = key
    · have hall : rest.filter (fun p => decide (p.1 ≠ key)) = rest := by
        apply List.filter_eq_self.mpr
        intro p hp
        have : p.1 ≠ key := fun hpk => h.1 (List.mem_map.mpr ⟨p, hp, hpk.trans hq.symm⟩)
        simpa using this
      rw [List.find?_cons_of_pos _ (by simpa using hq),
        List.filter_cons_of_neg (by simpa using hq), hall, List.map_cons, List.sum_cons,
        Nat.add_comm]
    · rw [List.find?_cons_of_neg _ (by simpa using hq),
        List.filter_cons_of_pos (by simpa using hq), List.map_cons, List.sum_cons,
        List.map_cons, List.sum_cons, ih h.2, Nat.add_assoc]

theorem AddEndpoint_evacuating_RouteCount (t : NATSRoutingTable) (key : RoutingKey)
    (e : Endpoint) (h : t.keys.Nodup) (he : e.Evacuating = true) :
    (t.AddEndpoint key e).1.RouteCount = t.RouteCount := by
  have hset : (t.setEntry key
      { t.entry key with Endpoints := upsertEndpoint (t.entry key).Endpoints e }).RouteCount
      = t.RouteCount := by
    rw [RouteCount_setEntry, RouteCount_split_key t key h]
    simp only [RoutableEndpoints.routeCount, RoutableEndpoints.nonEvacuatingInstances,
      filter_upsert_evacuating _ e he]
  unfold NATSRoutingTable.AddEndpoint
  dsimp only
  split
  · split
    · rfl
    · exact hset
  · exact hset

theorem claimedRouteCount_le (t : NATSRoutingTable) : t.claimedRouteCount ≤ t.RouteCount := by
  unfold NATSRoutingTable.claimedRouteCount NATSRoutingTable.RouteCount
  apply List.sum_le_sum
  intro p _
  exact Nat.mul_le_mul_left _ (Nat.min_le_right _ _)

theorem claimedRouteCount_eq (t : NATSRoutingTable) (hnd : t.keys.Nodup)
    (h : ∀ k ∈ t.keys, (t.entry k).Routes = []
      ∨ (t.entry k).nonEvacuatingInstances.length ≤ 1) :
    t.RouteCount = t.claimedRouteCount := by
  unfold NATSRoutingTable.claimedRouteCount NATSRoutingTable.RouteCount
  congr 1
  apply List.map_congr_left
  intro p hp
  have hk : p.1 ∈ t.keys := List.mem_map.mpr ⟨p, hp, rfl⟩
  have hp2 := h p.1 hk
  rw [entry_of_mem t hnd p hp] at hp2
  unfold RoutableEndpoints.routeCount RoutableEndpoints.claimedRouteCount
  rcases hp2 with hr | hn
  · simp [hr]
  · rw [Nat.min_eq_right hn]

/-- C15 as amended: after any sequence of table operations the table holds one entry for
each routing key and `RouteCount` is the sum over the routing keys of
|routes| × |non-evacuating instances|, the instances not capped at one. An entry with
no route or no endpoint contributes zero, and adding an evacuating endpoint leaves
`RouteCount` as it is. The sum of the claim, with the instances capped at one, is at
most `RouteCount`, and is `RouteCount` when every key has no route or at most one
non-evacuating instance. -/
theorem RouteCount_counts_instances (t : NATSRoutingTable) (h : Reachable t) :
    t.keys.Nodup
    ∧ t.RouteCount
        = (t.keys.map (fun k =>
            (t.entry k).Routes.length
              * (((t.entry k).Endpoints.filter (fun x => !x.Evacuating)).map
                  (fun x => x.InstanceGuid)).dedup.length)).sum
    ∧ (∀ k, (t.entry k).OneSided →
        (t.entry k).Routes.length
          * (((t.entry k).Endpoints.filter (fun x => !x.Evacuating)).map
              (fun x => x.InstanceGuid)).dedup.length = 0)
    ∧ (∀ key e, e.Evacuating = true → (t.AddEndpoint key e).1.RouteCount = t.RouteCount)
    ∧ t.claimedRouteCount ≤ t.RouteCount
    ∧ ((∀ k ∈ t.keys, (t.entry k).Routes = []
          ∨ (t.entry k).nonEvacuatingInstances.length ≤ 1) →
        t.RouteCount = t.claimedRouteCount) := by
  have hnd := h.keys_nodup
  refine ⟨hnd, ?_, ?_, fun key e he => AddEndpoint_evacuating_RouteCount t key e hnd he,
    claimedRouteCount_le t, claimedRouteCount_eq t hnd⟩
  · unfold NATSRoutingTable.RouteCount NATSRoutingTable.keys
    rw [List.map_map]
    congr 1
    apply List.map_congr_left
    intro p hp
    simp only [Function.comp_apply, entry_of_mem t hnd p hp, RoutableEndpoints.routeCount,
      RoutableEndpoints.nonEvacuatingInstances]
  · intro k hk
    rcases hk with hk | hk <;> simp [hk]

/-- C15 as amended, on the tables of the tests: the table of the last `RouteCount` test
counts 2 × 2 on each of its two keys, and the evacuating twin of `endpoint1` added to
the table with two routes and two instances leaves the count at 4. -/
theorem RouteCount_counts_instances_witness :
    TableTest.routeCountTable.RouteCount
        = (TableTest.routeCountTable.keys.map (fun k =>
            (TableTest.routeCountTable.entry k).Routes.length
              * (((TableTest.routeCountTable.entry k).Endpoints.filter
                    (fun x => !x.Evacuating)).map (fun x => x.InstanceGuid)).dedup.length)).sum
    ∧ (TableTest.swappedTable.AddEndpoint TableTest.key TableTest.evacuating1).1.RouteCount
        = TableTest.swappedTable.RouteCount :=
  ⟨(RouteCount_counts_instances TableTest.routeCountTable routeCountTable_reachable).2.1,
   (RouteCount_counts_instances TableTest.swappedTable
      (Reachable.swap Reachable.new _ _)).2.2.2.1 TableTest.key TableTest.evacuating1 rfl⟩

/-! ## The model on the scenarios of nats_routing_table_test.go

The expected messages are those of the tests, which compare them as multisets. -/

/-- The `Describe("Evacuating endpoints")` scenario (scenario S1 of the spec): the
messages of the six calls, in order. -/
theorem test_evacuating_endpoints :
    let s1 := NewNATSTable.SetRoutes TableTest.key [TableTest.route TableTest.hostname1]
      (some TableTest.currentTag)
    let s2 := s1.1.AddEndpoint TableTest.key TableTest.endpoint1
    let s3 := s2.1.AddEndpoint TableTest.key TableTest.evacuating1
    let s4 := s3.1.RemoveEndpoint TableTest.key TableTest.endpoint1
    let s5 := s4.1.AddEndpoint TableTest.key TableTest.newInstanceEndpointAfterEvacuation
    let s6 := s5.1.RemoveEndpoint TableTest.key TableTest.evacuating1
    s1.2 = MessagesToEmit.zero
      ∧ s2.2 = { MessagesToEmit.zero with RegistrationMessages :=
          [RegistryMessageFor TableTest.endpoint1 (TableTest.route TableTest.hostname1)] }
      ∧ s3.2 = MessagesToEmit.zero
      ∧ s4.2 = MessagesToEmit.zero
      ∧ s5.2 = { MessagesToEmit.zero with RegistrationMessages :=
          [RegistryMessageFor TableTest.newInstanceEndpointAfterEvacuation
            (TableTest.route TableTest.hostname1)] }
      ∧ s6.2 = { MessagesToEmit.zero with UnregistrationMessages :=
          [RegistryMessageFor TableTest.evacuating1 (TableTest.route TableTest.hostname1)] } := by
  decide

/-- The `Describe("SetRoutes")` tests on the table with both routes and endpoints. -/
theorem test_SetRoutes :
    (TableTest.bothTable.SetRoutes TableTest.key
        [TableTest.route TableTest.hostname1, TableTest.route TableTest.hostname2]
        (some TableTest.newerTag)).2 = MessagesToEmit.zero
    ∧ (TableTest.bothTable.SetRoutes TableTest.key
        [TableTest.routeWithService TableTest.hostname1,
         TableTest.routeWithService TableTest.hostname2] (some TableTest.newerTag)).2
      = { MessagesToEmit.zero with RegistrationMessages :=
          (messagesFor [TableTest.routeWithService TableTest.hostname1,
            TableTest.routeWithService TableTest.hostname2]
            [TableTest.endpoint1, TableTest.endpoint2]) }
    ∧ (TableTest.bothTable.SetRoutes TableTest.key
        [TableTest.route TableTest.hostname1, TableTest.route TableTest.hostname2,
         TableTest.route TableTest.hostname3] (some TableTest.olderTag)).2 = MessagesToEmit.zero
    ∧ (TableTest.bothTable.SetRoutes TableTest.key
        [TableTest.route TableTest.hostname1, TableTest.route TableTest.hostname2,
         TableTest.route TableTest.hostname3] (some TableTest.newerTag)).2
      = { MessagesToEmit.zero with RegistrationMessages :=
          (messagesFor [TableTest.route TableTest.hostname1, TableTest.route TableTest.hostname2,
            TableTest.route TableTest.hostname3] [TableTest.endpoint1, TableTest.endpoint2]) }
    ∧ (TableTest.bothTable.SetRoutes TableTest.key [TableTest.route TableTest.hostname1]
        (some TableTest.olderTag)).2 = MessagesToEmit.zero
    ∧ (TableTest.bothTable.SetRoutes TableTest.key [TableTest.route TableTest.hostname1]
        (some TableTest.newerTag)).2
      = { MessagesToEmit.zero with
          RegistrationMessages :=
            (messagesFor [TableTest.route TableTest.hostname1]
              [TableTest.endpoint1, TableTest.endpoint2])
          UnregistrationMessages :=
            (messagesFor [TableTest.route TableTest.hostname2]
              [TableTest.endpoint1, TableTest.endpoint2]) }
    ∧ (TableTest.bothTable.SetRoutes TableTest.key
        [TableTest.route TableTest.hostname1, TableTest.route TableTest.hostname3]
        (some TableTest.olderTag)).2 = MessagesToEmit.zero
    ∧ (TableTest.bothTable.SetRoutes TableTest.key
        [TableTest.route TableTest.hostname1, TableTest.route TableTest.hostname3]
        (some TableTest.newerTag)).2
      = { MessagesToEmit.zero with
          RegistrationMessages :=
            (messagesFor [TableTest.route TableTest.hostname1, TableTest.route TableTest.hostname3]
              [TableTest.endpoint1, TableTest.endpoint2])
          UnregistrationMessages :=
            (messagesFor [TableTest.route TableTest.hostname2]
              [TableTest.endpoint1, TableTest.endpoint2]) } := by
  decide

/-- The `Context("RemoveRoutes")` tests on the table with both routes and endpoints. -/
theorem test_RemoveRoutes :
    (TableTest.bothTable.RemoveRoutes TableTest.key (some TableTest.newerTag)).2
      = { MessagesToEmit.zero with UnregistrationMessages :=
          (messagesFor [TableTest.route TableTest.hostname1, TableTest.route TableTest.hostname2]
            [TableTest.endpoint1, TableTest.endpoint2]) }
    ∧ (TableTest.bothTable.RemoveRoutes TableTest.key (some TableTest.newerTag)).1.RouteCount = 0
    ∧ (TableTest.bothTable.RemoveRoutes TableTest.key (some TableTest.currentTag)).2
      = { MessagesToEmit.zero with UnregistrationMessages :=
          (messagesFor [TableTest.route TableTest.hostname1, TableTest.route TableTest.hostname2]
            [TableTest.endpoint1, TableTest.endpoint2]) }
    ∧ (TableTest.bothTable.RemoveRoutes TableTest.key (some TableTest.currentTag)).1.RouteCount = 0
    ∧ (TableTest.bothTable.RemoveRoutes TableTest.key (some TableTest.olderTag)).2
      = MessagesToEmit.zero
    ∧ (TableTest.bothTable.RemoveRoutes TableTest.key (some TableTest.olderTag)).1.RouteCount
      = TableTest.bothTable.RouteCount := by
  decide

/-- The `Context("AddEndpoint")` tests on the table with both routes and endpoints. -/
theorem test_AddEndpoint :
    (TableTest.bothTable.AddEndpoint TableTest.key TableTest.endpoint1).2 = MessagesToEmit.zero
    ∧ (TableTest.bothTable.AddEndpoint TableTest.key
        { TableTest.endpoint1 with ModificationTag := some TableTest.olderTag }).2
      = MessagesToEmit.zero
    ∧ (TableTest.bothTable.AddEndpoint TableTest.key
        { TableTest.endpoint1 with ModificationTag := some TableTest.newerTag }).2
      = MessagesToEmit.zero
    ∧ (TableTest.bothTable.AddEndpoint TableTest.key TableTest.endpoint3).2
      = { MessagesToEmit.zero with RegistrationMessages :=
          (messagesFor [TableTest.route TableTest.hostname1, TableTest.route TableTest.hostname2]
            [TableTest.endpoint3]) }
    ∧ (TableTest.bothTable.AddEndpoint TableTest.key TableTest.evacuating1).2
      = MessagesToEmit.zero
    ∧ ((TableTest.bothTable.AddEndpoint TableTest.key TableTest.evacuating1).1.AddEndpoint
        TableTest.key TableTest.endpoint1).2 = MessagesToEmit.zero := by
  decide

/-- The `Context("RemoveEndpoint")` tests on the table with both routes and
endpoints. -/
theorem test_RemoveEndpoint :
    (TableTest.bothTable.RemoveEndpoint TableTest.key TableTest.endpoint2).2
      = { MessagesToEmit.zero with UnregistrationMessages :=
          (messagesFor [TableTest.route TableTest.hostname1, TableTest.route TableTest.hostname2]
            [TableTest.endpoint2]) }
    ∧ (TableTest.bothTable.RemoveEndpoint TableTest.key
        { TableTest.endpoint2 with ModificationTag := some TableTest.newerTag }).2
      = { MessagesToEmit.zero with UnregistrationMessages :=
          (messagesFor [TableTest.route TableTest.hostname1, TableTest.route TableTest.hostname2]
            [TableTest.endpoint2]) }
    ∧ (TableTest.bothTable.RemoveEndpoint TableTest.key
        { TableTest.endpoint2 with ModificationTag := some TableTest.olderTag }).2
      = MessagesToEmit.zero
    ∧ ((TableTest.bothTable.AddEndpoint TableTest.key TableTest.evacuating1).1.RemoveEndpoint
        TableTest.key TableTest.endpoint1).2 = MessagesToEmit.zero := by
  decide

/-- The tests on an empty table, on a table with only routes and on a table with only
endpoints. -/
theorem test_one_sided_tables :
    (NewNATSTable.SetRoutes TableTest.key
        [TableTest.route TableTest.hostname1, TableTest.route TableTest.hostname2]
        (some TableTest.currentTag)).2 = MessagesToEmit.zero
    ∧ (NewNATSTable.RemoveRoutes TableTest.key (some TableTest.currentTag)).2
      = MessagesToEmit.zero
    ∧ (NewNATSTable.AddEndpoint TableTest.key TableTest.endpoint1).2 = MessagesToEmit.zero
    ∧ (NewNATSTable.RemoveEndpoint TableTest.key TableTest.endpoint1).2 = MessagesToEmit.zero
    ∧ (TableTest.routesOnlyTable.SetRoutes TableTest.key
        [TableTest.route TableTest.hostname1, TableTest.route TableTest.hostname3] none).2
      = MessagesToEmit.zero
    ∧ (TableTest.routesOnlyTable.RemoveRoutes TableTest.key (some TableTest.currentTag)).2
      = MessagesToEmit.zero
    ∧ (TableTest.routesOnlyTable.AddEndpoint TableTest.key TableTest.endpoint1).2
      = { MessagesToEmit.zero with RegistrationMessages :=
          (messagesFor [TableTest.routeWithService TableTest.hostname1,
            TableTest.routeWithService TableTest.hostname2] [TableTest.endpoint1]) }
    ∧ (TableTest.endpointsOnlyTable.SetRoutes TableTest.key
        [TableTest.routeWithService TableTest.hostname1,
         TableTest.routeWithService TableTest.hostname2] (some TableTest.currentTag)).2
      = { MessagesToEmit.zero with RegistrationMessages :=
          (messagesFor [TableTest.routeWithService TableTest.hostname1,
            TableTest.routeWithService TableTest.hostname2]
            [TableTest.endpoint1, TableTest.endpoint2]) }
    ∧ (TableTest.endpointsOnlyTable.RemoveRoutes TableTest.key (some TableTest.currentTag)).2
      = MessagesToEmit.zero
    ∧ (TableTest.endpointsOnlyTable.AddEndpoint TableTest.key TableTest.endpoint2).2
      = MessagesToEmit.zero
    ∧ (TableTest.endpointsOnlyTable.RemoveEndpoint TableTest.key TableTest.endpoint1).2
      = MessagesToEmit.zero := by
  decide

/-- The `Describe("RouteCount")` tests: 0 on a new table, 1, 2 and 8. -/
theorem test_RouteCount :
    NewNATSTable.RouteCount = 0
    ∧ ((NewNATSTable.SetRoutes (TableTest.fakeKey "fake-process-guid")
          [TableTest.route "fake-route-url"] none).1.AddEndpoint
          (TableTest.fakeKey "fake-process-guid")
          (TableTest.fakeEndpoint "fake-instance-guid")).1.RouteCount = 1
    ∧ ((NewNATSTable.SetRoutes (TableTest.fakeKey "fake-process-guid")
          [TableTest.route "fake-route-url-1", TableTest.route "fake-route-url-2"] none).1.AddEndpoint
          (TableTest.fakeKey "fake-process-guid")
          (TableTest.fakeEndpoint "fake-instance-guid-1")).1.RouteCount = 2
    ∧ ((((((NewNATSTable.SetRoutes (TableTest.fakeKey "fake-process-guid-a")
          [TableTest.route "fake-route-url-a-1", TableTest.route "fake-route-url-a-2"] none).1.AddEndpoint
          (TableTest.fakeKey "fake-process-guid-a")
          (TableTest.fakeEndpoint "fake-instance-guid-a-1")).1.AddEndpoint
          (TableTest.fakeKey "fake-process-guid-a")
          (TableTest.fakeEndpoint "fake-instance-guid-a-2")).1.SetRoutes
          (TableTest.fakeKey "fake-process-guid-b")
          [TableTest.route "fake-route-url-b-1", TableTest.route "fake-route-url-b-2"] none).1.AddEndpoint
          (TableTest.fakeKey "fake-process-guid-b")
          (TableTest.fakeEndpoint "fake-instance-guid-b-1")).1.AddEndpoint
          (TableTest.fakeKey "fake-process-guid-b")
          (TableTest.fakeEndpoint "fake-instance-guid-b-2")).1.RouteCount = 8 := by
  decide

/-- The `Describe("Swap")` tests on an existing routing key with a fresh domain: the same
table registers every pair again; a lost hostname and a lost endpoint are
unregistered; the key that disappears is unregistered entirely. -/
theorem test_Swap_fresh :
    (TableTest.swappedTable.Swap
        (TableTest.temp [TableTest.route TableTest.hostname1, TableTest.route TableTest.hostname2]
          [TableTest.endpoint1, TableTest.endpoint2]) TableTest.domains).2
      = { MessagesToEmit.zero with
          RegistrationMessages :=
            (messagesFor [TableTest.route TableTest.hostname1, TableTest.route TableTest.hostname2]
              [TableTest.endpoint1, TableTest.endpoint2]) }
    ∧ (TableTest.swappedTable.Swap
        (TableTest.temp [TableTest.route TableTest.hostname1] [TableTest.endpoint1])
        TableTest.domains).2
      = { MessagesToEmit.zero with
          RegistrationMessages :=
            (messagesFor [TableTest.route TableTest.hostname1] [TableTest.endpoint1])
          UnregistrationMessages :=
            (messagesFor [TableTest.route TableTest.hostname2] [TableTest.endpoint1]
              ++ messagesFor
                  [TableTest.route TableTest.hostname1, TableTest.route TableTest.hostname2]
                  [TableTest.endpoint2]) }
    ∧ (TableTest.swappedTable.Swap TableTest.emptyTemp TableTest.domains).2
      = { MessagesToEmit.zero with
          UnregistrationMessages :=
            (messagesFor [TableTest.route TableTest.hostname1, TableTest.route TableTest.hostname2]
              [TableTest.endpoint1, TableTest.endpoint2]) } := by
  decide

/-- The `Describe("Swap")` tests with a domain that is not fresh: the key that disappears
keeps its routes and is registered again, also when the Swap is repeated; a key
that changes hostname 2 for hostname 3 keeps hostname 2. -/
theorem test_Swap_stale :
    (TableTest.swappedTable.Swap TableTest.emptyTemp TableTest.noFreshDomains).2
      = { MessagesToEmit.zero with
          RegistrationMessages :=
            (messagesFor [TableTest.route TableTest.hostname1, TableTest.route TableTest.hostname2]
              [TableTest.endpoint1, TableTest.endpoint2]) }
    ∧ ((TableTest.swappedTable.Swap TableTest.emptyTemp TableTest.noFreshDomains).1.Swap
        TableTest.emptyTemp TableTest.noFreshDomains).2
      = { MessagesToEmit.zero with
          RegistrationMessages :=
            (messagesFor [TableTest.route TableTest.hostname1, TableTest.route TableTest.hostname2]
              [TableTest.endpoint1, TableTest.endpoint2]) }
    ∧ ((NewNATSTable.Swap
          (TableTest.temp [TableTest.route TableTest.hostname1, TableTest.route TableTest.hostname2]
            [TableTest.endpoint1]) TableTest.domains).1.Swap
        (TableTest.temp [TableTest.route TableTest.hostname1, TableTest.route TableTest.hostname3]
          [TableTest.endpoint1]) TableTest.noFreshDomains).2
      = { MessagesToEmit.zero with
          RegistrationMessages :=
            (messagesFor [TableTest.route TableTest.hostname1, TableTest.route TableTest.hostname3,
                TableTest.route TableTest.hostname2] [TableTest.endpoint1]) } := by
  decide

/-- The `Describe("MessagesToEmit")` tests: nothing for an empty table and for a table with
only routes or only endpoints, every pair for a table with both. -/
theorem test_MessagesToEmit :
    NewNATSTable.MessagesToEmit = MessagesToEmit.zero
    ∧ TableTest.routesOnlyTable.MessagesToEmit = MessagesToEmit.zero
    ∧ TableTest.endpointsOnlyTable.MessagesToEmit = MessagesToEmit.zero
    ∧ TableTest.bothTable.MessagesToEmit
      = { MessagesToEmit.zero with
          RegistrationMessages :=
            (messagesFor [TableTest.route TableTest.hostname1, TableTest.route TableTest.hostname2]
              [TableTest.endpoint1, TableTest.endpoint2]) } := by
  decide

end RouteEmitter
